import Mathlib

/-!
# The demo adaptor of the image acquisition adaptor kit

A shallow embedding of `kit/demo/DemoAdaptor.cpp` (frame generator, capture
loop, open/start/stop/close) and of the parts of the adaptor kit interfaces it
relies on, followed by theorems about that embedding.

Conventions
* `int` is the 32-bit two's complement integer of the target platforms; the
  result of every `int` operation is passed through `wrapInt`.  Statements that
  need the mathematical result carry the bounds under which nothing wraps.
* `%` on `int` is the remainder of truncating division, `cRem`.
* storing an `int` into an `unsigned char` keeps the value modulo 256,
  `toUChar`.
-/

namespace DemoAdaptor

/-! ## Machine arithmetic -/

/-- Value of an `int` expression whose mathematical result is `v`
(32 bit, two's complement). -/
def wrapInt (v : Int) : Int :=
  (v + 2147483648) % 4294967296 - 2147483648

/-- The operator `%` on `int`: the remainder has the sign of the dividend. -/
def cRem (a b : Int) : Int :=
  Int.tmod a b

/-- Conversion of an `int` to `unsigned char`. -/
def toUChar (v : Int) : Nat :=
  (v % 256).toNat

/-- Conversion of an `int` to `size_t` (64 bit). -/
def toSizeT (v : Int) : Nat :=
  (v % 18446744073709551616).toNat

/-! ## Constants of `mwdemoimaq.h` -/

/-- Constant `demo::IMAGE_DATA_OFFSET`. -/
def IMAGE_DATA_OFFSET : Int := 2

/-- Constant `demo::IMAGE_FRAME_PAUSE_TIME` (milliseconds). -/
def IMAGE_FRAME_PAUSE_TIME : Nat := 30

/-- Constant `demo::DEMO_DEFAULT_WIDTH`. -/
def DEMO_DEFAULT_WIDTH : Int := 640

/-- Constant `demo::DEMO_DEFAULT_HEIGHT`. -/
def DEMO_DEFAULT_HEIGHT : Int := 480

/-- Constant `demo::DEMO_DEFAULT_NUMBER_OF_BANDS`. -/
def DEMO_DEFAULT_NUMBER_OF_BANDS : Int := 3

/-! ## The frame generator inside `sendFrame` -/

/-- The frame buffer `imBuffer` together with the write cursor `reference`.
A cell is `none` until it has been written (`new unsigned char[n]` does not
initialise).  `overrun` becomes true at the first store whose index is not
inside the buffer. -/
structure GenState where
  imBuffer : List (Option Nat)
  reference : Nat
  overrun : Bool
  deriving DecidableEq, Repr

/-- The statement `imBuffer[reference++] = v;`.  `reference` is a `size_t`; it
is advanced at most `3 * imageWidth * imageHeight < 2 ^ 64` times. -/
def GenState.store (s : GenState) (v : Int) : GenState :=
  { imBuffer := s.imBuffer.set s.reference (some (toUChar v))
    reference := s.reference + 1
    overrun := s.overrun || decide (s.imBuffer.length ≤ s.reference) }

/-- The loop nest of the branch `imageBands == 1`. -/
def fillSingleBand (imageWidth imageHeight offset : Int) (s : GenState) : GenState :=
  (List.range imageHeight.toNat).foldl
    (fun (s : GenState) (_height : Nat) =>
      (List.range imageWidth.toNat).foldl
        (fun (s : GenState) (width : Nat) =>
          s.store (cRem (wrapInt ((width : Int) + offset)) 255)) s)
    s

/-- The loop nest of the `else` branch (any band count other than 1): three
stores per pixel. -/
def fillMultiBand (imageWidth imageHeight offset : Int) (s : GenState) : GenState :=
  (List.range imageHeight.toNat).foldl
    (fun (s : GenState) (height : Nat) =>
      (List.range imageWidth.toNat).foldl
        (fun (s : GenState) (width : Nat) =>
          ((s.store (cRem (wrapInt ((width : Int) - offset)) 255)).store
              (cRem (wrapInt ((height : Int) - offset)) 255)).store
            (cRem (wrapInt (wrapInt ((width : Int) + (height : Int)) - offset)) 255))
        s)
    s

/-- The initialiser of `size_t bufferSize = imageWidth * imageHeight * imageBands;`:
the product is formed in `int` and then converted. -/
def bufferSize (imageWidth imageHeight imageBands : Int) : Nat :=
  toSizeT (wrapInt (wrapInt (imageWidth * imageHeight) * imageBands))

/-- The buffer right after a successful `new unsigned char[bufferSize]`. -/
def freshBuffer (imageWidth imageHeight imageBands : Int) : GenState :=
  { imBuffer := List.replicate (bufferSize imageWidth imageHeight imageBands) none
    reference := 0
    overrun := false }

/-- Lines 364-391 of `sendFrame` after a successful allocation: allocate the
buffer and fill it for the current `offset`. -/
def generateFrame (imageWidth imageHeight imageBands offset : Int) : GenState :=
  if imageBands = 1 then
    fillSingleBand imageWidth imageHeight offset (freshBuffer imageWidth imageHeight imageBands)
  else
    fillMultiBand imageWidth imageHeight offset (freshBuffer imageWidth imageHeight imageBands)

/-- The bytes of a buffer all of whose cells have been written. -/
def GenState.bytes (s : GenState) : List Nat :=
  s.imBuffer.map (fun c => c.getD 0)

/-! ## State of the adaptor and of its host

The non-Windows build is modelled (the `#else` branches).  The engine, its
adaptor manager and the operating system are not part of the sources: what
they answer is taken from an `Env`, what they are asked is recorded in the
trace of the `World`. -/

/-- Class `DemoDeviceFormat`. -/
structure DemoDeviceFormat where
  _formatHeight : Int
  _formatWidth : Int
  _formatNumBands : Int
  _formatFrameType : Nat
  deriving DecidableEq, Repr

/-- Macro `NUMBANDS(num)` of `AdaptorFrameTypes.h`. -/
def NUMBANDS (num : Nat) : Nat := (num &&& 0xFF) <<< 16

/-- Enumerator `imaqkit::frametypes::MONO8`. -/
def MONO8 : Nat := 0x11000000 ||| NUMBANDS 1 ||| 0x0

/-- Enumerator `imaqkit::frametypes::RGB24_PACKED`. -/
def RGB24_PACKED : Nat := 0x01000000 ||| NUMBANDS 3 ||| 0x0

/-- The two critical sections created by the constructor: `_driverGuard` and
`_acquisitionActiveGuard`. -/
inductive Guard where
  | driverGuard
  | acquisitionActiveGuard
  deriving DecidableEq, Repr

/-- Result of `getROI`. -/
structure ROI where
  originX : Int
  originY : Int
  width : Int
  height : Int
  deriving DecidableEq, Repr

/-- Enumeration `imaqkit::propertytypes::DATATYPE`. -/
inductive DATATYPE where
  | OTHER
  | STRING
  | DOUBLE
  | DOUBLE_ARRAY
  | INT
  | INT_ARRAY
  | COMMAND
  deriving DecidableEq, Repr

/-- What the listeners ask of an `imaqkit::IPropInfo` object. -/
structure IPropInfo where
  getPropertyName : String
  getPropertyStorageType : DATATYPE
  deriving DecidableEq, Repr

/-- The memory behind a non-null `void* newValue`, as each cast in the two
`notify` methods reads it: `*reinterpret_cast<double*>` (the 64 bits of the
double), `*reinterpret_cast<int64_t*>`, `reinterpret_cast<char*>` and
`*static_cast<const int*>`. -/
structure NewValue where
  asDouble : Nat
  asInt64 : Int
  asString : String
  asInt : Int
  deriving DecidableEq, Repr

/-- Data members of class `DemoPropListener` other than `_parent`; a member
without initialiser is `none` until it is assigned. -/
structure DemoPropListener where
  _propInfo : Option IPropInfo
  _lastIntValue : Option Int
  _lastDoubleValue : Option Nat
  _lastStrValue : String
  deriving DecidableEq, Repr

/-- Data members of class `DemoSourceListener` other than `_parent`. -/
structure DemoSourceListener where
  _source : Option Int
  deriving DecidableEq, Repr

/-- Calls that leave the adaptor code, in the order in which they are made.
`whileCondition` marks one evaluation of the loop condition of `sendFrame`; its
two fields record whether `driverSection` is entered and whether `_driverGuard`
is locked at that moment.  `stop` and `restart` are the calls `_parent->stop()`
and `_parent->restart()` made by a listener. -/
inductive Event where
  | enter (g : Guard)
  | leave (g : Guard)
  | notifyAllListeners
  | pthread_create (errcode : Int)
  | pthread_join (thread : Option Nat)
  | whileCondition (driverSectionEntered : Bool) (driverGuardLocked : Bool)
  | newBuffer (bufferSize : Nat) (succeeded : Bool)
  | adaptorError (msgID : String) (msg : String)
  | usleep (microseconds : Nat)
  | getROI
  | makeFrame (frameType : Nat) (roiWidth roiHeight : Int) (isNull : Bool)
  | setImage (imBuffer : List (Option Nat)) (imageWidth imageHeight roiOriginX roiOriginY : Int)
  | setTime
  | receiveFrame
  | incrementFrameCount
  | deleteBuffer
  | stop
  | restart
  deriving DecidableEq, Repr

/-- The adaptor object with its listeners, the state the adaptor manager keeps
for it, and the capture threads. -/
structure World where
  /-- what `IAdaptor::isOpen()` returns -/
  isOpen : Bool
  /-- what `IAdaptor::isAcquiring()` returns -/
  isAcquiring : Bool
  /-- what `IAdaptor::getFrameCount()` returns -/
  frameCount : Nat
  /-- what `getFormatInfo()` returns (`none` for `NULL`) -/
  formatInfo : Option DemoDeviceFormat
  _acquisitionActive : Bool
  /-- handle of the capture thread (`none` for `NULL`) -/
  _sendThread : Option Nat
  /-- whether `_driverGuard` is locked -/
  _driverGuard : Bool
  /-- whether `_acquisitionActiveGuard` is locked -/
  _acquisitionActiveGuard : Bool
  /-- capture threads created by `pthread_create` and not yet joined; each of
  them runs `sendThread` -/
  threads : List Nat
  /-- number of calls of `pthread_create` so far -/
  created : Nat
  /-- number of evaluations of the loop condition of `sendFrame` so far -/
  clock : Nat
  trace : List Event
  /-- the `DemoPropListener` objects created by `initDevice`, one for each
  device-specific property, in the order of the properties -/
  propListeners : List DemoPropListener := []
  /-- the `DemoSourceListener` object created by `initDevice` -/
  sourceListener : DemoSourceListener := { _source := none }
  deriving DecidableEq, Repr

/-- Answers of the host.  The answers used in one iteration of the loop of
`sendFrame` are those at the value `clock` has when its condition is
evaluated; `pthread_create` is indexed by the number of earlier calls. -/
structure Env where
  isAcquisitionNotComplete : Nat → Bool
  useHardwareTrigger : Nat → Bool
  /-- whether `new unsigned char[bufferSize]` succeeds -/
  newSucceeds : Nat → Bool
  isSendFrame : Nat → Bool
  getROI : Nat → ROI
  /-- whether `makeFrame` returns `NULL` -/
  makeFrameNull : Nat → Bool
  /-- error code returned by `pthread_create` -/
  pthread_create : Nat → Int
  /-- what `_sendThread` holds after a `pthread_create` that has failed: the
  call is given `&_sendThread`, and the contents of that location are undefined
  when it fails -/
  failedHandle : Nat → Option Nat
  /-- the device-specific properties that have a listener, each with the
  pointer to its current value (`none` for `NULL`) -/
  properties : List (IPropInfo × Option NewValue) := []

/-- How a call ends: it returns, it waits for a critical section that is
locked, it dereferences a null pointer, or the bound on the number of loop
iterations is used up before it returns. -/
inductive Outcome (α : Type) where
  | done (a : α) (w : World)
  | blocked (w : World)
  | crashed (w : World)
  | fuelOut (w : World)
  deriving DecidableEq, Repr

/-- The state reached, however the call ended. -/
def Outcome.world {α : Type} : Outcome α → World
  | .done _ w => w
  | .blocked w => w
  | .crashed w => w
  | .fuelOut w => w

/-- A piece of adaptor code returning an `α`. -/
@[reducible] def M (α : Type) : Type := World → Outcome α

/-- Sequencing: the second part runs only if the first one returns. -/
def M.bind {α β : Type} (m : M α) (f : α → M β) : M β := fun w =>
  match m w with
  | .done a w' => f a w'
  | .blocked w' => .blocked w'
  | .crashed w' => .crashed w'
  | .fuelOut w' => .fuelOut w'

instance : Monad M where
  pure a := fun w => .done a w
  bind := M.bind

/-- Record a call in the trace. -/
def emit (e : Event) : M Unit := fun w =>
  .done () { w with trace := w.trace ++ [e] }

/-- Whether a critical section is locked. -/
def World.locked (w : World) : Guard → Bool
  | .driverGuard => w._driverGuard
  | .acquisitionActiveGuard => w._acquisitionActiveGuard

/-- Set the lock state of a critical section. -/
def World.setLocked (w : World) (g : Guard) (b : Bool) : World :=
  match g with
  | .driverGuard => { w with _driverGuard := b }
  | .acquisitionActiveGuard => { w with _acquisitionActiveGuard := b }

/-- Method `ICriticalSection::enter`: lock the section; the caller waits while
it is locked. -/
def ICriticalSection.enter (g : Guard) : M Unit := fun w =>
  if w.locked g then .blocked w
  else .done () ({ w with trace := w.trace ++ [Event.enter g] }.setLocked g true)

/-- Method `ICriticalSection::leave`: unlock the section. -/
def ICriticalSection.leave (g : Guard) : M Unit := fun w =>
  .done () ({ w with trace := w.trace ++ [Event.leave g] }.setLocked g false)

/-- Modelled from the spec: the class behind `imaqkit::IAutoCriticalSection` is
part of the engine and not in the sources.  The object remembers the section it
wraps and whether it has entered it (`getState`). -/
structure IAutoCriticalSection where
  guard : Guard
  state : Bool
  deriving DecidableEq, Repr

/-- Modelled from the spec: `imaqkit::createAutoCriticalSection(section, enter)`,
"True to indicate the critical section object should be entered upon
creation". -/
def createAutoCriticalSection (g : Guard) (enter : Bool) : M IAutoCriticalSection :=
  if enter then do
    ICriticalSection.enter g
    pure { guard := g, state := true }
  else
    pure { guard := g, state := false }

/-- Modelled from the spec: `IAutoCriticalSection::enter`, "If the critical
section has not been entered (locked) then enter it and lock the section.  If it
has already been entered, do nothing." -/
def IAutoCriticalSection.enter (a : IAutoCriticalSection) : M IAutoCriticalSection :=
  if a.state then pure a
  else do
    ICriticalSection.enter a.guard
    pure { a with state := true }

/-- Modelled from the spec: `IAutoCriticalSection::leave`, "If the critical
section has been entered (locked) then leave (unlock) the critical section.
Otherwise, do nothing." -/
def IAutoCriticalSection.leave (a : IAutoCriticalSection) : M IAutoCriticalSection :=
  if a.state then do
    ICriticalSection.leave a.guard
    pure { a with state := false }
  else pure a

/-- Modelled from the spec: destruction of an `IAutoCriticalSection` (the
`std::auto_ptr` holding it goes out of scope), "Automatically leaves (releases)
it when the imaqkit::IAutoCriticalSection object is destroyed". -/
def IAutoCriticalSection.destroy (a : IAutoCriticalSection) : M Unit :=
  if a.state then ICriticalSection.leave a.guard else pure ()

/-! ## Methods of `DemoAdaptor` -/

/-- Method `DemoAdaptor::getMaxWidth`. -/
def getMaxWidth (w : World) : Int :=
  match w.formatInfo with
  | some formatInfo => formatInfo._formatWidth
  | none => DEMO_DEFAULT_WIDTH

/-- Method `DemoAdaptor::getMaxHeight`. -/
def getMaxHeight (w : World) : Int :=
  match w.formatInfo with
  | some formatInfo => formatInfo._formatHeight
  | none => DEMO_DEFAULT_HEIGHT

/-- Method `DemoAdaptor::getFrameType`. -/
def getFrameType (w : World) : Nat :=
  match w.formatInfo with
  | some formatInfo => formatInfo._formatFrameType
  | none => RGB24_PACKED

/-- Method `DemoAdaptor::getNumberOfBands`. -/
def getNumberOfBands (w : World) : Int :=
  match w.formatInfo with
  | some formatInfo => formatInfo._formatNumBands
  | none => DEMO_DEFAULT_NUMBER_OF_BANDS

/-- Method `DemoAdaptor::isAcquisitionActive`: the flag is read inside
`_acquisitionActiveGuard`. -/
def isAcquisitionActive : M Bool := do
  let acquisitionActiveSection ← createAutoCriticalSection Guard.acquisitionActiveGuard true
  let r ← (fun w => Outcome.done w._acquisitionActive w : M Bool)
  acquisitionActiveSection.destroy
  pure r

/-- Method `DemoAdaptor::setAcquisitionActive`: the flag is written inside
`_acquisitionActiveGuard`. -/
def setAcquisitionActive (state : Bool) : M Unit := do
  let acquisitionActiveSection ← createAutoCriticalSection Guard.acquisitionActiveGuard true
  (fun w => Outcome.done () { w with _acquisitionActive := state } : M Unit)
  acquisitionActiveSection.destroy

/-- Method `DemoAdaptor::openDevice`. -/
def openDevice : M Bool := fun w =>
  if w.isOpen then .done true w
  else .done true w

/-- The call `pthread_create(&_sendThread, NULL, this->sendThread, this)`: with
error code 0 a new thread running `sendThread` exists and its handle is stored
in `_sendThread`; with another error code no thread is created and what
`_sendThread` holds afterwards is not defined (it is taken from the host). -/
def pthread_create (env : Env) : M Int := fun w =>
  let errcode := env.pthread_create w.created
  let w1 := { w with created := w.created + 1, trace := w.trace ++ [Event.pthread_create errcode] }
  if errcode = 0 then
    .done errcode { w1 with _sendThread := some w.created, threads := w.created :: w1.threads }
  else
    .done errcode { w1 with _sendThread := env.failedHandle w.created }

/-- Method `DemoAdaptor::startCapture`.  `notifyAllListeners` is what the call
`getEngine()->getAdaptorPropContainer()->notifyAllListeners()` does. -/
def startCapture (env : Env) (notifyAllListeners : M Unit) : M Bool := fun w =>
  if !w.isOpen then .done false w
  else
    (do
      emit Event.notifyAllListeners
      notifyAllListeners
      setAcquisitionActive true
      let errcode ← pthread_create env
      pure (decide (errcode = 0)) : M Bool) w

/-- Local variables of `sendFrame` that live across iterations. -/
structure Locals where
  driverSection : IAutoCriticalSection
  offset : Int
  imageWidth : Int
  imageHeight : Int
  imageBands : Int
  deriving DecidableEq, Repr

/-- How the body of the loop of `sendFrame` is left: at its end, or through
the `return` in the handler of `std::bad_alloc`. -/
inductive BodyExit where
  | endOfBody (l : Locals)
  | returned (l : Locals)
  deriving DecidableEq, Repr

/-- The condition `adaptor->isAcquisitionNotComplete() && adaptor->isAcquisitionActive()`;
the flag is read only if the first operand is true. -/
def whileCondition (env : Env) (k : Nat) (l : Locals) : M Bool := do
  (fun w => (emit (Event.whileCondition l.driverSection.state w._driverGuard)) w : M Unit)
  if env.isAcquisitionNotComplete k then isAcquisitionActive else pure false

/-- Method `IAdaptor::incrementFrameCount`. -/
def incrementFrameCount : M Unit := fun w =>
  .done () { w with frameCount := w.frameCount + 1, trace := w.trace ++ [Event.incrementFrameCount] }

/-- The statement `frame->setImage(...)` and the two that follow it;
`frame` is the result of `makeFrame`, dereferenced without a test. -/
def forwardFrame (isNull : Bool) (imBuffer : List (Option Nat))
    (imageWidth imageHeight roiOriginX roiOriginY : Int) : M Unit := fun w =>
  if isNull then .crashed w
  else
    (do
      emit (Event.setImage imBuffer imageWidth imageHeight roiOriginX roiOriginY)
      emit Event.setTime
      emit Event.receiveFrame : M Unit) w

/-- One execution of the body of the loop of `sendFrame`; `k` selects the
answers of the host. -/
def sendFrameBody (env : Env) (k : Nat) (l : Locals) : M BodyExit := do
  let driverSection ← l.driverSection.enter
  let _hardwareTrigger := env.useHardwareTrigger k
  let bufferSize := bufferSize l.imageWidth l.imageHeight l.imageBands
  if !env.newSucceeds k then
    emit (Event.newBuffer bufferSize false)
    emit (Event.adaptorError "imaq:demo:badFrameAlloc" "Unable to allocate memory for frame.")
    pure (BodyExit.returned { l with driverSection := driverSection })
  else
    emit (Event.newBuffer bufferSize true)
    let imBuffer := (generateFrame l.imageWidth l.imageHeight l.imageBands l.offset).imBuffer
    let offset := wrapInt (l.offset + IMAGE_DATA_OFFSET)
    emit (Event.usleep (IMAGE_FRAME_PAUSE_TIME * 1000))
    if env.isSendFrame k then
      emit Event.getROI
      let roi := env.getROI k
      let frameType ← (fun w => Outcome.done (getFrameType w) w : M Nat)
      emit (Event.makeFrame frameType roi.width roi.height (env.makeFrameNull k))
      forwardFrame (env.makeFrameNull k) imBuffer l.imageWidth l.imageHeight roi.originX roi.originY
    incrementFrameCount
    emit Event.deleteBuffer
    let driverSection ← driverSection.leave
    pure (BodyExit.endOfBody { l with driverSection := driverSection, offset := offset })

/-- Advance `clock`, returning its previous value. -/
def tick : M Nat := fun w =>
  .done w.clock { w with clock := w.clock + 1 }

/-- The `while` loop of `sendFrame`, for at most `fuel` evaluations of its
condition.  When the function is left, `driverSection` goes out of scope. -/
def sendFrameLoop (env : Env) : Nat → Locals → M Unit
  | 0, _ => fun w => .fuelOut w
  | fuel + 1, l => do
    let k ← tick
    if ← whileCondition env k l then
      match ← sendFrameBody env k l with
      | .endOfBody l' => sendFrameLoop env fuel l'
      | .returned l' => l'.driverSection.destroy
    else
      l.driverSection.destroy

/-- Method `DemoAdaptor::sendFrame`. -/
def sendFrame (env : Env) (fuel : Nat) : M Unit := do
  let driverSection ← createAutoCriticalSection Guard.driverGuard false
  let l ← (fun w => Outcome.done
    { driverSection := driverSection, offset := 0, imageWidth := getMaxWidth w,
      imageHeight := getMaxHeight w, imageBands := getNumberOfBands w } w : M Locals)
  sendFrameLoop env fuel l

/-- Method `DemoAdaptor::sendThread` (the body of the capture thread), for at
most `fuel` evaluations of its loop condition; each call of `sendFrame` may
evaluate its own loop condition up to `fuel` times. -/
def sendThread (env : Env) (fuel : Nat) : Nat → M Unit
  | 0 => fun w => .fuelOut w
  | n + 1 => do
    if ← isAcquisitionActive then
      sendFrame env fuel
      sendThread env fuel n
    else
      pure ()

/-- The call `pthread_join(_sendThread, &status)`: the caller waits until the
thread has returned from `sendThread`; afterwards the thread is gone.  The
error code is not looked at. -/
def pthread_join : M Unit := fun w =>
  .done () { w with
    threads := match w._sendThread with
      | some t => w.threads.erase t
      | none => w.threads
    trace := w.trace ++ [Event.pthread_join w._sendThread] }

/-- Method `DemoAdaptor::stopCapture`. -/
def stopCapture : M Bool := fun w =>
  if !w.isAcquiring then .done true w
  else
    (do
      setAcquisitionActive false
      pthread_join
      let driverSection ← createAutoCriticalSection Guard.driverGuard true
      let driverSection ← driverSection.leave
      driverSection.destroy
      pure true : M Bool) w

/-- Method `DemoAdaptor::closeDevice`. -/
def closeDevice : M Bool := fun w =>
  if !w.isOpen then .done true w
  else .done true w

/-- Modelled from the spec: `IAdaptor::stop()` is forwarded to the adaptor
manager, which is part of the engine and not in the sources.  "stop(): Started
→ Open.  No-op success if not currently acquiring": the manager runs
`stopCapture` and, when that succeeds, no longer reports the device as
acquiring. -/
def stop : M Bool := do
  let stopped ← stopCapture
  if stopped then
    (fun w => Outcome.done () { w with isAcquiring := false } : M Unit)
  pure stopped

/-- A point of the code at which the capture thread can be when another thread
acts. -/
inductive CapturePoint where
  /-- at the test `adaptor->isAcquisitionActive()` of the loop of `sendThread` -/
  | threadTest
  /-- inside `sendFrame`, at the condition of its loop -/
  | loopTest (l : Locals)
  /-- inside the body of the loop of `sendFrame`, the condition having been
  evaluated with the host answers number `k`: before `driverSection->enter()`
  if `l.driverSection` has not entered, right after it if it has -/
  | body (k : Nat) (l : Locals)
  deriving DecidableEq, Repr

/-- What the capture thread executes from a point of its code on, until it
returns from `sendThread`. -/
def resume (env : Env) (fuel n : Nat) : CapturePoint → M Unit
  | CapturePoint.threadTest => sendThread env fuel n
  | CapturePoint.loopTest l => do
    sendFrameLoop env fuel l
    sendThread env fuel n
  | CapturePoint.body k l => do
    let exit ← sendFrameBody env k l
    match exit with
    | BodyExit.endOfBody l' => sendFrameLoop env fuel l'
    | BodyExit.returned l' => l'.driverSection.destroy
    sendThread env fuel n

/-- Method `DemoAdaptor::stopCapture` together with the capture thread:
`captureThread` is what that thread executes after the flag has been written
and until it returns from `sendThread`, which is when `pthread_join` lets the
caller go on. -/
def stopCaptureJoining (captureThread : M Unit) : M Bool := fun w =>
  if !w.isAcquiring then .done true w
  else
    (do
      setAcquisitionActive false
      captureThread
      pthread_join
      let driverSection ← createAutoCriticalSection Guard.driverGuard true
      let driverSection ← driverSection.leave
      driverSection.destroy
      pure true : M Bool) w

/-- Modelled from the spec: `IAdaptor::stop()` as in `stop`, together with the
capture thread: the manager runs `stopCapture` and, when that succeeds, no
longer reports the device as acquiring. -/
def stopJoining (captureThread : M Unit) : M Bool := do
  let stopped ← stopCaptureJoining captureThread
  if stopped then
    (fun w => Outcome.done () { w with isAcquiring := false } : M Unit)
  pure stopped

/-- Modelled from the spec: `IAdaptor::restart()` is forwarded to the adaptor
manager, which is part of the engine and not in the sources.  "start(): Open →
Started ... Returns success/failure of task creation", and `isAcquiring()`
"will not return true until startCapture() returns successfully": the manager
runs `startCapture` and, when that returns true, reports the device as
acquiring. -/
def restart (env : Env) (notifyAllListeners : M Unit) : M Bool := do
  let started ← startCapture env notifyAllListeners
  if started then
    (fun w => Outcome.done () { w with isAcquiring := true } : M Unit)
  pure started

/-- The constructor `DemoAdaptor::DemoAdaptor` (as in `new DemoAdaptor(...)`)
for a format and `numDeviceProps` device-specific properties: `_sendThread(NULL)`, `_acquisitionActive(false)`,
`initDevice()` creates the listeners, then the two critical sections are
created.  The adaptor manager starts with the device closed. -/
def newDemoAdaptor (formatInfo : Option DemoDeviceFormat) (numDeviceProps : Nat) : World :=
  { isOpen := false
    isAcquiring := false
    frameCount := 0
    formatInfo := formatInfo
    _acquisitionActive := false
    _sendThread := none
    _driverGuard := false
    _acquisitionActiveGuard := false
    threads := []
    created := 0
    clock := 0
    trace := []
    propListeners := List.replicate numDeviceProps
      { _propInfo := none, _lastIntValue := none, _lastDoubleValue := none, _lastStrValue := "" }
    sourceListener := { _source := none } }

/-! ## The listeners -/

/-- Assignment to data members of the `self`-th `DemoPropListener`. -/
def assignPropListener (self : Nat) (f : DemoPropListener → DemoPropListener) : M Unit :=
  fun w =>
    .done () { w with
      propListeners := match w.propListeners[self]? with
        | some listener => w.propListeners.set self (f listener)
        | none => w.propListeners }

/-- Method `DemoPropListener::applyValue` of the `self`-th listener; `restart`
is what `_parent->restart()` does. -/
def DemoPropListener.applyValue (restart : M Bool) (self : Nat) : M Unit := do
  let wasAcquiring ← (fun w => Outcome.done w.isAcquiring w : M Bool)
  if wasAcquiring then
    emit Event.stop
    let _ ← stop
  let _propName ← (fun w => Outcome.done
    ((w.propListeners[self]?.bind (fun listener => listener._propInfo)).map
      (fun propInfo => propInfo.getPropertyName)) w : M (Option String))
  if wasAcquiring then
    emit Event.restart
    let _ ← restart

/-- Method `DemoPropListener::notify` of the `self`-th listener.  The `default`
label of the `switch` is `assert(false && ...)`, which ends the program. -/
def DemoPropListener.notify (restart : M Bool) (self : Nat) (propertyInfo : IPropInfo)
    (newValue : Option NewValue) : M Unit :=
  match newValue with
  | none => pure ()
  | some value => do
    assignPropListener self (fun listener => { listener with _propInfo := some propertyInfo })
    match propertyInfo.getPropertyStorageType with
    | DATATYPE.DOUBLE =>
      assignPropListener self
        (fun listener => { listener with _lastDoubleValue := some value.asDouble })
    | DATATYPE.INT =>
      assignPropListener self
        (fun listener => { listener with _lastIntValue := some value.asInt64 })
    | DATATYPE.STRING =>
      assignPropListener self
        (fun listener => { listener with _lastStrValue := value.asString })
    | _ => (fun w => Outcome.crashed w : M Unit)
    if ← (fun w => Outcome.done w.isOpen w : M Bool) then
      DemoPropListener.applyValue restart self

/-- Method `DemoSourceListener::applyValue`; `restart` is what
`_parent->restart()` does. -/
def DemoSourceListener.applyValue (restart : M Bool) : M Unit := do
  let wasAcquiring ← (fun w => Outcome.done w.isAcquiring w : M Bool)
  if wasAcquiring then
    emit Event.stop
    let _ ← stop
  if wasAcquiring then
    emit Event.restart
    let _ ← restart

/-- Method `DemoSourceListener::notify`. -/
def DemoSourceListener.notify (restart : M Bool) (newValue : Option NewValue) : M Unit :=
  match newValue with
  | none => pure ()
  | some value => do
    (fun w => Outcome.done ()
      { w with sourceListener := { w.sourceListener with _source := some value.asInt } } : M Unit)
    if ← (fun w => Outcome.done w.isOpen w : M Bool) then
      DemoSourceListener.applyValue restart

/-- Modelled from the spec: the loop inside `IPropContainer::notifyAllListeners`
(engine code), "Request that all the properties in the container notify their
listeners of their current value": the listener of each property in turn is
called with the property and its current value.  `i` is the number of the
first property of the list. -/
def notifyListenersFrom (restart : M Bool) : List (IPropInfo × Option NewValue) → Nat → M Unit
  | [], _ => pure ()
  | property :: rest, i => do
    DemoPropListener.notify restart i property.1 property.2
    notifyListenersFrom restart rest (i + 1)

/-- Modelled from the spec: `getEngine()->getAdaptorPropContainer()->notifyAllListeners()`
as called by `startCapture`.  A `restart()` issued by a listener runs
`startCapture`, which notifies all listeners again; `depth` bounds how many
times that may nest. -/
def notifyAllListeners (env : Env) : Nat → M Unit
  | 0 => fun w => .fuelOut w
  | depth + 1 =>
    notifyListenersFrom (restart env (notifyAllListeners env depth)) env.properties 0

/-- The engine reports a changed device-specific property: `notify` of its
listener is called (`IPropPostSetListener::notify`, "invoked by
imaqkit::IEngine when the property associated with this listener is changed").
`depth` bounds the nesting of the notifications that its `restart()` sets off. -/
def propertyChanged (env : Env) (depth : Nat) (self : Nat) (propertyInfo : IPropInfo)
    (newValue : Option NewValue) : M Unit :=
  DemoPropListener.notify (restart env (notifyAllListeners env depth)) self propertyInfo newValue

/-! ## The custom get function of the timestamp properties -/

/-- Conversion of an integer to `int64_t`. -/
def toInt64 (v : Int) : Int :=
  (v + 9223372036854775808) % 18446744073709551616 - 9223372036854775808

/-- What the C library answers to `getValue`: the value of `std::time(NULL)`
and the text `std::ctime` returns, given by its characters before the
terminating NUL (`none` for `NULL`). -/
structure CLibrary where
  time : Int
  ctime : Option (List Nat)

/-- A block of `char` obtained from `imaqmalloc`.  A cell is `none` until it
has been written; `overrun` becomes true at the first store whose index is not
inside the block. -/
structure CharBuffer where
  cells : List (Option Nat)
  overrun : Bool
  deriving DecidableEq, Repr

/-- Modelled from the spec: `imaqkit::imaqmalloc(len)` is engine code outside
the sources, "Allocate dynamic memory of the given size ... Newly allocated
dynamic memory": a block of `len` cells that have not been written. -/
def imaqmalloc (len : Nat) : CharBuffer :=
  { cells := List.replicate len none, overrun := false }

/-- The statement `buffer[i] = c;`. -/
def CharBuffer.write (buffer : CharBuffer) (i : Nat) (c : Nat) : CharBuffer :=
  { cells := buffer.cells.set i (some c)
    overrun := buffer.overrun || decide (buffer.cells.length ≤ i) }

/-- Function `strlen` on a text given by its characters before the NUL. -/
def strlen (text : List Nat) : Nat :=
  text.length

/-- Function `strncpy(dest, src, n)`: the first `n` characters of `src` are
stored, NUL for those past its end. -/
def strncpy (dest : CharBuffer) (src : List Nat) (n : Nat) : CharBuffer :=
  (List.range n).foldl (fun (d : CharBuffer) (i : Nat) => d.write i (src.getD i 0)) dest

/-- What `getValue` stores through the pointer `value`: an `int64_t`, or the
pointer to a block of characters. -/
inductive StoredValue where
  | int64 (v : Int)
  | returnStr (buffer : CharBuffer)
  deriving DecidableEq, Repr

/-- Method `DemoTimestampGetFcn::getValue` (non-Windows branch).  The result
is `none` when the `default` label is reached, which is `assert(false && ...)`.
The index `strTimeLen - 1` is computed in `size_t`. -/
def DemoTimestampGetFcn.getValue (lib : CLibrary) (propertyInfo : IPropInfo) :
    Option StoredValue :=
  match propertyInfo.getPropertyStorageType with
  | DATATYPE.INT =>
    let intTime := lib.time
    some (StoredValue.int64 (toInt64 intTime))
  | DATATYPE.STRING =>
    match lib.ctime with
    | none => some (StoredValue.returnStr ((imaqmalloc 1).write 0 0))
    | some strTime =>
      let strTimeLen := strlen strTime
      let returnStr := imaqmalloc (strTimeLen + 1)
      let returnStr := strncpy returnStr strTime strTimeLen
      some (StoredValue.returnStr (returnStr.write (toSizeT ((strTimeLen : Int) - 1)) 0))
  | _ => none

/-! ## Concrete adaptors and hosts used as examples -/

/-- Format `RS170` of the monochrome device as registered by `getAvailHW`. -/
def rs170Format : DemoDeviceFormat :=
  { _formatHeight := 480, _formatWidth := 640, _formatNumBands := 1, _formatFrameType := MONO8 }

/-- Format `RGB_NTSC` of the colour device as registered by `getAvailHW`. -/
def rgbFormat : DemoDeviceFormat :=
  { _formatHeight := 480, _formatWidth := 640, _formatNumBands := 3,
    _formatFrameType := RGB24_PACKED }

/-- Format `S-Video` of the colour device as registered by `getAvailHW`. -/
def svideoFormat : DemoDeviceFormat :=
  { _formatHeight := 120, _formatWidth := 160, _formatNumBands := 3,
    _formatFrameType := RGB24_PACKED }

/-- Format `CCIR` of the monochrome device as registered by `getAvailHW`. -/
def ccirFormat : DemoDeviceFormat :=
  { _formatHeight := 576, _formatWidth := 768, _formatNumBands := 1, _formatFrameType := MONO8 }

/-- The format objects that `getAvailHW` creates, in the order of creation. -/
def getAvailHW : List DemoDeviceFormat :=
  [rgbFormat, svideoFormat, rs170Format, ccirFormat]

/-- A single-band format of 2 x 1 pixels, small enough to list its frames. -/
def tinyFormat : DemoDeviceFormat :=
  { _formatHeight := 1, _formatWidth := 2, _formatNumBands := 1, _formatFrameType := MONO8 }

/-- An adaptor for `RS170` right after construction: not open, not acquiring,
flag false, no capture thread, both critical sections unlocked. -/
def constructedAdaptor : World where
  isOpen := false
  isAcquiring := false
  frameCount := 0
  formatInfo := some rs170Format
  _acquisitionActive := false
  _sendThread := none
  _driverGuard := false
  _acquisitionActiveGuard := false
  threads := []
  created := 0
  clock := 0
  trace := []

/-- The same adaptor after the engine has opened it. -/
def openAdaptor : World :=
  { constructedAdaptor with isOpen := true }

/-- The same adaptor while it is acquiring: the flag is true and capture
thread 0 exists. -/
def acquiringAdaptor : World :=
  { openAdaptor with
    isAcquiring := true, _acquisitionActive := true, _sendThread := some 0,
    threads := [0], created := 1 }

/-- An acquiring adaptor for the 2 x 1 format. -/
def tinyAcquiringAdaptor : World :=
  { acquiringAdaptor with formatInfo := some tinyFormat }

/-- A host in which every frame allocation fails while the acquisition is
never complete; threads can be created. -/
def hostOutOfMemory : Env where
  isAcquisitionNotComplete := fun _ => true
  useHardwareTrigger := fun _ => false
  newSucceeds := fun _ => false
  isSendFrame := fun _ => true
  getROI := fun _ => { originX := 0, originY := 0, width := 640, height := 480 }
  makeFrameNull := fun _ => false
  pthread_create := fun _ => 0
  failedHandle := fun _ => none

/-- A host in which `pthread_create` fails with `EAGAIN` (11) and leaves in
`_sendThread` a value that is the handle of no thread. -/
def hostNoThreads : Env :=
  { hostOutOfMemory with pthread_create := (fun _ => 11), failedHandle := (fun _ => some 4096) }

/-- A host that asks for two frames of the 2 x 1 format, sends the first to
the engine and not the second. -/
def hostTwoFrames : Env where
  isAcquisitionNotComplete := fun k => decide (k < 2)
  useHardwareTrigger := fun _ => false
  newSucceeds := fun _ => true
  isSendFrame := fun k => decide (k = 0)
  getROI := fun _ => { originX := 0, originY := 0, width := 2, height := 1 }
  makeFrameNull := fun _ => false
  pthread_create := fun _ => 0
  failedHandle := fun _ => none

/-- A host in which `makeFrame` returns `NULL`; frames of the 2 x 1 format are
to be sent. -/
def hostNullFrame : Env :=
  { hostTwoFrames with isSendFrame := (fun _ => true), makeFrameNull := (fun _ => true) }

/-- The properties `Hue` (double), `Saturation` (integer) and `ExperimentSetup`
(string) of the colour device with the values 0.5 (given by its 64 bits), 60
and "Default Lab Setup". -/
def colorDeviceProperties : List (IPropInfo × Option NewValue) :=
  [({ getPropertyName := "Hue", getPropertyStorageType := DATATYPE.DOUBLE },
      some { asDouble := 0x3FE0000000000000, asInt64 := 0x3FE0000000000000, asString := "",
             asInt := 0 }),
    ({ getPropertyName := "Saturation", getPropertyStorageType := DATATYPE.INT },
      some { asDouble := 60, asInt64 := 60, asString := "<", asInt := 60 }),
    ({ getPropertyName := "ExperimentSetup", getPropertyStorageType := DATATYPE.STRING },
      some { asDouble := 0, asInt64 := 0, asString := "Default Lab Setup", asInt := 0 })]

/-- A host with the three properties in which threads can be created. -/
def hostWithProperties : Env :=
  { hostTwoFrames with properties := colorDeviceProperties }

/-- A host with the three properties in which `pthread_create` fails with
`EAGAIN` (11). -/
def hostRestartFails : Env :=
  { hostWithProperties with pthread_create := (fun _ => 11) }

/-- An acquiring adaptor with one listener for each of the three properties. -/
def acquiringAdaptorWithListeners : World :=
  { newDemoAdaptor (some rs170Format) 3 with
    isOpen := true, isAcquiring := true, _acquisitionActive := true, _sendThread := some 0,
    threads := [0], created := 1 }

/-- The pointer to a new value 60 of the integer property `Saturation`. -/
def newSaturation : NewValue :=
  { asDouble := 60, asInt64 := 60, asString := "<", asInt := 60 }

/-- Property information of `Saturation`. -/
def saturationInfo : IPropInfo :=
  { getPropertyName := "Saturation", getPropertyStorageType := DATATYPE.INT }

/-- A host in which the acquisition is always complete. -/
def hostComplete : Env :=
  { hostTwoFrames with isAcquisitionNotComplete := (fun _ => false) }

/-- The text "Thu Jan  1 00:00:00 1970" followed by a newline, as `std::ctime`
gives it for time 0. -/
def epochText : List Nat :=
  [84, 104, 117, 32, 74, 97, 110, 32, 32, 49, 32, 48, 48, 58, 48, 48, 58, 48, 48, 32,
    49, 57, 55, 48, 10]

/-- A C library at time 0. -/
def epochLibrary : CLibrary :=
  { time := 0, ctime := some epochText }

/-- Property information of `TimestampString`. -/
def timestampStringInfo : IPropInfo :=
  { getPropertyName := "TimestampString", getPropertyStorageType := DATATYPE.STRING }

/-- Property information of `Hue`. -/
def hueInfo : IPropInfo :=
  { getPropertyName := "Hue", getPropertyStorageType := DATATYPE.DOUBLE }

/-- The 2 x 1 adaptor after it has been opened and started twice with no stop
in between: the capture threads 0 and 1 exist and `_sendThread` holds the
handle of thread 1. -/
def startedTwiceAdaptor : World :=
  (M.bind (restart hostTwoFrames (pure ())) (fun _ => restart hostTwoFrames (pure ()))
    { openAdaptor with formatInfo := some tinyFormat }).world

/-- Values of the local variables of `sendFrame` when its loop is reached. -/
def initialLocals (w : World) : Locals :=
  { driverSection := { guard := Guard.driverGuard, state := false }
    offset := 0
    imageWidth := getMaxWidth w
    imageHeight := getMaxHeight w
    imageBands := getNumberOfBands w }

/-! ## Notions used in the statements -/

/-- The cursor is at `r`, every cell below it holds the byte given by `f`, the
buffer has `n` cells and no store has left it. -/
def FilledTo (f : Nat → Nat) (n : Nat) (s : GenState) (r : Nat) : Prop :=
  s.reference = r ∧ s.overrun = false ∧ s.imBuffer.length = n ∧
    ∀ i, i < r → s.imBuffer[i]? = some (some (f i))

/-- Byte that the single-band loop nest stores at buffer index `i`. -/
def singleBandByte (W : Nat) (offset : Int) (i : Nat) : Nat :=
  toUChar (cRem (wrapInt (((i % W : Nat) : Int) + offset)) 255)

/-- Byte that the three-stores-per-pixel loop nest stores at buffer index `i`. -/
def multiBandByte (W : Nat) (offset : Int) (i : Nat) : Nat :=
  if i % 3 = 0 then toUChar (cRem (wrapInt (((i / 3 % W : Nat) : Int) - offset)) 255)
  else if i % 3 = 1 then toUChar (cRem (wrapInt (((i / 3 / W : Nat) : Int) - offset)) 255)
  else toUChar (cRem (wrapInt (wrapInt (((i / 3 % W : Nat) : Int) + ((i / 3 / W : Nat) : Int)) - offset)) 255)

/-- A piece of adaptor code that leaves `_acquisitionActive` as it is, however
it ends. -/
def KeepsFlag {α : Type} (m : M α) : Prop :=
  ∀ w, (m w).world._acquisitionActive = w._acquisitionActive

/-- Byte stored for a term `t` as the specification describes it: `t mod 255`
for `t >= 0`; for `t < 0` it is 0 when `(-t) mod 255 = 0` and
`256 - ((-t) mod 255)` otherwise. -/
def specByte (t : Int) : Nat :=
  if 0 ≤ t then (t % 255).toNat
  else if (-t) % 255 = 0 then 0
  else (256 - (-t) % 255).toNat

/-- The band field of a frame type, `(frameType >> 16) & 0xFF`, the field that
`NUMBANDS` fills. -/
def bandField (frameType : Nat) : Nat :=
  (frameType >>> 16) &&& 0xFF

/-- Calls of one completed iteration of the loop of `sendFrame` that starts
with the local variables `l` in the state `w`, from the evaluation of the
condition to `driverSection->leave()`. -/
def iterationEvents (env : Env) (l : Locals) (w : World) : List Event :=
  [Event.whileCondition false false,
    Event.enter Guard.acquisitionActiveGuard,
    Event.leave Guard.acquisitionActiveGuard,
    Event.enter Guard.driverGuard,
    Event.newBuffer (bufferSize l.imageWidth l.imageHeight l.imageBands) true,
    Event.usleep (IMAGE_FRAME_PAUSE_TIME * 1000)] ++
  (if env.isSendFrame w.clock = true then
    [Event.getROI,
      Event.makeFrame (getFrameType w) (env.getROI w.clock).width (env.getROI w.clock).height
        false,
      Event.setImage (generateFrame l.imageWidth l.imageHeight l.imageBands l.offset).imBuffer
        l.imageWidth l.imageHeight (env.getROI w.clock).originX (env.getROI w.clock).originY,
      Event.setTime,
      Event.receiveFrame]
  else []) ++
  [Event.incrementFrameCount, Event.deleteBuffer, Event.leave Guard.driverGuard]

/-- The local variables after `N` completed iterations: `offset` has been
advanced `N` times by `offset += demo::IMAGE_DATA_OFFSET`. -/
def localsAfter : Nat → Locals → Locals
  | 0, l => l
  | N + 1, l => localsAfter N { l with offset := wrapInt (l.offset + IMAGE_DATA_OFFSET) }

/-- Calls of the first `N` completed iterations. -/
def eventsOfIterations (env : Env) : Nat → Locals → World → List Event
  | 0, _, _ => []
  | N + 1, l, w =>
    iterationEvents env l w ++
      eventsOfIterations env N { l with offset := wrapInt (l.offset + IMAGE_DATA_OFFSET) }
        { w with clock := w.clock + 1
                 frameCount := w.frameCount + 1
                 trace := w.trace ++ iterationEvents env l w }

/-- Replay of a list of calls by an automaton; `none` when a call is not
allowed in the state reached. -/
def replayEvents {σ : Type} (step : σ → Event → Option σ) : σ → List Event → Option σ
  | s, [] => some s
  | s, e :: es =>
    match step s e with
    | some s' => replayEvents step s' es
    | none => none

/-- The order of the calls inside an iteration of the loop of `sendFrame`.
State 0 is the state between iterations, in which the condition is evaluated
and `_driverGuard` is not held; the states 1 to 10 are passed in this order
while `_driverGuard` is held: entered, buffer generated, paused for 30 ms, the
five steps of forwarding (left out when the frame is not sent), frame counted,
buffer freed. -/
def orderStep : Nat → Event → Option Nat
  | 0, Event.whileCondition false false => some 0
  | 0, Event.enter Guard.acquisitionActiveGuard => some 0
  | 0, Event.leave Guard.acquisitionActiveGuard => some 0
  | 0, Event.enter Guard.driverGuard => some 1
  | 1, Event.newBuffer _ true => some 2
  | 2, Event.usleep 30000 => some 3
  | 3, Event.getROI => some 4
  | 4, Event.makeFrame _ _ _ false => some 5
  | 5, Event.setImage _ _ _ _ _ => some 6
  | 6, Event.setTime => some 7
  | 7, Event.receiveFrame => some 8
  | 3, Event.incrementFrameCount => some 9
  | 8, Event.incrementFrameCount => some 9
  | 9, Event.deleteBuffer => some 10
  | 10, Event.leave Guard.driverGuard => some 0
  | _, _ => none

/-- Which critical sections the running code holds, `(_driverGuard,
_acquisitionActiveGuard)`, after a call; `none` when `_acquisitionActiveGuard`
is entered or left while `_driverGuard` is held, when `_driverGuard` is entered
while `_acquisitionActiveGuard` is held, when a section is entered twice, or
when the capture thread is joined while a section is held. -/
def nestStep : Bool × Bool → Event → Option (Bool × Bool)
  | (false, false), Event.enter Guard.acquisitionActiveGuard => some (false, true)
  | (false, true), Event.leave Guard.acquisitionActiveGuard => some (false, false)
  | (false, false), Event.enter Guard.driverGuard => some (true, false)
  | (true, false), Event.leave Guard.driverGuard => some (false, false)
  | _, Event.enter _ => none
  | _, Event.leave _ => none
  | (false, false), Event.pthread_join _ => some (false, false)
  | _, Event.pthread_join _ => none
  | held, _ => some held

/-- The C string that starts a block of characters: the characters before the
first NUL; `none` if a cell that has not been written, or the end of the block,
comes first. -/
def cString : List (Option Nat) → Option (List Nat)
  | [] => none
  | none :: _ => none
  | some 0 :: _ => some []
  | some (c + 1) :: rest => (cString rest).map (fun text => (c + 1) :: text)

/-- The capture thread at `point` is the only user of `_driverGuard`: the
section is locked exactly when the thread is inside the body of the loop and
its `driverSection` has entered. -/
def CapturePoint.consistent (w : World) : CapturePoint → Prop
  | CapturePoint.threadTest => w._driverGuard = false
  | CapturePoint.loopTest l =>
    l.driverSection = { guard := Guard.driverGuard, state := false } ∧ w._driverGuard = false
  | CapturePoint.body _ l =>
    l.driverSection = { guard := Guard.driverGuard, state := w._driverGuard }

/-! ## The frame generator: lemmas -/

theorem wrapInt_of_range (v : Int) (h1 : -2147483648 ≤ v) (h2 : v < 2147483648) :
    wrapInt v = v := by
  unfold wrapInt
  omega

theorem filledTo_store {f : Nat → Nat} {n : Nat} {s : GenState} {r : Nat}
    (h : FilledTo f n s r) (hr : r < n) (v : Int) (hv : toUChar v = f r) :
    FilledTo f n (s.store v) (r + 1) := by
  obtain ⟨h1, h2, h3, h4⟩ := h
  refine ⟨by simp [GenState.store, h1], ?_, by simp [GenState.store, h3], ?_⟩
  · simp [GenState.store, h1, h2, h3, hr]
  · intro i hi
    simp only [GenState.store, List.getElem?_set, h1, h3]
    by_cases hir : r = i
    · subst hir
      simp [hr, hv]
    · simp only [hir, if_false]
      exact h4 i (by omega)

theorem filledTo_foldl_range (f : Nat → Nat) (n : Nat) (step : GenState → Nat → GenState)
    (c base k : Nat)
    (hstep : ∀ s j, j < k → FilledTo f n s (base + c * j) →
      FilledTo f n (step s j) (base + c * (j + 1)))
    (s : GenState) (h : FilledTo f n s base) :
    FilledTo f n ((List.range k).foldl step s) (base + c * k) := by
  induction k with
  | zero => simpa using h
  | succ k ih =>
    rw [List.range_succ, List.foldl_append]
    simp only [List.foldl_cons, List.foldl_nil]
    exact hstep _ k (by omega) (ih (fun s j hj => hstep s j (by omega)))


theorem fillSingleBand_filled (imageWidth imageHeight offset : Int) (n : Nat) (s : GenState)
    (hn : imageWidth.toNat * imageHeight.toNat ≤ n)
    (h : FilledTo (singleBandByte imageWidth.toNat offset) n s 0) :
    FilledTo (singleBandByte imageWidth.toNat offset) n
      (fillSingleBand imageWidth imageHeight offset s) (imageWidth.toNat * imageHeight.toNat) := by
  have key := filledTo_foldl_range (singleBandByte imageWidth.toNat offset) n
    (fun (s : GenState) (_height : Nat) =>
      (List.range imageWidth.toNat).foldl
        (fun (s : GenState) (width : Nat) => s.store (cRem (wrapInt ((width : Int) + offset)) 255)) s)
    imageWidth.toNat 0 imageHeight.toNat ?_ s h
  · simpa [fillSingleBand] using key
  · intro s y hy hs
    have inner := filledTo_foldl_range (singleBandByte imageWidth.toNat offset) n
      (fun (s : GenState) (width : Nat) => s.store (cRem (wrapInt ((width : Int) + offset)) 255))
      1 (0 + imageWidth.toNat * y) imageWidth.toNat ?_ s hs
    · have e : 0 + imageWidth.toNat * y + 1 * imageWidth.toNat
          = 0 + imageWidth.toNat * (y + 1) := by ring
      rw [e] at inner
      exact inner
    · intro s x hx hs
      have hb : imageWidth.toNat * (y + 1) ≤ imageWidth.toNat * imageHeight.toNat :=
        Nat.mul_le_mul_left _ hy
      have hlt : 0 + imageWidth.toNat * y + 1 * x < n := by
        have : imageWidth.toNat * (y + 1) = imageWidth.toNat * y + imageWidth.toNat := by ring
        omega
      have e : 0 + imageWidth.toNat * y + 1 * (x + 1)
          = (0 + imageWidth.toNat * y + 1 * x) + 1 := by ring
      rw [e]
      refine filledTo_store hs hlt _ ?_
      have hm : (0 + imageWidth.toNat * y + 1 * x) % imageWidth.toNat = x := by
        rw [Nat.zero_add, Nat.one_mul, Nat.mul_add_mod, Nat.mod_eq_of_lt hx]
      simp only [singleBandByte, hm]

theorem fillMultiBand_filled (imageWidth imageHeight offset : Int) (n : Nat) (s : GenState)
    (hn : 3 * (imageWidth.toNat * imageHeight.toNat) ≤ n)
    (h : FilledTo (multiBandByte imageWidth.toNat offset) n s 0) :
    FilledTo (multiBandByte imageWidth.toNat offset) n
      (fillMultiBand imageWidth imageHeight offset s)
      (3 * (imageWidth.toNat * imageHeight.toNat)) := by
  have key := filledTo_foldl_range (multiBandByte imageWidth.toNat offset) n
    (fun (s : GenState) (height : Nat) =>
      (List.range imageWidth.toNat).foldl
        (fun (s : GenState) (width : Nat) =>
          ((s.store (cRem (wrapInt ((width : Int) - offset)) 255)).store
              (cRem (wrapInt ((height : Int) - offset)) 255)).store
            (cRem (wrapInt (wrapInt ((width : Int) + (height : Int)) - offset)) 255))
        s)
    (3 * imageWidth.toNat) 0 imageHeight.toNat ?_ s h
  · have e : 0 + 3 * imageWidth.toNat * imageHeight.toNat
        = 3 * (imageWidth.toNat * imageHeight.toNat) := by ring
    rw [e] at key
    exact key
  · intro s y hy hs
    have inner := filledTo_foldl_range (multiBandByte imageWidth.toNat offset) n
      (fun (s : GenState) (width : Nat) =>
          ((s.store (cRem (wrapInt ((width : Int) - offset)) 255)).store
              (cRem (wrapInt ((y : Int) - offset)) 255)).store
            (cRem (wrapInt (wrapInt ((width : Int) + (y : Int)) - offset)) 255))
      3 (0 + 3 * imageWidth.toNat * y) imageWidth.toNat ?_ s hs
    · have e : 0 + 3 * imageWidth.toNat * y + 3 * imageWidth.toNat
          = 0 + 3 * imageWidth.toNat * (y + 1) := by ring
      rw [e] at inner
      exact inner
    · intro s x hx hs
      have hb : imageWidth.toNat * (y + 1) ≤ imageWidth.toNat * imageHeight.toNat :=
        Nat.mul_le_mul_left _ hy
      have hexp : imageWidth.toNat * (y + 1) = imageWidth.toNat * y + imageWidth.toNat := by ring
      have hbase : 0 + 3 * imageWidth.toNat * y + 3 * x = 3 * (imageWidth.toNat * y + x) := by ring
      have hdiv0 : (3 * (imageWidth.toNat * y + x)) / 3 = imageWidth.toNat * y + x := by omega
      have hdiv1 : (3 * (imageWidth.toNat * y + x) + 1) / 3 = imageWidth.toNat * y + x := by omega
      have hdiv2 : (3 * (imageWidth.toNat * y + x) + 1 + 1) / 3 = imageWidth.toNat * y + x := by omega
      have hmod0 : (3 * (imageWidth.toNat * y + x)) % 3 = 0 := by omega
      have hmod1 : (3 * (imageWidth.toNat * y + x) + 1) % 3 = 1 := by omega
      have hmod2 : (3 * (imageWidth.toNat * y + x) + 1 + 1) % 3 = 2 := by omega
      have hxm : (imageWidth.toNat * y + x) % imageWidth.toNat = x := by
        rw [Nat.mul_add_mod, Nat.mod_eq_of_lt hx]
      have hyd : (imageWidth.toNat * y + x) / imageWidth.toNat = y := by
        rw [Nat.mul_add_div (by omega), Nat.div_eq_of_lt hx, Nat.add_zero]
      have e : 0 + 3 * imageWidth.toNat * y + 3 * (x + 1)
          = 3 * (imageWidth.toNat * y + x) + 1 + 1 + 1 := by ring
      rw [hbase] at hs
      rw [e]
      have s1 := filledTo_store hs (by omega) (cRem (wrapInt ((x : Int) - offset)) 255)
        (by simp only [multiBandByte, hmod0, hdiv0, hxm, if_true])
      have s2 := filledTo_store s1 (by omega) (cRem (wrapInt ((y : Int) - offset)) 255)
        (by simp [multiBandByte, hmod1, hdiv1, hyd])
      exact filledTo_store s2 (by omega)
        (cRem (wrapInt (wrapInt ((x : Int) + (y : Int)) - offset)) 255)
        (by simp [multiBandByte, hmod2, hdiv2, hxm, hyd])


theorem filledTo_freshBuffer (f : Nat → Nat) (imageWidth imageHeight imageBands : Int) :
    FilledTo f (bufferSize imageWidth imageHeight imageBands)
      (freshBuffer imageWidth imageHeight imageBands) 0 := by
  refine ⟨rfl, rfl, by simp [freshBuffer], ?_⟩
  intro i hi
  omega

theorem bufferSize_eq (W H : Nat) (imageBands : Int)
    (hb : imageBands = 1 ∨ imageBands = 3)
    (hsz : (W : Int) * (H : Int) * imageBands < 2147483648) :
    bufferSize (W : Int) (H : Int) imageBands = imageBands.toNat * (W * H) := by
  have hcast : (W : Int) * (H : Int) = ((W * H : Nat) : Int) := by push_cast; ring
  unfold bufferSize toSizeT
  rw [hcast] at hsz ⊢
  generalize W * H = P at hsz ⊢
  rcases hb with hb | hb <;> subst hb
  · have e : (1 : Int).toNat = 1 := rfl
    rw [wrapInt_of_range (P : Int) (by omega) (by omega),
      wrapInt_of_range ((P : Int) * 1) (by omega) (by omega), e]
    omega
  · have e : (3 : Int).toNat = 3 := rfl
    rw [wrapInt_of_range (P : Int) (by omega) (by omega),
      wrapInt_of_range ((P : Int) * 3) (by omega) (by omega), e,
      Int.emod_eq_of_lt (by omega) (by omega)]
    have h3 : (P : Int) * 3 = ((3 * P : Nat) : Int) := by push_cast; ring
    rw [h3, Int.toNat_ofNat]

theorem toUChar_cRem_of_nonneg (t : Int) (ht : 0 ≤ t) :
    toUChar (cRem t 255) = (t % 255).toNat ∧ toUChar (cRem t 255) < 255 := by
  unfold toUChar cRem
  rw [Int.tmod_eq_emod ht (by norm_num)]
  constructor
  · congr 1
    omega
  · omega

theorem toUChar_cRem_of_neg (t : Int) (ht : t < 0) :
    toUChar (cRem t 255) = ((256 - (-t) % 255) % 256).toNat := by
  unfold toUChar cRem
  have h : Int.tmod t 255 = -((-t) % 255) := by
    cases t with
    | ofNat n => exact absurd ht (by simp)
    | negSucc m =>
      show -(((m.succ % 255 : Nat)) : Int) = _
      rw [Int.neg_negSucc]
      norm_cast
  rw [h]
  congr 1
  omega


/-- C1: for every width > 0, height > 0 and offset >= 0 (inside the range in
which the `int` expressions of the generator do not wrap), the buffer filled
for one band holds at index `y * width + x` the byte `(x + offset) mod 255`;
width 4, height 2, offset 0 gives `[0,1,2,3,0,1,2,3]`. -/
theorem singleBand_frame_content :
    (∀ (imageWidth imageHeight offset : Int) (x y : Nat),
      0 < imageWidth → 0 < imageHeight → 0 ≤ offset →
      imageWidth * imageHeight < 2147483648 → imageWidth + offset ≤ 2147483648 →
      (x : Int) < imageWidth → (y : Int) < imageHeight →
      (generateFrame imageWidth imageHeight 1 offset).imBuffer[y * imageWidth.toNat + x]?
        = some (some (((x : Int) + offset) % 255).toNat)) ∧
    (generateFrame 4 2 1 0).bytes = [0, 1, 2, 3, 0, 1, 2, 3] := by
  refine ⟨?_, by decide⟩
  intro imageWidth imageHeight offset x y hw hh ho hsz hoff hx hy
  obtain ⟨W, rfl⟩ := Int.eq_ofNat_of_zero_le hw.le
  obtain ⟨H, rfl⟩ := Int.eq_ofNat_of_zero_le hh.le
  have hx' : x < W := by exact_mod_cast hx
  have hy' : y < H := by exact_mod_cast hy
  have hsize : bufferSize (W : Int) (H : Int) 1 = W * H := by
    have := bufferSize_eq W H 1 (Or.inl rfl) (by simpa using hsz)
    simpa using this
  have hfill := fillSingleBand_filled (W : Int) (H : Int) offset
    (bufferSize (W : Int) (H : Int) 1) (freshBuffer (W : Int) (H : Int) 1)
    (by rw [hsize]; simp) (filledTo_freshBuffer _ _ _ _)
  have hidx : y * W + x < W * H := by
    have h1 : W * (y + 1) ≤ W * H := Nat.mul_le_mul_left _ hy'
    have h2 : W * (y + 1) = y * W + W := by ring
    omega
  have hget := hfill.2.2.2 (y * W + x) (by simpa using hidx)
  have hmod : (y * W + x) % W = x := by
    rw [Nat.mul_comm, Nat.mul_add_mod, Nat.mod_eq_of_lt hx']
  have hgen : generateFrame (W : Int) (H : Int) 1 offset
      = fillSingleBand (W : Int) (H : Int) offset (freshBuffer (W : Int) (H : Int) 1) := by
    simp [generateFrame]
  rw [hgen]
  simp only [Int.toNat_ofNat] at hget ⊢
  rw [hget]
  simp only [singleBandByte, hmod]
  rw [wrapInt_of_range _ (by omega) (by omega)]
  rw [(toUChar_cRem_of_nonneg _ (by omega)).1]

/-- Witness for C1: the theorem applied at width 4, height 2, offset 0, pixel
(x, y) = (3, 1). -/
theorem singleBand_frame_content_witness :
    (generateFrame 4 2 1 0).imBuffer[1 * (4 : Int).toNat + 3]?
      = some (some ((((3 : Nat) : Int) + 0) % 255).toNat) :=
  singleBand_frame_content.1 4 2 0 3 1 (by decide) (by decide) (by decide) (by decide)
    (by decide) (by decide) (by decide)


/-- C2, counterexample: in the second frame of a 3-band format (offset 2,
width 2, height 1) the pixel (x, y) = (1, 0) holds the bytes 255, 254, 255,
whereas `(x - offset) mod 255`, `(y - offset) mod 255` and
`(x + y - offset) mod 255` are 254, 253, 254; two of the bytes are not in
0..254. -/
theorem multiBand_frame_content_counterexample :
    (generateFrame 2 1 3 2).imBuffer[3 * (0 * 2 + 1)]? = some (some 255) ∧
    (generateFrame 2 1 3 2).imBuffer[3 * (0 * 2 + 1) + 1]? = some (some 254) ∧
    (generateFrame 2 1 3 2).imBuffer[3 * (0 * 2 + 1) + 2]? = some (some 255) ∧
    (((1 : Int) - 2) % 255).toNat = 254 ∧
    (((0 : Int) - 2) % 255).toNat = 253 ∧
    (((1 : Int) + 0 - 2) % 255).toNat = 254 ∧
    ¬ ((255 : Nat) ≤ 254) := by
  decide

theorem pixel_index_lt (W H x y : Nat) (hx : x < W) (hy : y < H) : y * W + x < W * H := by
  have h1 : W * (y + 1) ≤ W * H := Nat.mul_le_mul_left _ hy
  have h2 : W * (y + 1) = y * W + W := by ring
  omega

theorem multiBandByte_pixel (W x y : Nat) (offset : Int) (hx : x < W) :
    multiBandByte W offset (3 * (y * W + x))
        = toUChar (cRem (wrapInt ((x : Int) - offset)) 255) ∧
      multiBandByte W offset (3 * (y * W + x) + 1)
        = toUChar (cRem (wrapInt ((y : Int) - offset)) 255) ∧
      multiBandByte W offset (3 * (y * W + x) + 2)
        = toUChar (cRem (wrapInt (wrapInt ((x : Int) + (y : Int)) - offset)) 255) := by
  have hxm : (y * W + x) % W = x := by
    rw [Nat.mul_comm, Nat.mul_add_mod, Nat.mod_eq_of_lt hx]
  have hyd : (y * W + x) / W = y := by
    rw [Nat.mul_comm, Nat.mul_add_div (by omega), Nat.div_eq_of_lt hx, Nat.add_zero]
  generalize y * W + x = p at hxm hyd
  have hd0 : 3 * p / 3 = p := by omega
  have hd1 : (3 * p + 1) / 3 = p := by omega
  have hd2 : (3 * p + 2) / 3 = p := by omega
  have hm0 : 3 * p % 3 = 0 := by omega
  have hm1 : (3 * p + 1) % 3 = 1 := by omega
  have hm2 : (3 * p + 2) % 3 = 2 := by omega
  refine ⟨?_, ?_, ?_⟩
  · unfold multiBandByte
    rw [if_pos hm0, hd0, hxm]
  · unfold multiBandByte
    rw [hm1, hd1, hyd, if_neg (by decide), if_pos rfl]
  · unfold multiBandByte
    rw [hm2, hd2, hxm, hyd, if_neg (by decide), if_neg (by decide)]

theorem multiBand_wrap_free (W H x y : Nat) (offset : Int) (ho : 0 ≤ offset)
    (hoff : offset < 2147483648) (hsz : (W : Int) * (H : Int) * 3 < 2147483648)
    (hx : x < W) (hy : y < H) :
    wrapInt ((x : Int) - offset) = (x : Int) - offset ∧
      wrapInt ((y : Int) - offset) = (y : Int) - offset ∧
      wrapInt (wrapInt ((x : Int) + (y : Int)) - offset) = (x : Int) + (y : Int) - offset := by
  have hWle : (W : Int) ≤ (W : Int) * (H : Int) :=
    le_mul_of_one_le_right (by omega) (by omega)
  have hHle : (H : Int) ≤ (W : Int) * (H : Int) :=
    le_mul_of_one_le_left (by omega) (by omega)
  generalize (W : Int) * (H : Int) = P at hsz hWle hHle
  have h2 : wrapInt ((x : Int) + (y : Int)) = (x : Int) + (y : Int) :=
    wrapInt_of_range _ (by omega) (by omega)
  rw [h2]
  exact ⟨wrapInt_of_range _ (by omega) (by omega), wrapInt_of_range _ (by omega) (by omega),
    wrapInt_of_range _ (by omega) (by omega)⟩

/-- The byte stored for a negative term, compared with `t mod 255`. -/
theorem toUChar_cRem_neg_cases (t : Int) (ht : t < 0) :
    (t % 255 = 0 → toUChar (cRem t 255) = 0) ∧
    (t % 255 ≠ 0 → toUChar (cRem t 255) = (t % 255).toNat + 1) := by
  rw [toUChar_cRem_of_neg t ht]
  constructor
  · intro h
    have e : (-t) % 255 = 0 := by omega
    rw [e]
    rfl
  · intro h
    have e : (256 - (-t) % 255) % 256 = t % 255 + 1 := by omega
    rw [e]
    have h0 : 0 ≤ t % 255 := Int.emod_nonneg _ (by decide)
    omega

/-- C2 as amended: for every width > 0, height > 0 and offset >= 0 (inside the
range in which the `int` expressions do not wrap) the buffer filled for three
bands holds, for the pixel at row `y` and column `x`, three consecutive bytes
at index `3 * (y * width + x)`: the `unsigned char` conversions of the C
remainders of `x - offset`, `y - offset` and `x + y - offset` by 255.  For a
term `t >= 0` that byte is `t mod 255`, a value in 0..254; for `t < 0` it is
`(256 - ((-t) mod 255)) mod 256`, which is 0, the same as `t mod 255`, when 255
divides `t`, and `(t mod 255) + 1` otherwise. -/
theorem multiBand_frame_content (imageWidth imageHeight offset : Int) (x y : Nat)
    (hw : 0 < imageWidth) (hh : 0 < imageHeight) (ho : 0 ≤ offset)
    (hoff : offset < 2147483648) (hsz : imageWidth * imageHeight * 3 < 2147483648)
    (hx : (x : Int) < imageWidth) (hy : (y : Int) < imageHeight) :
    ((generateFrame imageWidth imageHeight 3 offset).imBuffer[3 * (y * imageWidth.toNat + x)]?
        = some (some (toUChar (cRem ((x : Int) - offset) 255))) ∧
      (generateFrame imageWidth imageHeight 3 offset).imBuffer[3 * (y * imageWidth.toNat + x) + 1]?
        = some (some (toUChar (cRem ((y : Int) - offset) 255))) ∧
      (generateFrame imageWidth imageHeight 3 offset).imBuffer[3 * (y * imageWidth.toNat + x) + 2]?
        = some (some (toUChar (cRem ((x : Int) + (y : Int) - offset) 255)))) ∧
    (∀ t : Int, 0 ≤ t →
      toUChar (cRem t 255) = (t % 255).toNat ∧ toUChar (cRem t 255) < 255) ∧
    (∀ t : Int, t < 0 → toUChar (cRem t 255) = ((256 - (-t) % 255) % 256).toNat) ∧
    (∀ t : Int, t < 0 →
      (t % 255 = 0 → toUChar (cRem t 255) = 0) ∧
      (t % 255 ≠ 0 → toUChar (cRem t 255) = (t % 255).toNat + 1)) := by
  refine ⟨?_, toUChar_cRem_of_nonneg, toUChar_cRem_of_neg, toUChar_cRem_neg_cases⟩
  obtain ⟨W, rfl⟩ := Int.eq_ofNat_of_zero_le hw.le
  obtain ⟨H, rfl⟩ := Int.eq_ofNat_of_zero_le hh.le
  have hx' : x < W := by exact_mod_cast hx
  have hy' : y < H := by exact_mod_cast hy
  have hsize : bufferSize (W : Int) (H : Int) 3 = 3 * (W * H) := by
    have h := bufferSize_eq W H 3 (Or.inr rfl) hsz
    have e : (3 : Int).toNat = 3 := rfl
    rw [h, e]
  have hfill := fillMultiBand_filled (W : Int) (H : Int) offset
    (bufferSize (W : Int) (H : Int) 3) (freshBuffer (W : Int) (H : Int) 3)
    (by rw [hsize]; simp) (filledTo_freshBuffer _ _ _ _)
  have hidx : y * W + x < W * H := pixel_index_lt W H x y hx' hy'
  have hgen : generateFrame (W : Int) (H : Int) 3 offset
      = fillMultiBand (W : Int) (H : Int) offset (freshBuffer (W : Int) (H : Int) 3) := by
    simp [generateFrame]
  obtain ⟨hb0, hb1, hb2⟩ := multiBandByte_pixel W x y offset hx'
  obtain ⟨hw0, hw1, hw2⟩ := multiBand_wrap_free W H x y offset ho hoff hsz hx' hy'
  have hget := hfill.2.2.2
  simp only [Int.toNat_ofNat] at hget
  rw [hgen]
  simp only [Int.toNat_ofNat]
  generalize y * W + x = p at hidx hb0 hb1 hb2
  generalize W * H = P at hidx hget
  refine ⟨?_, ?_, ?_⟩
  · rw [hget (3 * p) (by omega), hb0, hw0]
  · rw [hget (3 * p + 1) (by omega), hb1, hw1]
  · rw [hget (3 * p + 2) (by omega), hb2, hw2]

/-- Witness for C2 as amended: the theorem applied at width 2, height 1,
offset 2 and the pixel (x, y) = (1, 0). -/
theorem multiBand_frame_content_witness :
    ((generateFrame 2 1 3 2).imBuffer[3 * (0 * (2 : Int).toNat + 1)]?
        = some (some (toUChar (cRem (((1 : Nat) : Int) - 2) 255))) ∧
      (generateFrame 2 1 3 2).imBuffer[3 * (0 * (2 : Int).toNat + 1) + 1]?
        = some (some (toUChar (cRem (((0 : Nat) : Int) - 2) 255))) ∧
      (generateFrame 2 1 3 2).imBuffer[3 * (0 * (2 : Int).toNat + 1) + 2]?
        = some (some (toUChar (cRem (((1 : Nat) : Int) + ((0 : Nat) : Int) - 2) 255)))) ∧
    (∀ t : Int, 0 ≤ t →
      toUChar (cRem t 255) = (t % 255).toNat ∧ toUChar (cRem t 255) < 255) ∧
    (∀ t : Int, t < 0 → toUChar (cRem t 255) = ((256 - (-t) % 255) % 256).toNat) ∧
    (∀ t : Int, t < 0 →
      (t % 255 = 0 → toUChar (cRem t 255) = 0) ∧
      (t % 255 ≠ 0 → toUChar (cRem t 255) = (t % 255).toNat + 1)) :=
  multiBand_frame_content 2 1 2 1 0 (by decide) (by decide) (by decide) (by decide)
    (by decide) (by decide) (by decide)


/-- C3, counterexample: with width 1, height 1 and 2 bands the buffer has 2
bytes, the generator stores 3 bytes and the third store (index 2) is outside
the buffer; with 4 bands the buffer has 4 bytes, only 3 are stored and the
cell at index 3 is never written. -/
theorem buffer_bounds_counterexample :
    bufferSize 1 1 2 = 2 ∧ (generateFrame 1 1 2 0).reference = 3 ∧
    (generateFrame 1 1 2 0).overrun = true ∧
    bufferSize 1 1 4 = 4 ∧ (generateFrame 1 1 4 0).reference = 3 ∧
    (generateFrame 1 1 4 0).imBuffer[3]? = some none := by
  decide

/-- C3 as amended: for every width > 0, height > 0 and a band count of 1 or 3
(the band counts of the formats the adaptor registers), with
`width * height * bandCount` inside the range of `int`, the buffer allocated in
`sendFrame` has exactly `width * height * bandCount` bytes, the generator
stores exactly that many bytes, no store is outside the buffer, and every byte
of the buffer has been written. -/
theorem buffer_bounds (imageWidth imageHeight imageBands offset : Int)
    (hw : 0 < imageWidth) (hh : 0 < imageHeight)
    (hb : imageBands = 1 ∨ imageBands = 3)
    (hsz : imageWidth * imageHeight * imageBands < 2147483648) :
    bufferSize imageWidth imageHeight imageBands
        = (imageWidth * imageHeight * imageBands).toNat ∧
      (generateFrame imageWidth imageHeight imageBands offset).imBuffer.length
        = (imageWidth * imageHeight * imageBands).toNat ∧
      (generateFrame imageWidth imageHeight imageBands offset).reference
        = (imageWidth * imageHeight * imageBands).toNat ∧
      (generateFrame imageWidth imageHeight imageBands offset).overrun = false ∧
      ∀ i, i < (imageWidth * imageHeight * imageBands).toNat →
        ∃ b, (generateFrame imageWidth imageHeight imageBands offset).imBuffer[i]?
          = some (some b) := by
  obtain ⟨W, rfl⟩ := Int.eq_ofNat_of_zero_le hw.le
  obtain ⟨H, rfl⟩ := Int.eq_ofNat_of_zero_le hh.le
  have hsize := bufferSize_eq W H imageBands hb hsz
  rcases hb with hb | hb <;> subst hb
  · have e : ((W : Int) * (H : Int) * 1).toNat = W * H := by
      have : (W : Int) * (H : Int) * 1 = ((W * H : Nat) : Int) := by push_cast; ring
      rw [this, Int.toNat_ofNat]
    have e1 : (1 : Int).toNat * (W * H) = W * H := by
      have : (1 : Int).toNat = 1 := rfl
      rw [this, Nat.one_mul]
    rw [e1] at hsize
    have hfill := fillSingleBand_filled (W : Int) (H : Int) offset
      (bufferSize (W : Int) (H : Int) 1) (freshBuffer (W : Int) (H : Int) 1)
      (by rw [hsize]; simp) (filledTo_freshBuffer _ _ _ _)
    have hgen : generateFrame (W : Int) (H : Int) 1 offset
        = fillSingleBand (W : Int) (H : Int) offset (freshBuffer (W : Int) (H : Int) 1) := by
      simp [generateFrame]
    simp only [Int.toNat_ofNat] at hfill
    rw [hgen, e]
    obtain ⟨h1, h2, h3, h4⟩ := hfill
    exact ⟨hsize, by rw [h3, hsize], h1, h2, fun i hi => ⟨_, h4 i hi⟩⟩
  · have e : ((W : Int) * (H : Int) * 3).toNat = 3 * (W * H) := by
      have : (W : Int) * (H : Int) * 3 = ((3 * (W * H) : Nat) : Int) := by push_cast; ring
      rw [this, Int.toNat_ofNat]
    have e1 : (3 : Int).toNat * (W * H) = 3 * (W * H) := by
      have : (3 : Int).toNat = 3 := rfl
      rw [this]
    rw [e1] at hsize
    have hfill := fillMultiBand_filled (W : Int) (H : Int) offset
      (bufferSize (W : Int) (H : Int) 3) (freshBuffer (W : Int) (H : Int) 3)
      (by rw [hsize]; simp) (filledTo_freshBuffer _ _ _ _)
    have hgen : generateFrame (W : Int) (H : Int) 3 offset
        = fillMultiBand (W : Int) (H : Int) offset (freshBuffer (W : Int) (H : Int) 3) := by
      simp [generateFrame]
    simp only [Int.toNat_ofNat] at hfill
    rw [hgen, e]
    obtain ⟨h1, h2, h3, h4⟩ := hfill
    exact ⟨hsize, by rw [h3, hsize], h1, h2, fun i hi => ⟨_, h4 i hi⟩⟩

/-- Witness for C3 as amended: the theorem applied to the format 4 x 2 with 3
bands at offset 2. -/
theorem buffer_bounds_witness :
    bufferSize 4 2 3 = ((4 : Int) * 2 * 3).toNat ∧
      (generateFrame 4 2 3 2).imBuffer.length = ((4 : Int) * 2 * 3).toNat ∧
      (generateFrame 4 2 3 2).reference = ((4 : Int) * 2 * 3).toNat ∧
      (generateFrame 4 2 3 2).overrun = false ∧
      ∀ i, i < ((4 : Int) * 2 * 3).toNat →
        ∃ b, (generateFrame 4 2 3 2).imBuffer[i]? = some (some b) :=
  buffer_bounds 4 2 3 2 (by decide) (by decide) (Or.inr rfl) (by decide)


/-! ## The capture loop: lemmas -/

theorem M_bind_apply {α β : Type} (m : M α) (f : α → M β) (w : World) :
    (m >>= f) w = M.bind m f w := rfl

theorem M_pure_apply {α : Type} (a : α) (w : World) :
    (pure a : M α) w = Outcome.done a w := rfl

/-- The loop of `sendFrame` when the acquisition is complete: no iteration. -/
theorem sendFrameLoop_complete (env : Env) (fuel : Nat) (l : Locals) (w : World)
    (hl : l.driverSection.state = false)
    (hnc : env.isAcquisitionNotComplete w.clock = false) :
    sendFrameLoop env (fuel + 1) l w = Outcome.done ()
      { w with clock := w.clock + 1
               trace := w.trace ++ [Event.whileCondition false w._driverGuard] } := by
  simp [sendFrameLoop, tick, whileCondition, emit, M_bind_apply, M.bind, M_pure_apply, hl, hnc,
    IAutoCriticalSection.destroy]


/-- The loop of `sendFrame` when the flag is false: no iteration. -/
theorem sendFrameLoop_inactive (env : Env) (fuel : Nat) (l : Locals) (w : World)
    (hl : l.driverSection.state = false)
    (hf : w._acquisitionActiveGuard = false)
    (hnc : env.isAcquisitionNotComplete w.clock = true)
    (hact : w._acquisitionActive = false) :
    sendFrameLoop env (fuel + 1) l w = Outcome.done ()
      { w with clock := w.clock + 1
               trace := w.trace ++ [Event.whileCondition false w._driverGuard,
                 Event.enter Guard.acquisitionActiveGuard,
                 Event.leave Guard.acquisitionActiveGuard] } := by
  simp [sendFrameLoop, tick, whileCondition, emit, M_bind_apply, M.bind, M_pure_apply, hl, hnc,
    IAutoCriticalSection.destroy, isAcquisitionActive, createAutoCriticalSection,
    ICriticalSection.enter, ICriticalSection.leave, World.locked, World.setLocked, hf, hact]

/-- An iteration in which the allocation fails. -/
theorem sendFrameLoop_badAlloc (env : Env) (fuel : Nat) (l : Locals) (w : World)
    (hl : l.driverSection = { guard := Guard.driverGuard, state := false })
    (hd : w._driverGuard = false) (hf : w._acquisitionActiveGuard = false)
    (hnc : env.isAcquisitionNotComplete w.clock = true)
    (hact : w._acquisitionActive = true)
    (hnew : env.newSucceeds w.clock = false) :
    sendFrameLoop env (fuel + 1) l w = Outcome.done ()
      { w with clock := w.clock + 1
               trace := w.trace ++ [Event.whileCondition false false,
                 Event.enter Guard.acquisitionActiveGuard,
                 Event.leave Guard.acquisitionActiveGuard,
                 Event.enter Guard.driverGuard,
                 Event.newBuffer (bufferSize l.imageWidth l.imageHeight l.imageBands) false,
                 Event.adaptorError "imaq:demo:badFrameAlloc"
                   "Unable to allocate memory for frame.",
                 Event.leave Guard.driverGuard] } := by
  simp [sendFrameLoop, tick, whileCondition, emit, M_bind_apply, M.bind, M_pure_apply, hl, hnc,
    IAutoCriticalSection.destroy, isAcquisitionActive, createAutoCriticalSection,
    ICriticalSection.enter, ICriticalSection.leave, World.locked, World.setLocked, hf, hact, hd,
    sendFrameBody, IAutoCriticalSection.enter, hnew]

/-- An iteration whose frame is not sent to the engine. -/
theorem sendFrameLoop_skip (env : Env) (fuel : Nat) (l : Locals) (w : World)
    (hl : l.driverSection = { guard := Guard.driverGuard, state := false })
    (hd : w._driverGuard = false) (hf : w._acquisitionActiveGuard = false)
    (hnc : env.isAcquisitionNotComplete w.clock = true)
    (hact : w._acquisitionActive = true)
    (hnew : env.newSucceeds w.clock = true)
    (hsend : env.isSendFrame w.clock = false) :
    sendFrameLoop env (fuel + 1) l w = sendFrameLoop env fuel
      { l with offset := wrapInt (l.offset + IMAGE_DATA_OFFSET) }
      { w with clock := w.clock + 1
               frameCount := w.frameCount + 1
               trace := w.trace ++ [Event.whileCondition false false,
                 Event.enter Guard.acquisitionActiveGuard,
                 Event.leave Guard.acquisitionActiveGuard,
                 Event.enter Guard.driverGuard,
                 Event.newBuffer (bufferSize l.imageWidth l.imageHeight l.imageBands) true,
                 Event.usleep (IMAGE_FRAME_PAUSE_TIME * 1000),
                 Event.incrementFrameCount,
                 Event.deleteBuffer,
                 Event.leave Guard.driverGuard] } := by
  simp [sendFrameLoop, tick, whileCondition, emit, M_bind_apply, M.bind, M_pure_apply, hl, hnc,
    IAutoCriticalSection.destroy, isAcquisitionActive, createAutoCriticalSection,
    ICriticalSection.enter, ICriticalSection.leave, World.locked, World.setLocked, hf, hact, hd,
    sendFrameBody, IAutoCriticalSection.enter, hnew, hsend, incrementFrameCount,
    IAutoCriticalSection.leave]

/-- An iteration whose frame is sent to the engine. -/
theorem sendFrameLoop_send (env : Env) (fuel : Nat) (l : Locals) (w : World)
    (hl : l.driverSection = { guard := Guard.driverGuard, state := false })
    (hd : w._driverGuard = false) (hf : w._acquisitionActiveGuard = false)
    (hnc : env.isAcquisitionNotComplete w.clock = true)
    (hact : w._acquisitionActive = true)
    (hnew : env.newSucceeds w.clock = true)
    (hsend : env.isSendFrame w.clock = true)
    (hnull : env.makeFrameNull w.clock = false) :
    sendFrameLoop env (fuel + 1) l w = sendFrameLoop env fuel
      { l with offset := wrapInt (l.offset + IMAGE_DATA_OFFSET) }
      { w with clock := w.clock + 1
               frameCount := w.frameCount + 1
               trace := w.trace ++ [Event.whileCondition false false,
                 Event.enter Guard.acquisitionActiveGuard,
                 Event.leave Guard.acquisitionActiveGuard,
                 Event.enter Guard.driverGuard,
                 Event.newBuffer (bufferSize l.imageWidth l.imageHeight l.imageBands) true,
                 Event.usleep (IMAGE_FRAME_PAUSE_TIME * 1000),
                 Event.getROI,
                 Event.makeFrame (getFrameType w) (env.getROI w.clock).width
                   (env.getROI w.clock).height false,
                 Event.setImage
                   (generateFrame l.imageWidth l.imageHeight l.imageBands l.offset).imBuffer
                   l.imageWidth l.imageHeight (env.getROI w.clock).originX
                   (env.getROI w.clock).originY,
                 Event.setTime,
                 Event.receiveFrame,
                 Event.incrementFrameCount,
                 Event.deleteBuffer,
                 Event.leave Guard.driverGuard] } := by
  simp [sendFrameLoop, tick, whileCondition, emit, M_bind_apply, M.bind, M_pure_apply, hl, hnc,
    IAutoCriticalSection.destroy, isAcquisitionActive, createAutoCriticalSection,
    ICriticalSection.enter, ICriticalSection.leave, World.locked, World.setLocked, hf, hact, hd,
    sendFrameBody, IAutoCriticalSection.enter, hnew, hsend, incrementFrameCount,
    IAutoCriticalSection.leave, forwardFrame, hnull, getFrameType]

/-- An iteration in which `makeFrame` returns `NULL`: `frame->setImage` is
reached with a null `frame`. -/
theorem sendFrameLoop_nullFrame (env : Env) (fuel : Nat) (l : Locals) (w : World)
    (hl : l.driverSection = { guard := Guard.driverGuard, state := false })
    (hd : w._driverGuard = false) (hf : w._acquisitionActiveGuard = false)
    (hnc : env.isAcquisitionNotComplete w.clock = true)
    (hact : w._acquisitionActive = true)
    (hnew : env.newSucceeds w.clock = true)
    (hsend : env.isSendFrame w.clock = true)
    (hnull : env.makeFrameNull w.clock = true) :
    sendFrameLoop env (fuel + 1) l w = Outcome.crashed
      { w with clock := w.clock + 1
               _driverGuard := true
               trace := w.trace ++ [Event.whileCondition false false,
                 Event.enter Guard.acquisitionActiveGuard,
                 Event.leave Guard.acquisitionActiveGuard,
                 Event.enter Guard.driverGuard,
                 Event.newBuffer (bufferSize l.imageWidth l.imageHeight l.imageBands) true,
                 Event.usleep (IMAGE_FRAME_PAUSE_TIME * 1000),
                 Event.getROI,
                 Event.makeFrame (getFrameType w) (env.getROI w.clock).width
                   (env.getROI w.clock).height true] } := by
  simp [sendFrameLoop, tick, whileCondition, emit, M_bind_apply, M.bind, M_pure_apply, hl, hnc,
    IAutoCriticalSection.destroy, isAcquisitionActive, createAutoCriticalSection,
    ICriticalSection.enter, ICriticalSection.leave, World.locked, World.setLocked, hf, hact, hd,
    sendFrameBody, IAutoCriticalSection.enter, hnew, hsend, incrementFrameCount,
    IAutoCriticalSection.leave, forwardFrame, hnull, getFrameType]


theorem sendFrame_eq_loop (env : Env) (fuel : Nat) (w : World) :
    sendFrame env fuel w = sendFrameLoop env fuel (initialLocals w) w := by
  simp [sendFrame, createAutoCriticalSection, M_bind_apply, M.bind, M_pure_apply, initialLocals]

/-- The loop of `sendThread` when the flag is false: the thread returns. -/
theorem sendThread_inactive (env : Env) (fuel n : Nat) (w : World)
    (hf : w._acquisitionActiveGuard = false) (hact : w._acquisitionActive = false) :
    sendThread env fuel (n + 1) w = Outcome.done ()
      { w with trace := w.trace ++ [Event.enter Guard.acquisitionActiveGuard,
                 Event.leave Guard.acquisitionActiveGuard] } := by
  simp [sendThread, M_bind_apply, M.bind, M_pure_apply,
    IAutoCriticalSection.destroy, isAcquisitionActive, createAutoCriticalSection,
    ICriticalSection.enter, ICriticalSection.leave, World.locked, World.setLocked, hf, hact]

/-- The loop of `sendThread` when the flag is true: `sendFrame` is called and
the condition is evaluated again. -/
theorem sendThread_active (env : Env) (fuel n : Nat) (w : World)
    (hf : w._acquisitionActiveGuard = false) (hact : w._acquisitionActive = true) :
    sendThread env fuel (n + 1) w = M.bind (sendFrame env fuel) (fun _ => sendThread env fuel n)
      { w with trace := w.trace ++ [Event.enter Guard.acquisitionActiveGuard,
                 Event.leave Guard.acquisitionActiveGuard] } := by
  simp [sendThread, M_bind_apply, M.bind, M_pure_apply,
    IAutoCriticalSection.destroy, isAcquisitionActive, createAutoCriticalSection,
    ICriticalSection.enter, ICriticalSection.leave, World.locked, World.setLocked, hf, hact]

/-- C4, counterexample: every allocation fails, the acquisition is not
complete and nothing but the capture thread touches the adaptor.  After two
rounds of the loop of `sendThread` there are two allocation attempts and two
error reports, the flag is still true and the thread has not returned. -/
theorem allocation_failure_reported_once_counterexample :
    sendThread hostOutOfMemory 1 2 acquiringAdaptor = Outcome.fuelOut
      { acquiringAdaptor with
        clock := 2
        trace := [Event.enter Guard.acquisitionActiveGuard,
          Event.leave Guard.acquisitionActiveGuard,
          Event.whileCondition false false,
          Event.enter Guard.acquisitionActiveGuard,
          Event.leave Guard.acquisitionActiveGuard,
          Event.enter Guard.driverGuard,
          Event.newBuffer 307200 false,
          Event.adaptorError "imaq:demo:badFrameAlloc" "Unable to allocate memory for frame.",
          Event.leave Guard.driverGuard,
          Event.enter Guard.acquisitionActiveGuard,
          Event.leave Guard.acquisitionActiveGuard,
          Event.whileCondition false false,
          Event.enter Guard.acquisitionActiveGuard,
          Event.leave Guard.acquisitionActiveGuard,
          Event.enter Guard.driverGuard,
          Event.newBuffer 307200 false,
          Event.adaptorError "imaq:demo:badFrameAlloc" "Unable to allocate memory for frame.",
          Event.leave Guard.driverGuard] } := by
  decide!

/-- C4 as amended: when the allocation fails in an iteration of the loop of
`sendFrame`, that call of `sendFrame` makes exactly one error report
(`adaptorError` with id "imaq:demo:badFrameAlloc"), sends no frame, leaves the
frame count as it is and returns at once.  The capture task (`sendThread`) then
tests the flag: it returns if the flag is false; if the flag is still true it
calls `sendFrame` again. -/
theorem allocation_failure_reported_once (env : Env) (fuel n : Nat) (l : Locals) (w : World)
    (hl : l.driverSection = { guard := Guard.driverGuard, state := false })
    (hd : w._driverGuard = false) (hf : w._acquisitionActiveGuard = false)
    (hnc : env.isAcquisitionNotComplete w.clock = true)
    (hact : w._acquisitionActive = true)
    (hnew : env.newSucceeds w.clock = false) :
    sendFrameLoop env (fuel + 1) l w = Outcome.done ()
      { w with clock := w.clock + 1
               trace := w.trace ++ [Event.whileCondition false false,
                 Event.enter Guard.acquisitionActiveGuard,
                 Event.leave Guard.acquisitionActiveGuard,
                 Event.enter Guard.driverGuard,
                 Event.newBuffer (bufferSize l.imageWidth l.imageHeight l.imageBands) false,
                 Event.adaptorError "imaq:demo:badFrameAlloc"
                   "Unable to allocate memory for frame.",
                 Event.leave Guard.driverGuard] } ∧
    (∀ v : World, v._acquisitionActiveGuard = false → v._acquisitionActive = false →
      sendThread env fuel (n + 1) v = Outcome.done ()
        { v with trace := v.trace ++ [Event.enter Guard.acquisitionActiveGuard,
                   Event.leave Guard.acquisitionActiveGuard] }) ∧
    (∀ v : World, v._acquisitionActiveGuard = false → v._acquisitionActive = true →
      sendThread env fuel (n + 1) v =
        M.bind (sendFrame env fuel) (fun _ => sendThread env fuel n)
          { v with trace := v.trace ++ [Event.enter Guard.acquisitionActiveGuard,
                     Event.leave Guard.acquisitionActiveGuard] }) :=
  ⟨sendFrameLoop_badAlloc env fuel l w hl hd hf hnc hact hnew,
    fun v h1 h2 => sendThread_inactive env fuel n v h1 h2,
    fun v h1 h2 => sendThread_active env fuel n v h1 h2⟩

/-- Witness for C4 as amended: the theorem applied to the acquiring `RS170`
adaptor on a host without memory. -/
theorem allocation_failure_reported_once_witness :
    sendFrameLoop hostOutOfMemory (0 + 1) (initialLocals acquiringAdaptor) acquiringAdaptor
      = Outcome.done ()
        { acquiringAdaptor with
          clock := acquiringAdaptor.clock + 1
          trace := acquiringAdaptor.trace ++ [Event.whileCondition false false,
            Event.enter Guard.acquisitionActiveGuard,
            Event.leave Guard.acquisitionActiveGuard,
            Event.enter Guard.driverGuard,
            Event.newBuffer (bufferSize (initialLocals acquiringAdaptor).imageWidth
              (initialLocals acquiringAdaptor).imageHeight
              (initialLocals acquiringAdaptor).imageBands) false,
            Event.adaptorError "imaq:demo:badFrameAlloc"
              "Unable to allocate memory for frame.",
            Event.leave Guard.driverGuard] } :=
  (allocation_failure_reported_once hostOutOfMemory 0 0 (initialLocals acquiringAdaptor)
    acquiringAdaptor rfl rfl rfl rfl rfl rfl).1

/-- C5, counterexample: `sendFrame` returns because the allocation failed;
`isAcquisitionActive()` called next returns true, and no stop was issued. -/
theorem allocation_failure_flag_counterexample :
    M.bind (sendFrame hostOutOfMemory 1) (fun _ => isAcquisitionActive) acquiringAdaptor
      = Outcome.done true
        { acquiringAdaptor with
          clock := 1
          trace := [Event.whileCondition false false,
            Event.enter Guard.acquisitionActiveGuard,
            Event.leave Guard.acquisitionActiveGuard,
            Event.enter Guard.driverGuard,
            Event.newBuffer 307200 false,
            Event.adaptorError "imaq:demo:badFrameAlloc" "Unable to allocate memory for frame.",
            Event.leave Guard.driverGuard,
            Event.enter Guard.acquisitionActiveGuard,
            Event.leave Guard.acquisitionActiveGuard] } := by
  decide!


theorem keepsFlag_pure {α : Type} (a : α) : KeepsFlag (pure a : M α) :=
  fun _ => rfl

theorem keepsFlag_bind {α β : Type} (m : M α) (f : α → M β)
    (hm : KeepsFlag m) (hf : ∀ a, KeepsFlag (f a)) : KeepsFlag (m >>= f) := by
  intro w
  have h := hm w
  rw [M_bind_apply]
  unfold M.bind
  cases hmw : m w with
  | done a w' =>
    rw [hmw] at h
    simp only []
    rw [hf a w']
    exact h
  | blocked w' => rw [hmw] at h; exact h
  | crashed w' => rw [hmw] at h; exact h
  | fuelOut w' => rw [hmw] at h; exact h

theorem keepsFlag_emit (e : Event) : KeepsFlag (emit e) :=
  fun _ => rfl

theorem keepsFlag_enter (g : Guard) : KeepsFlag (ICriticalSection.enter g) := by
  intro w
  cases g <;> simp only [ICriticalSection.enter, World.setLocked] <;> split <;> rfl

theorem keepsFlag_leave (g : Guard) : KeepsFlag (ICriticalSection.leave g) := by
  intro w
  cases g <;> rfl

theorem keepsFlag_create (g : Guard) (enter : Bool) :
    KeepsFlag (createAutoCriticalSection g enter) := by
  unfold createAutoCriticalSection
  split
  · exact keepsFlag_bind _ _ (keepsFlag_enter g) (fun _ => keepsFlag_pure _)
  · exact keepsFlag_pure _

theorem keepsFlag_autoEnter (a : IAutoCriticalSection) : KeepsFlag a.enter := by
  unfold IAutoCriticalSection.enter
  split
  · exact keepsFlag_pure _
  · exact keepsFlag_bind _ _ (keepsFlag_enter _) (fun _ => keepsFlag_pure _)

theorem keepsFlag_autoLeave (a : IAutoCriticalSection) : KeepsFlag a.leave := by
  unfold IAutoCriticalSection.leave
  split
  · exact keepsFlag_bind _ _ (keepsFlag_leave _) (fun _ => keepsFlag_pure _)
  · exact keepsFlag_pure _

theorem keepsFlag_destroy (a : IAutoCriticalSection) : KeepsFlag a.destroy := by
  unfold IAutoCriticalSection.destroy
  split
  · exact keepsFlag_leave _
  · exact keepsFlag_pure _

theorem keepsFlag_isAcquisitionActive : KeepsFlag isAcquisitionActive := by
  unfold isAcquisitionActive
  refine keepsFlag_bind _ _ (keepsFlag_create _ _) (fun a => ?_)
  refine keepsFlag_bind _ _ (fun _ => rfl) (fun b => ?_)
  exact keepsFlag_bind _ _ (keepsFlag_destroy _) (fun _ => keepsFlag_pure _)

theorem keepsFlag_whileCondition (env : Env) (k : Nat) (l : Locals) :
    KeepsFlag (whileCondition env k l) := by
  unfold whileCondition
  refine keepsFlag_bind _ _ (fun _ => rfl) (fun _ => ?_)
  split
  · exact keepsFlag_isAcquisitionActive
  · exact keepsFlag_pure _

theorem keepsFlag_forwardFrame (isNull : Bool) (imBuffer : List (Option Nat))
    (a b c d : Int) : KeepsFlag (forwardFrame isNull imBuffer a b c d) := by
  intro w
  unfold forwardFrame
  split
  · rfl
  · rfl

theorem keepsFlag_sendFrameBody (env : Env) (k : Nat) (l : Locals) :
    KeepsFlag (sendFrameBody env k l) := by
  unfold sendFrameBody
  refine keepsFlag_bind _ _ (keepsFlag_autoEnter _) (fun ds => ?_)
  split
  · refine keepsFlag_bind _ _ (keepsFlag_emit _) (fun _ => ?_)
    exact keepsFlag_bind _ _ (keepsFlag_emit _) (fun _ => keepsFlag_pure _)
  · refine keepsFlag_bind _ _ (keepsFlag_emit _) (fun _ => ?_)
    refine keepsFlag_bind _ _ (keepsFlag_emit _) (fun _ => ?_)
    have tail : ∀ y : PUnit, KeepsFlag (do
        incrementFrameCount
        emit Event.deleteBuffer
        let driverSection ← ds.leave
        pure (BodyExit.endOfBody
          { l with driverSection := driverSection,
                   offset := wrapInt (l.offset + IMAGE_DATA_OFFSET) }) : M BodyExit) := by
      intro _
      refine keepsFlag_bind _ _ (fun _ => rfl) (fun _ => ?_)
      refine keepsFlag_bind _ _ (keepsFlag_emit _) (fun _ => ?_)
      exact keepsFlag_bind _ _ (keepsFlag_autoLeave _) (fun _ => keepsFlag_pure _)
    dsimp only
    split
    · refine keepsFlag_bind _ _ (keepsFlag_emit _) (fun _ => ?_)
      refine keepsFlag_bind _ _ (fun _ => rfl) (fun _ => ?_)
      refine keepsFlag_bind _ _ (keepsFlag_emit _) (fun _ => ?_)
      exact keepsFlag_bind _ _ (keepsFlag_forwardFrame _ _ _ _ _ _) tail
    · exact keepsFlag_bind _ _ (keepsFlag_pure _) tail

theorem keepsFlag_sendFrameLoop (env : Env) (fuel : Nat) :
    ∀ l, KeepsFlag (sendFrameLoop env fuel l) := by
  induction fuel with
  | zero => intro l w; rfl
  | succ fuel ih =>
    intro l
    unfold sendFrameLoop
    refine keepsFlag_bind _ _ (fun _ => rfl) (fun k => ?_)
    refine keepsFlag_bind _ _ (keepsFlag_whileCondition _ _ _) (fun c => ?_)
    split
    · refine keepsFlag_bind _ _ (keepsFlag_sendFrameBody _ _ _) (fun e => ?_)
      split
      · exact ih _
      · exact keepsFlag_destroy _
    · exact keepsFlag_destroy _

theorem keepsFlag_sendFrame (env : Env) (fuel : Nat) : KeepsFlag (sendFrame env fuel) := by
  intro w
  rw [sendFrame_eq_loop]
  exact keepsFlag_sendFrameLoop env fuel _ w


/-- A completed iteration, whether or not its frame is sent: the loop goes on
with the offset advanced by `IMAGE_DATA_OFFSET`, the frame count incremented
and both critical sections unlocked. -/
theorem sendFrameLoop_iteration (env : Env) (fuel : Nat) (l : Locals) (w : World)
    (hl : l.driverSection = { guard := Guard.driverGuard, state := false })
    (hd : w._driverGuard = false) (hf : w._acquisitionActiveGuard = false)
    (hnc : env.isAcquisitionNotComplete w.clock = true)
    (hact : w._acquisitionActive = true)
    (hnew : env.newSucceeds w.clock = true)
    (hok : env.isSendFrame w.clock = true → env.makeFrameNull w.clock = false) :
    ∃ ev : List Event,
      (∀ a b, Event.whileCondition a b ∈ ev → a = false ∧ b = false) ∧
      sendFrameLoop env (fuel + 1) l w = sendFrameLoop env fuel
        { l with offset := wrapInt (l.offset + IMAGE_DATA_OFFSET) }
        { w with clock := w.clock + 1
                 frameCount := w.frameCount + 1
                 trace := w.trace ++ ev } := by
  cases hsend : env.isSendFrame w.clock with
  | false =>
    refine ⟨_, ?_, sendFrameLoop_skip env fuel l w hl hd hf hnc hact hnew hsend⟩
    intro a b h
    simp at h
    exact h
  | true =>
    refine ⟨_, ?_, sendFrameLoop_send env fuel l w hl hd hf hnc hact hnew hsend (hok hsend)⟩
    intro a b h
    simp at h
    exact h

/-- Invariant of the loop of `sendFrame`: with `driverSection` not entered and
both critical sections unlocked when the condition is evaluated, the same holds
at every later evaluation and when the function is left. -/
theorem sendFrameLoop_guard (env : Env) (fuel : Nat) :
    ∀ (l : Locals) (w : World),
      l.driverSection = { guard := Guard.driverGuard, state := false } →
      w._driverGuard = false → w._acquisitionActiveGuard = false →
      (∀ w', sendFrameLoop env fuel l w = Outcome.done () w' →
        w'._driverGuard = false ∧ w'._acquisitionActiveGuard = false) ∧
      (∀ w', sendFrameLoop env fuel l w = Outcome.fuelOut w' → w'._driverGuard = false) ∧
      (∀ a b, Event.whileCondition a b ∈ (sendFrameLoop env fuel l w).world.trace →
        Event.whileCondition a b ∈ w.trace ∨ (a = false ∧ b = false)) ∧
      (∀ w', sendFrameLoop env fuel l w ≠ Outcome.blocked w') := by
  induction fuel with
  | zero =>
    intro l w _ hd _
    have h0 : sendFrameLoop env 0 l w = Outcome.fuelOut w := rfl
    rw [h0]
    refine ⟨fun w' h => (by cases h), fun w' h => ?_, fun a b h => Or.inl h, fun w' h => (by cases h)⟩
    cases h
    exact hd
  | succ fuel ih =>
    intro l w hl hd hf
    have hls : l.driverSection.state = false := by rw [hl]
    cases hnc : env.isAcquisitionNotComplete w.clock with
    | false =>
      rw [sendFrameLoop_complete env fuel l w hls hnc]
      refine ⟨fun w' h => ?_, fun w' h => (by cases h), fun a b h => ?_, fun w' h => (by cases h)⟩
      · cases h
        exact ⟨hd, hf⟩
      · simp [Outcome.world, hd] at h
        tauto
    | true =>
      cases hact : w._acquisitionActive with
      | false =>
        rw [sendFrameLoop_inactive env fuel l w hls hf hnc hact]
        refine ⟨fun w' h => ?_, fun w' h => (by cases h), fun a b h => ?_, fun w' h => (by cases h)⟩
        · cases h
          exact ⟨hd, hf⟩
        · simp [Outcome.world, hd] at h
          tauto
      | true =>
        cases hnew : env.newSucceeds w.clock with
        | false =>
          rw [sendFrameLoop_badAlloc env fuel l w hl hd hf hnc hact hnew]
          refine ⟨fun w' h => ?_, fun w' h => (by cases h), fun a b h => ?_,
            fun w' h => (by cases h)⟩
          · cases h
            exact ⟨hd, hf⟩
          · simp [Outcome.world] at h
            tauto
        | true =>
          cases hnull : (env.isSendFrame w.clock && env.makeFrameNull w.clock) with
          | true =>
            simp only [Bool.and_eq_true] at hnull
            rw [sendFrameLoop_nullFrame env fuel l w hl hd hf hnc hact hnew hnull.1 hnull.2]
            refine ⟨fun w' h => (by cases h), fun w' h => (by cases h), fun a b h => ?_,
              fun w' h => (by cases h)⟩
            simp [Outcome.world] at h
            tauto
          | false =>
            obtain ⟨ev, hev, heq⟩ := sendFrameLoop_iteration env fuel l w hl hd hf hnc hact hnew
              (by intro h1; rw [h1] at hnull; simpa using hnull)
            rw [heq]
            obtain ⟨h1, h2, h3, h4⟩ := ih
              { l with offset := wrapInt (l.offset + IMAGE_DATA_OFFSET) }
              { w with clock := w.clock + 1
                       frameCount := w.frameCount + 1
                       trace := w.trace ++ ev } hl hd hf
            refine ⟨h1, h2, fun a b h => ?_, h4⟩
            rcases h3 a b h with h | h
            · rcases List.mem_append.1 h with h | h
              · exact Or.inl h
              · exact Or.inr (hev a b h)
            · exact Or.inr h


/-- What `stopCapture` does on an acquiring device whose critical sections are
unlocked. -/
theorem stopCapture_acquiring (w : World) (hacq : w.isAcquiring = true)
    (hd : w._driverGuard = false) (hf : w._acquisitionActiveGuard = false) :
    stopCapture w = Outcome.done true
      { w with _acquisitionActive := false
               threads := match w._sendThread with
                 | some t => w.threads.erase t
                 | none => w.threads
               trace := w.trace ++ [Event.enter Guard.acquisitionActiveGuard,
                 Event.leave Guard.acquisitionActiveGuard,
                 Event.pthread_join w._sendThread,
                 Event.enter Guard.driverGuard,
                 Event.leave Guard.driverGuard] } := by
  simp [stopCapture, hacq, setAcquisitionActive, pthread_join, M_bind_apply, M.bind, M_pure_apply,
    IAutoCriticalSection.destroy, IAutoCriticalSection.leave, createAutoCriticalSection,
    ICriticalSection.enter, ICriticalSection.leave, World.locked, World.setLocked, hf, hd]

/-- C5 as amended: after the loop of `sendFrame` has ended because a frame
allocation failed, `isAcquisitionActive()` still returns true; `sendFrame`
never writes the flag, however it ends.  The flag becomes false when
`stopCapture` runs on the acquiring device. -/
theorem allocation_failure_flag (env : Env) (fuel : Nat) (l : Locals) (w : World)
    (hl : l.driverSection = { guard := Guard.driverGuard, state := false })
    (hd : w._driverGuard = false) (hf : w._acquisitionActiveGuard = false)
    (hnc : env.isAcquisitionNotComplete w.clock = true)
    (hact : w._acquisitionActive = true)
    (hnew : env.newSucceeds w.clock = false) :
    M.bind (sendFrameLoop env (fuel + 1) l) (fun _ => isAcquisitionActive) w
      = Outcome.done true
        { w with clock := w.clock + 1
                 trace := w.trace ++ [Event.whileCondition false false,
                   Event.enter Guard.acquisitionActiveGuard,
                   Event.leave Guard.acquisitionActiveGuard,
                   Event.enter Guard.driverGuard,
                   Event.newBuffer (bufferSize l.imageWidth l.imageHeight l.imageBands) false,
                   Event.adaptorError "imaq:demo:badFrameAlloc"
                     "Unable to allocate memory for frame.",
                   Event.leave Guard.driverGuard,
                   Event.enter Guard.acquisitionActiveGuard,
                   Event.leave Guard.acquisitionActiveGuard] } ∧
    (∀ (n : Nat) (v : World),
      (sendFrame env n v).world._acquisitionActive = v._acquisitionActive) ∧
    (∀ v : World, v.isAcquiring = true → v._driverGuard = false →
      v._acquisitionActiveGuard = false →
      ∃ v', stopCapture v = Outcome.done true v' ∧ v'._acquisitionActive = false) := by
  refine ⟨?_, fun n v => keepsFlag_sendFrame env n v, fun v h1 h2 h3 => ?_⟩
  · unfold M.bind
    rw [sendFrameLoop_badAlloc env fuel l w hl hd hf hnc hact hnew]
    simp [isAcquisitionActive, M_bind_apply, M.bind, M_pure_apply,
      IAutoCriticalSection.destroy, createAutoCriticalSection,
      ICriticalSection.enter, ICriticalSection.leave, World.locked, World.setLocked, hf, hact]
  · exact ⟨_, stopCapture_acquiring v h1 h2 h3, rfl⟩

/-- Witness for C5 as amended: the theorem applied to the acquiring `RS170`
adaptor on a host without memory. -/
theorem allocation_failure_flag_witness :
    M.bind (sendFrameLoop hostOutOfMemory (0 + 1) (initialLocals acquiringAdaptor))
        (fun _ => isAcquisitionActive) acquiringAdaptor
      = Outcome.done true
        { acquiringAdaptor with
          clock := acquiringAdaptor.clock + 1
          trace := acquiringAdaptor.trace ++ [Event.whileCondition false false,
            Event.enter Guard.acquisitionActiveGuard,
            Event.leave Guard.acquisitionActiveGuard,
            Event.enter Guard.driverGuard,
            Event.newBuffer (bufferSize (initialLocals acquiringAdaptor).imageWidth
              (initialLocals acquiringAdaptor).imageHeight
              (initialLocals acquiringAdaptor).imageBands) false,
            Event.adaptorError "imaq:demo:badFrameAlloc"
              "Unable to allocate memory for frame.",
            Event.leave Guard.driverGuard,
            Event.enter Guard.acquisitionActiveGuard,
            Event.leave Guard.acquisitionActiveGuard] } :=
  (allocation_failure_flag hostOutOfMemory 0 (initialLocals acquiringAdaptor)
    acquiringAdaptor rfl rfl rfl rfl rfl rfl).1

/-- C6: whenever `sendFrame` returns, through the end of its loop or through
the `return` after a failed allocation, `_driverGuard` is unlocked: the scoped
`driverSection` leaves it when it is destroyed.  At every evaluation of the
loop condition `driverSection` is not entered and `_driverGuard` is not locked.
The call never waits for a critical section. -/
theorem driverGuard_released (env : Env) (fuel : Nat) (w : World)
    (hd : w._driverGuard = false) (hf : w._acquisitionActiveGuard = false) :
    (∀ w', sendFrame env fuel w = Outcome.done () w' → w'._driverGuard = false) ∧
    (∀ a b, Event.whileCondition a b ∈ (sendFrame env fuel w).world.trace →
      Event.whileCondition a b ∈ w.trace ∨ (a = false ∧ b = false)) ∧
    (∀ w', sendFrame env fuel w ≠ Outcome.blocked w') := by
  rw [sendFrame_eq_loop]
  obtain ⟨h1, _, h3, h4⟩ := sendFrameLoop_guard env fuel (initialLocals w) w rfl hd hf
  exact ⟨fun w' h => (h1 w' h).1, h3, h4⟩

/-- Witness for C6: the theorem applied to a call that returns after a failed
allocation and to a call that returns through the end of the loop after two
frames. -/
theorem driverGuard_released_witness :
    (sendFrame hostOutOfMemory 1 acquiringAdaptor
        = Outcome.done () (sendFrame hostOutOfMemory 1 acquiringAdaptor).world ∧
      (sendFrame hostOutOfMemory 1 acquiringAdaptor).world._driverGuard = false) ∧
    (sendFrame hostTwoFrames 3 tinyAcquiringAdaptor
        = Outcome.done () (sendFrame hostTwoFrames 3 tinyAcquiringAdaptor).world ∧
      (sendFrame hostTwoFrames 3 tinyAcquiringAdaptor).world._driverGuard = false) :=
  ⟨⟨by decide!, (driverGuard_released hostOutOfMemory 1 acquiringAdaptor rfl rfl).1 _
      (by decide!)⟩,
    ⟨by decide!, (driverGuard_released hostTwoFrames 3 tinyAcquiringAdaptor rfl rfl).1 _
      (by decide!)⟩⟩


theorem startCapture_closed (env : Env) (notifyAllListeners : M Unit) (w : World)
    (hopen : w.isOpen = false) :
    startCapture env notifyAllListeners w = Outcome.done false w := by
  simp [startCapture, hopen]

/-- C7: `startCapture` on a device that is not open returns false and changes
nothing: the listeners are not notified, the flag is not written, no thread is
created (state and trace are the ones before the call). -/
theorem startCapture_not_open (env : Env) (notifyAllListeners : M Unit) (w : World)
    (hopen : w.isOpen = false) :
    startCapture env notifyAllListeners w = Outcome.done false w :=
  startCapture_closed env notifyAllListeners w hopen

/-- Witness for C7: the theorem applied to the adaptor right after
construction. -/
theorem startCapture_not_open_witness :
    startCapture hostOutOfMemory (pure ()) constructedAdaptor
      = Outcome.done false constructedAdaptor :=
  startCapture_not_open hostOutOfMemory (pure ()) constructedAdaptor rfl

theorem M_bind_done {α β : Type} {m : M α} {w w' : World} {a : α} (f : α → M β)
    (h : m w = Outcome.done a w') : (m >>= f) w = f a w' := by
  show M.bind m f w = f a w'
  unfold M.bind
  rw [h]

theorem setAcquisitionActive_apply (state : Bool) (w : World)
    (hf : w._acquisitionActiveGuard = false) :
    setAcquisitionActive state w = Outcome.done ()
      { w with _acquisitionActive := state
               trace := w.trace ++ [Event.enter Guard.acquisitionActiveGuard,
                 Event.leave Guard.acquisitionActiveGuard] } := by
  simp [setAcquisitionActive, M_bind_apply, M.bind, M_pure_apply,
    IAutoCriticalSection.destroy, createAutoCriticalSection,
    ICriticalSection.enter, ICriticalSection.leave, World.locked, World.setLocked, hf]

/-- What `startCapture` does on an open device once the listeners have been
notified. -/
theorem startCapture_open (env : Env) (notifyAllListeners : M Unit) (w w1 : World)
    (hopen : w.isOpen = true)
    (hnotify : notifyAllListeners { w with trace := w.trace ++ [Event.notifyAllListeners] }
      = Outcome.done () w1)
    (hf : w1._acquisitionActiveGuard = false) :
    startCapture env notifyAllListeners w =
      if env.pthread_create w1.created = 0 then
        Outcome.done true
          { w1 with _acquisitionActive := true
                    _sendThread := some w1.created
                    threads := w1.created :: w1.threads
                    created := w1.created + 1
                    trace := w1.trace ++ [Event.enter Guard.acquisitionActiveGuard,
                      Event.leave Guard.acquisitionActiveGuard,
                      Event.pthread_create (env.pthread_create w1.created)] }
      else
        Outcome.done false
          { w1 with _acquisitionActive := true
                    _sendThread := env.failedHandle w1.created
                    created := w1.created + 1
                    trace := w1.trace ++ [Event.enter Guard.acquisitionActiveGuard,
                      Event.leave Guard.acquisitionActiveGuard,
                      Event.pthread_create (env.pthread_create w1.created)] } := by
  have h0 : emit Event.notifyAllListeners w
      = Outcome.done () { w with trace := w.trace ++ [Event.notifyAllListeners] } := rfl
  unfold startCapture
  simp only [hopen, Bool.not_true, Bool.false_eq_true, if_false]
  rw [M_bind_done _ h0, M_bind_done _ hnotify,
    M_bind_done _ (setAcquisitionActive_apply true w1 hf)]
  by_cases he : env.pthread_create w1.created = 0
  · simp [he, pthread_create, M_bind_apply, M.bind, M_pure_apply]
  · simp [he, pthread_create, M_bind_apply, M.bind, M_pure_apply]

theorem M_bind_eq_done {α β : Type} (m : M α) (f : α → M β) (w w' : World) (b : β) :
    (m >>= f) w = Outcome.done b w' ↔
      ∃ a w1, m w = Outcome.done a w1 ∧ f a w1 = Outcome.done b w' := by
  show M.bind m f w = Outcome.done b w' ↔ _
  unfold M.bind
  cases hm : m w with
  | done a w1 =>
    constructor
    · intro h
      exact ⟨a, w1, rfl, h⟩
    · rintro ⟨a', w1', h1, h2⟩
      cases h1
      exact h2
  | blocked w1 =>
    constructor
    · intro h
      cases h
    · rintro ⟨a', w1', h1, _⟩
      cases h1
  | crashed w1 =>
    constructor
    · intro h
      cases h
    · rintro ⟨a', w1', h1, _⟩
      cases h1
  | fuelOut w1 =>
    constructor
    · intro h
      cases h
    · rintro ⟨a', w1', h1, _⟩
      cases h1

theorem setAcquisitionActive_blocked (state : Bool) (w : World)
    (hf : w._acquisitionActiveGuard = true) :
    setAcquisitionActive state w = Outcome.blocked w := by
  simp [setAcquisitionActive, M_bind_apply, M.bind, createAutoCriticalSection,
    ICriticalSection.enter, World.locked, hf]

theorem setAcquisitionActive_done (state : Bool) (w w' : World)
    (h : setAcquisitionActive state w = Outcome.done () w') :
    w._acquisitionActiveGuard = false ∧ w'._acquisitionActive = state := by
  cases hf : w._acquisitionActiveGuard with
  | true =>
    rw [setAcquisitionActive_blocked state w hf] at h
    cases h
  | false =>
    rw [setAcquisitionActive_apply state w hf] at h
    cases h
    exact ⟨rfl, rfl⟩

theorem pthread_create_apply (env : Env) (w : World) :
    pthread_create env w =
      if env.pthread_create w.created = 0 then
        Outcome.done (env.pthread_create w.created)
          { w with _sendThread := some w.created
                   threads := w.created :: w.threads
                   created := w.created + 1
                   trace := w.trace ++ [Event.pthread_create (env.pthread_create w.created)] }
      else
        Outcome.done (env.pthread_create w.created)
          { w with _sendThread := env.failedHandle w.created
                   created := w.created + 1
                   trace := w.trace ++ [Event.pthread_create (env.pthread_create w.created)] } := by
  by_cases he : env.pthread_create w.created = 0
  · simp [pthread_create, he]
  · simp [pthread_create, he]

/-- C8, counterexample: the device is open and `pthread_create` fails;
`startCapture` returns false and `_acquisitionActive` is true on return. -/
theorem failed_start_counterexample :
    startCapture hostNoThreads (pure ()) openAdaptor = Outcome.done false
      { openAdaptor with
        _acquisitionActive := true
        _sendThread := some 4096
        created := 1
        trace := [Event.notifyAllListeners,
          Event.enter Guard.acquisitionActiveGuard,
          Event.leave Guard.acquisitionActiveGuard,
          Event.pthread_create 11] } ∧
    (startCapture hostNoThreads (pure ()) openAdaptor).world._acquisitionActive = true ∧
    (startCapture hostNoThreads (pure ()) openAdaptor).world.threads = [] := by
  refine ⟨?_, ?_, ?_⟩ <;> decide!

/-- C8 as amended: whenever `startCapture` returns false no capture thread has
been created by the call: the threads are those left by the notification of
the listeners.  If the device is not open the state, and with it the flag, is
unchanged.  If the device is open, so that it was `pthread_create` that
failed, the flag is true when `startCapture` returns, and `_sendThread` holds
what the failed `pthread_create` has left in it, which need not be the handle
it held before. -/
theorem failed_start (env : Env) (notifyAllListeners : M Unit) (w w' : World)
    (hret : startCapture env notifyAllListeners w = Outcome.done false w') :
    (w.isOpen = false → w' = w) ∧
    (w.isOpen = true →
      w'._acquisitionActive = true ∧
      ∃ w1, notifyAllListeners { w with trace := w.trace ++ [Event.notifyAllListeners] }
          = Outcome.done () w1 ∧
        env.pthread_create w1.created ≠ 0 ∧
        w'.threads = w1.threads ∧
        w' = { w1 with _acquisitionActive := true
                       _sendThread := env.failedHandle w1.created
                       created := w1.created + 1
                       trace := w1.trace ++ [Event.enter Guard.acquisitionActiveGuard,
                         Event.leave Guard.acquisitionActiveGuard,
                         Event.pthread_create (env.pthread_create w1.created)] }) := by
  constructor
  · intro hopen
    rw [startCapture_closed env notifyAllListeners w hopen] at hret
    cases hret
    rfl
  · intro hopen
    unfold startCapture at hret
    simp only [hopen, Bool.not_true, Bool.false_eq_true, if_false] at hret
    obtain ⟨_, w0, h0, hr1⟩ := (M_bind_eq_done _ _ _ _ _).1 hret
    obtain ⟨_, w1, h1, hr2⟩ := (M_bind_eq_done _ _ _ _ _).1 hr1
    obtain ⟨_, w2, h2, hr3⟩ := (M_bind_eq_done _ _ _ _ _).1 hr2
    obtain ⟨e, w3, h3, hr4⟩ := (M_bind_eq_done _ _ _ _ _).1 hr3
    clear hret hr1 hr2 hr3
    have hw0 : w0 = { w with trace := w.trace ++ [Event.notifyAllListeners] } := by
      cases h0
      rfl
    subst hw0
    obtain ⟨hf, hflag⟩ := setAcquisitionActive_done true w1 w2 h2
    rw [setAcquisitionActive_apply true w1 hf] at h2
    cases h2
    rw [pthread_create_apply] at h3
    rw [M_pure_apply] at hr4
    simp only [Outcome.done.injEq, decide_eq_false_iff_not] at hr4
    obtain ⟨hb, hw⟩ := hr4
    subst hw
    split at h3
    · rename_i he
      cases h3
      exact absurd he hb
    · rename_i he
      cases h3
      refine ⟨rfl, w1, h1, he, rfl, ?_⟩
      simp

/-- Witness for C8 as amended: the theorem applied to the open adaptor on a
host in which `pthread_create` fails. -/
theorem failed_start_witness :
    (startCapture hostNoThreads (pure ()) openAdaptor).world._acquisitionActive = true ∧
      ∃ w1, (pure () : M Unit)
            { openAdaptor with trace := openAdaptor.trace ++ [Event.notifyAllListeners] }
          = Outcome.done () w1 ∧
        hostNoThreads.pthread_create w1.created ≠ 0 ∧
        (startCapture hostNoThreads (pure ()) openAdaptor).world.threads = w1.threads ∧
        (startCapture hostNoThreads (pure ()) openAdaptor).world
          = { w1 with _acquisitionActive := true
                      _sendThread := hostNoThreads.failedHandle w1.created
                      created := w1.created + 1
                      trace := w1.trace ++ [Event.enter Guard.acquisitionActiveGuard,
                        Event.leave Guard.acquisitionActiveGuard,
                        Event.pthread_create (hostNoThreads.pthread_create w1.created)] } :=
  (failed_start hostNoThreads (pure ()) openAdaptor
    (startCapture hostNoThreads (pure ()) openAdaptor).world (by decide!)).2 rfl

/-- C9, counterexample: `startCapture` is called twice in a row on the open
adaptor, no listener is registered and no stop lies in between.  Both calls
return true, two capture threads (0 and 1) exist afterwards and `_sendThread`
holds the second handle only. -/
theorem start_twice_counterexample :
    (startCapture hostOutOfMemory (pure ()) >>= fun _ =>
        startCapture hostOutOfMemory (pure ())) openAdaptor
      = Outcome.done true
        { openAdaptor with
          _acquisitionActive := true
          _sendThread := some 1
          threads := [1, 0]
          created := 2
          trace := [Event.notifyAllListeners,
            Event.enter Guard.acquisitionActiveGuard,
            Event.leave Guard.acquisitionActiveGuard,
            Event.pthread_create 0,
            Event.notifyAllListeners,
            Event.enter Guard.acquisitionActiveGuard,
            Event.leave Guard.acquisitionActiveGuard,
            Event.pthread_create 0] } := by
  decide!

/-- C9 as amended: `startCapture` has no guard against a repeated start.  Every
call on an open device for which `pthread_create` succeeds creates one more
capture thread, in addition to those that exist once the listeners have been
notified, whether or not the device is acquiring; two calls in a row (with
listeners that leave the adaptor alone) leave two more capture threads, and
`_sendThread` holds the handle of the second. -/
theorem start_twice (env : Env) (w : World) (hopen : w.isOpen = true)
    (hf : w._acquisitionActiveGuard = false)
    (hc0 : env.pthread_create w.created = 0)
    (hc1 : env.pthread_create (w.created + 1) = 0) :
    (∀ (notifyAllListeners : M Unit) (w1 : World),
      notifyAllListeners { w with trace := w.trace ++ [Event.notifyAllListeners] }
        = Outcome.done () w1 →
      w1._acquisitionActiveGuard = false → env.pthread_create w1.created = 0 →
      startCapture env notifyAllListeners w = Outcome.done true
        { w1 with _acquisitionActive := true
                  _sendThread := some w1.created
                  threads := w1.created :: w1.threads
                  created := w1.created + 1
                  trace := w1.trace ++ [Event.enter Guard.acquisitionActiveGuard,
                    Event.leave Guard.acquisitionActiveGuard,
                    Event.pthread_create 0] }) ∧
    (startCapture env (pure ()) >>= fun _ => startCapture env (pure ())) w
      = Outcome.done true
        { w with _acquisitionActive := true
                 _sendThread := some (w.created + 1)
                 threads := (w.created + 1) :: w.created :: w.threads
                 created := w.created + 2
                 trace := w.trace ++ [Event.notifyAllListeners,
                   Event.enter Guard.acquisitionActiveGuard,
                   Event.leave Guard.acquisitionActiveGuard,
                   Event.pthread_create 0,
                   Event.notifyAllListeners,
                   Event.enter Guard.acquisitionActiveGuard,
                   Event.leave Guard.acquisitionActiveGuard,
                   Event.pthread_create 0] } := by
  have single : ∀ (notifyAllListeners : M Unit) (v w1 : World), v.isOpen = true →
      notifyAllListeners { v with trace := v.trace ++ [Event.notifyAllListeners] }
        = Outcome.done () w1 →
      w1._acquisitionActiveGuard = false → env.pthread_create w1.created = 0 →
      startCapture env notifyAllListeners v = Outcome.done true
        { w1 with _acquisitionActive := true
                  _sendThread := some w1.created
                  threads := w1.created :: w1.threads
                  created := w1.created + 1
                  trace := w1.trace ++ [Event.enter Guard.acquisitionActiveGuard,
                    Event.leave Guard.acquisitionActiveGuard,
                    Event.pthread_create 0] } := by
    intro n v w1 hv hn hg hc
    rw [startCapture_open env n v w1 hv hn hg, if_pos hc, hc]
  refine ⟨fun n w1 hn hg hc => single n w w1 hopen hn hg hc, ?_⟩
  simp [startCapture, hopen, emit, setAcquisitionActive, pthread_create, M_bind_apply, M.bind,
    M_pure_apply, IAutoCriticalSection.destroy, createAutoCriticalSection,
    ICriticalSection.enter, ICriticalSection.leave, World.locked, World.setLocked, hf, hc0, hc1]

/-- Witness for C9 as amended: the theorem applied to the open adaptor. -/
theorem start_twice_witness :
    (startCapture hostOutOfMemory (pure ()) >>= fun _ =>
        startCapture hostOutOfMemory (pure ())) openAdaptor
      = Outcome.done true
        { openAdaptor with
          _acquisitionActive := true
          _sendThread := some (openAdaptor.created + 1)
          threads := (openAdaptor.created + 1) :: openAdaptor.created :: openAdaptor.threads
          created := openAdaptor.created + 2
          trace := openAdaptor.trace ++ [Event.notifyAllListeners,
            Event.enter Guard.acquisitionActiveGuard,
            Event.leave Guard.acquisitionActiveGuard,
            Event.pthread_create 0,
            Event.notifyAllListeners,
            Event.enter Guard.acquisitionActiveGuard,
            Event.leave Guard.acquisitionActiveGuard,
            Event.pthread_create 0] } :=
  (start_twice hostOutOfMemory openAdaptor rfl rfl rfl rfl).2

/-- C10: `stopCapture` on a device that is not acquiring, `openDevice` on a
device that is open and `closeDevice` on a device that is not open return true
and leave the whole state (flag, thread handle, both critical sections, trace)
as it is; hence a stop that directly follows a stop returns true and changes
nothing. -/
theorem noop_in_target_state :
    (∀ w : World, w.isAcquiring = false → stopCapture w = Outcome.done true w) ∧
    (∀ w : World, w.isOpen = true → openDevice w = Outcome.done true w) ∧
    (∀ w : World, w.isOpen = false → closeDevice w = Outcome.done true w) ∧
    (∀ (w w1 : World) (b : Bool), stop w = Outcome.done b w1 →
      stop w1 = Outcome.done true w1) := by
  have hstop : ∀ w : World, w.isAcquiring = false → stopCapture w = Outcome.done true w := by
    intro w h
    simp [stopCapture, h]
  refine ⟨hstop, fun w h => by simp [openDevice, h], fun w h => by simp [closeDevice, h], ?_⟩
  intro w w1 b h
  have hacq : w1.isAcquiring = false := by
    unfold stop at h
    obtain ⟨stopped, w2, h2, h3⟩ := (M_bind_eq_done _ _ _ _ _).1 h
    cases stopped with
    | true =>
      simp only [if_true] at h3
      obtain ⟨_, w3, h4, h5⟩ := (M_bind_eq_done _ _ _ _ _).1 h3
      cases h4
      cases h5
      rfl
    | false =>
      exfalso
      by_cases ha : w.isAcquiring = true
      · unfold stopCapture at h2
        simp only [ha, Bool.not_true, Bool.false_eq_true, if_false] at h2
        obtain ⟨_, _, _, h6⟩ := (M_bind_eq_done _ _ _ _ _).1 h2
        obtain ⟨_, _, _, h7⟩ := (M_bind_eq_done _ _ _ _ _).1 h6
        obtain ⟨_, _, _, h8⟩ := (M_bind_eq_done _ _ _ _ _).1 h7
        obtain ⟨_, _, _, h9⟩ := (M_bind_eq_done _ _ _ _ _).1 h8
        obtain ⟨_, _, _, h10⟩ := (M_bind_eq_done _ _ _ _ _).1 h9
        cases h10
      · rw [hstop w (by simpa using ha)] at h2
        cases h2
  unfold stop
  rw [M_bind_done _ (hstop w1 hacq)]
  simp only [if_true]
  have e : ({ w1 with isAcquiring := false } : World) = w1 := by
    cases w1
    simp only [World.mk.injEq] at hacq ⊢
    simp_all
  show M.bind _ _ w1 = _
  simp only [M.bind, M_pure_apply, e]

/-- Witness for C10: the four parts applied to the adaptor after construction,
to the open adaptor, and to a stop of the acquiring adaptor followed by a
second stop. -/
theorem noop_in_target_state_witness :
    stopCapture openAdaptor = Outcome.done true openAdaptor ∧
    openDevice openAdaptor = Outcome.done true openAdaptor ∧
    closeDevice constructedAdaptor = Outcome.done true constructedAdaptor ∧
    stop acquiringAdaptor = Outcome.done true (stop acquiringAdaptor).world ∧
    stop (stop acquiringAdaptor).world = Outcome.done true (stop acquiringAdaptor).world :=
  ⟨noop_in_target_state.1 openAdaptor rfl, noop_in_target_state.2.1 openAdaptor rfl,
    noop_in_target_state.2.2.1 constructedAdaptor rfl, by decide!,
    noop_in_target_state.2.2.2 acquiringAdaptor _ true (by decide!)⟩


/-! ## Stop and close -/

/-- C11: `stopCapture` on an acquiring device whose critical sections are
unlocked sets the flag to false, joins the capture thread, then enters and
leaves `_driverGuard`, in this order, and returns true.  On return the flag is
false and `_driverGuard` is unlocked; it has been left once, by the explicit
`leave()`, and the destruction of `driverSection` leaves nothing. -/
theorem stopCapture_order (w : World) (hacq : w.isAcquiring = true)
    (hd : w._driverGuard = false) (hf : w._acquisitionActiveGuard = false) :
    stopCapture w = Outcome.done true
      { w with _acquisitionActive := false
               threads := match w._sendThread with
                 | some t => w.threads.erase t
                 | none => w.threads
               trace := w.trace ++ [Event.enter Guard.acquisitionActiveGuard,
                 Event.leave Guard.acquisitionActiveGuard,
                 Event.pthread_join w._sendThread,
                 Event.enter Guard.driverGuard,
                 Event.leave Guard.driverGuard] } ∧
    (stopCapture w).world._acquisitionActive = false ∧
    (stopCapture w).world._driverGuard = false ∧
    ((stopCapture w).world.trace.drop w.trace.length).count (Event.leave Guard.driverGuard) = 1 := by
  have h := stopCapture_acquiring w hacq hd hf
  rw [h]
  refine ⟨rfl, rfl, hd, ?_⟩
  simp [Outcome.world]

/-- Witness for C11: the theorem applied to the acquiring `RS170` adaptor. -/
theorem stopCapture_order_witness :
    stopCapture acquiringAdaptor = Outcome.done true
      { acquiringAdaptor with
        _acquisitionActive := false
        threads := match acquiringAdaptor._sendThread with
          | some t => acquiringAdaptor.threads.erase t
          | none => acquiringAdaptor.threads
        trace := acquiringAdaptor.trace ++ [Event.enter Guard.acquisitionActiveGuard,
          Event.leave Guard.acquisitionActiveGuard,
          Event.pthread_join acquiringAdaptor._sendThread,
          Event.enter Guard.driverGuard,
          Event.leave Guard.driverGuard] } :=
  (stopCapture_order acquiringAdaptor rfl rfl rfl).1

/-- C12, the code at the failing input: `closeDevice` on the adaptor that is
open and acquiring returns true and changes nothing; afterwards the flag is
still true and capture thread 0 still exists. -/
theorem closeDevice_acquiring :
    closeDevice acquiringAdaptor = Outcome.done true acquiringAdaptor ∧
    acquiringAdaptor._acquisitionActive = true ∧
    acquiringAdaptor.threads = [0] ∧
    (∀ w : World, closeDevice w = Outcome.done true w) := by
  refine ⟨by decide!, rfl, rfl, ?_⟩
  intro w
  unfold closeDevice
  split <;> rfl


/-! ## The loop of `sendFrame`: iterations -/

/-- The loop of `sendFrame` when both operands of its condition are true: the
body is executed, and the condition is evaluated again if the body is left at
its end. -/
theorem sendFrameLoop_enterBody (env : Env) (fuel : Nat) (l : Locals) (w : World)
    (hf : w._acquisitionActiveGuard = false)
    (hnc : env.isAcquisitionNotComplete w.clock = true)
    (hact : w._acquisitionActive = true) :
    sendFrameLoop env (fuel + 1) l w =
      M.bind (sendFrameBody env w.clock l)
        (fun exit => match exit with
          | BodyExit.endOfBody l' => sendFrameLoop env fuel l'
          | BodyExit.returned l' => l'.driverSection.destroy)
        { w with clock := w.clock + 1
                 trace := w.trace ++ [Event.whileCondition l.driverSection.state w._driverGuard,
                   Event.enter Guard.acquisitionActiveGuard,
                   Event.leave Guard.acquisitionActiveGuard] } := by
  simp [sendFrameLoop, tick, whileCondition, emit, M_bind_apply, M.bind, M_pure_apply, hnc,
    IAutoCriticalSection.destroy, isAcquisitionActive, createAutoCriticalSection,
    ICriticalSection.enter, ICriticalSection.leave, World.locked, World.setLocked, hf, hact]

/-- C13: the loop of `sendFrame` executes its body exactly when
`isAcquisitionNotComplete()` and the flag are both true at the evaluation of
the condition.  If the first is false, or the first is true and the flag is
false, `sendFrame` returns after that one evaluation: the frame count is
unchanged and the only calls are the evaluation of the condition and, for the
flag, entering and leaving `_acquisitionActiveGuard`; `_driverGuard` is not
entered, no buffer is allocated and no frame is forwarded. -/
theorem sendFrame_loop_guard (env : Env) (fuel : Nat) (w : World)
    (hf : w._acquisitionActiveGuard = false) :
    (env.isAcquisitionNotComplete w.clock = false →
      sendFrame env (fuel + 1) w = Outcome.done ()
        { w with clock := w.clock + 1
                 trace := w.trace ++ [Event.whileCondition false w._driverGuard] }) ∧
    (env.isAcquisitionNotComplete w.clock = true → w._acquisitionActive = false →
      sendFrame env (fuel + 1) w = Outcome.done ()
        { w with clock := w.clock + 1
                 trace := w.trace ++ [Event.whileCondition false w._driverGuard,
                   Event.enter Guard.acquisitionActiveGuard,
                   Event.leave Guard.acquisitionActiveGuard] }) ∧
    (env.isAcquisitionNotComplete w.clock = true → w._acquisitionActive = true →
      sendFrame env (fuel + 1) w =
        M.bind (sendFrameBody env w.clock (initialLocals w))
          (fun exit => match exit with
            | BodyExit.endOfBody l' => sendFrameLoop env fuel l'
            | BodyExit.returned l' => l'.driverSection.destroy)
          { w with clock := w.clock + 1
                   trace := w.trace ++ [Event.whileCondition false w._driverGuard,
                     Event.enter Guard.acquisitionActiveGuard,
                     Event.leave Guard.acquisitionActiveGuard] }) ∧
    (∀ (l : Locals) (v : World), l.driverSection.state = false →
      v._acquisitionActiveGuard = false →
      (env.isAcquisitionNotComplete v.clock && v._acquisitionActive) = false →
      ∃ ev : List Event,
        sendFrameLoop env (fuel + 1) l v = Outcome.done ()
          { v with clock := v.clock + 1, trace := v.trace ++ ev } ∧
        ∀ e ∈ ev, e = Event.whileCondition false v._driverGuard ∨
          e = Event.enter Guard.acquisitionActiveGuard ∨
          e = Event.leave Guard.acquisitionActiveGuard) ∧
    (∀ (l : Locals) (v : World), v._acquisitionActiveGuard = false →
      (env.isAcquisitionNotComplete v.clock && v._acquisitionActive) = true →
      sendFrameLoop env (fuel + 1) l v =
        M.bind (sendFrameBody env v.clock l)
          (fun exit => match exit with
            | BodyExit.endOfBody l' => sendFrameLoop env fuel l'
            | BodyExit.returned l' => l'.driverSection.destroy)
          { v with clock := v.clock + 1
                   trace := v.trace ++ [Event.whileCondition l.driverSection.state v._driverGuard,
                     Event.enter Guard.acquisitionActiveGuard,
                     Event.leave Guard.acquisitionActiveGuard] }) := by
  refine ⟨fun hnc => ?_, fun hnc hact => ?_, fun hnc hact => ?_, fun l v hl hv hc => ?_,
    fun l v hv hc => ?_⟩
  · rw [sendFrame_eq_loop]
    exact sendFrameLoop_complete env fuel _ w rfl hnc
  · rw [sendFrame_eq_loop]
    exact sendFrameLoop_inactive env fuel _ w rfl hf hnc hact
  · rw [sendFrame_eq_loop]
    exact sendFrameLoop_enterBody env fuel _ w hf hnc hact
  · cases hnc : env.isAcquisitionNotComplete v.clock with
    | false =>
      refine ⟨_, sendFrameLoop_complete env fuel l v hl hnc, ?_⟩
      intro e he
      simp at he
      exact Or.inl he
    | true =>
      rw [hnc] at hc
      simp only [Bool.true_and] at hc
      refine ⟨_, sendFrameLoop_inactive env fuel l v hl hv hnc hc, ?_⟩
      intro e he
      simp at he
      exact he
  · simp only [Bool.and_eq_true] at hc
    exact sendFrameLoop_enterBody env fuel l v hv hc.1 hc.2

/-- Witness for C13: the theorem applied to the adaptor right after
construction, whose flag is false, on a host that asks for two frames:
`sendFrame` returns after one evaluation of its condition. -/
theorem sendFrame_loop_guard_witness :
    sendFrame hostTwoFrames (0 + 1) constructedAdaptor = Outcome.done ()
      { constructedAdaptor with
        clock := constructedAdaptor.clock + 1
        trace := constructedAdaptor.trace ++
          [Event.whileCondition false constructedAdaptor._driverGuard,
            Event.enter Guard.acquisitionActiveGuard,
            Event.leave Guard.acquisitionActiveGuard] } :=
  (sendFrame_loop_guard hostTwoFrames 0 constructedAdaptor rfl).2.1 rfl rfl

/-- A completed iteration calls `incrementFrameCount` once, and `receiveFrame`
once if its frame is to be sent and not at all otherwise. -/
theorem sendFrameLoop_iteration_counts (env : Env) (l : Locals) (w : World)
    (hl : l.driverSection = { guard := Guard.driverGuard, state := false })
    (hd : w._driverGuard = false) (hf : w._acquisitionActiveGuard = false)
    (hnc : env.isAcquisitionNotComplete w.clock = true)
    (hact : w._acquisitionActive = true)
    (hnew : env.newSucceeds w.clock = true)
    (hok : env.isSendFrame w.clock = true → env.makeFrameNull w.clock = false) :
    ∃ ev : List Event,
      ev.count Event.incrementFrameCount = 1 ∧
      ev.count Event.receiveFrame = (if env.isSendFrame w.clock = true then 1 else 0) ∧
      ∀ fuel : Nat, sendFrameLoop env (fuel + 1) l w = sendFrameLoop env fuel
        { l with offset := wrapInt (l.offset + IMAGE_DATA_OFFSET) }
        { w with clock := w.clock + 1
                 frameCount := w.frameCount + 1
                 trace := w.trace ++ ev } := by
  cases hsend : env.isSendFrame w.clock with
  | false =>
    refine ⟨_, ?_, ?_,
      fun fuel => sendFrameLoop_skip env fuel l w hl hd hf hnc hact hnew hsend⟩
    · simp [List.count_cons]
    · simp [List.count_cons]
  | true =>
    refine ⟨_, ?_, ?_,
      fun fuel => sendFrameLoop_send env fuel l w hl hd hf hnc hact hnew hsend (hok hsend)⟩
    · simp [List.count_cons]
    · simp [List.count_cons]

/-- The first `N` iterations of the loop of `sendFrame` when each of them is
completed: the frame count has grown by `N`, `incrementFrameCount` has been
called `N` times and `receiveFrame` once for each iteration whose frame was to
be sent. -/
theorem sendFrameLoop_iterations (env : Env) (N : Nat) :
    ∀ (l : Locals) (w : World),
      l.driverSection = { guard := Guard.driverGuard, state := false } →
      w._driverGuard = false → w._acquisitionActiveGuard = false →
      w._acquisitionActive = true →
      (∀ k, k < N → env.isAcquisitionNotComplete (w.clock + k) = true ∧
        env.newSucceeds (w.clock + k) = true ∧
        (env.isSendFrame (w.clock + k) = true → env.makeFrameNull (w.clock + k) = false)) →
      ∃ (l' : Locals) (ev : List Event),
        (∀ m : Nat, sendFrameLoop env (N + m) l w = sendFrameLoop env m l'
          { w with clock := w.clock + N
                   frameCount := w.frameCount + N
                   trace := w.trace ++ ev }) ∧
        l'.driverSection = { guard := Guard.driverGuard, state := false } ∧
        ev.count Event.incrementFrameCount = N ∧
        ev.count Event.receiveFrame = (List.range' w.clock N).countP env.isSendFrame := by
  induction N with
  | zero =>
    intro l w hl _ _ _ _
    refine ⟨l, [], ?_, hl, rfl, rfl⟩
    intro m
    simp
  | succ N ih =>
    intro l w hl hd hf hact hk
    obtain ⟨hnc, hnew, hok⟩ := hk 0 (Nat.succ_pos N)
    simp only [Nat.add_zero] at hnc hnew hok
    have hrest : ∀ k, k < N → env.isAcquisitionNotComplete (w.clock + 1 + k) = true ∧
        env.newSucceeds (w.clock + 1 + k) = true ∧
        (env.isSendFrame (w.clock + 1 + k) = true →
          env.makeFrameNull (w.clock + 1 + k) = false) := by
      intro k hlt
      have h := hk (k + 1) (by omega)
      have e : w.clock + (k + 1) = w.clock + 1 + k := by omega
      rw [e] at h
      exact h
    obtain ⟨ev1, c1, c2, hstep⟩ :=
      sendFrameLoop_iteration_counts env l w hl hd hf hnc hact hnew hok
    obtain ⟨l', ev, h1, h2, h3, h4⟩ := ih
      { l with offset := wrapInt (l.offset + IMAGE_DATA_OFFSET) }
      { w with clock := w.clock + 1
               frameCount := w.frameCount + 1
               trace := w.trace ++ ev1 } hl hd hf hact hrest
    refine ⟨l', ev1 ++ ev, ?_, h2, ?_, ?_⟩
    · intro m
      have hfuel : N + 1 + m = (N + m) + 1 := by omega
      rw [hfuel, hstep, h1]
      simp only [List.append_assoc, Nat.add_assoc, Nat.add_comm 1 N]
    · rw [List.count_append, h3, c1]
      omega
    · rw [List.count_append, h4, c2, List.range'_succ, List.countP_cons]
      simp only []
      omega

/-- C14: for every `N` and all answers of `isSendFrame()`, when the first `N`
iterations of `sendFrame` are completed (the acquisition is not complete, the
flag is true, the allocation succeeds and a frame to be sent is not null), the
frame count has grown by exactly `N` and `incrementFrameCount` has been called
exactly `N` times, while `receiveFrame` has been called only for the
iterations in which `isSendFrame()` was true; if the acquisition is complete
at the next evaluation of the condition, `sendFrame` returns with that
count. -/
theorem frameCount_monotone (env : Env) (N : Nat) (w : World)
    (hd : w._driverGuard = false) (hf : w._acquisitionActiveGuard = false)
    (hact : w._acquisitionActive = true)
    (hk : ∀ k, k < N → env.isAcquisitionNotComplete (w.clock + k) = true ∧
      env.newSucceeds (w.clock + k) = true ∧
      (env.isSendFrame (w.clock + k) = true → env.makeFrameNull (w.clock + k) = false)) :
    ∃ (l' : Locals) (ev : List Event),
      (∀ m : Nat, sendFrame env (N + m) w = sendFrameLoop env m l'
        { w with clock := w.clock + N
                 frameCount := w.frameCount + N
                 trace := w.trace ++ ev }) ∧
      ev.count Event.incrementFrameCount = N ∧
      ev.count Event.receiveFrame = (List.range' w.clock N).countP env.isSendFrame ∧
      (env.isAcquisitionNotComplete (w.clock + N) = false →
        ∀ m : Nat, sendFrame env (N + (m + 1)) w = Outcome.done ()
          { w with clock := w.clock + N + 1
                   frameCount := w.frameCount + N
                   trace := w.trace ++ ev ++ [Event.whileCondition false false] }) := by
  obtain ⟨l', ev, h1, h2, h3, h4⟩ :=
    sendFrameLoop_iterations env N (initialLocals w) w rfl hd hf hact hk
  refine ⟨l', ev, fun m => ?_, h3, h4, fun hnc m => ?_⟩
  · rw [sendFrame_eq_loop]
    exact h1 m
  · rw [sendFrame_eq_loop, h1 (m + 1),
      sendFrameLoop_complete env m l' _ (by rw [h2]) hnc]
    simp only [hd]

/-- Witness for C14: the theorem applied to the acquiring 2 x 1 adaptor on the
host that asks for two frames and sends only the first, with `N = 2`. -/
theorem frameCount_monotone_witness :
    ∃ (l' : Locals) (ev : List Event),
      (∀ m : Nat, sendFrame hostTwoFrames (2 + m) tinyAcquiringAdaptor = sendFrameLoop hostTwoFrames m l'
        { tinyAcquiringAdaptor with
          clock := tinyAcquiringAdaptor.clock + 2
          frameCount := tinyAcquiringAdaptor.frameCount + 2
          trace := tinyAcquiringAdaptor.trace ++ ev }) ∧
      ev.count Event.incrementFrameCount = 2 ∧
      ev.count Event.receiveFrame
        = (List.range' tinyAcquiringAdaptor.clock 2).countP hostTwoFrames.isSendFrame ∧
      (hostTwoFrames.isAcquisitionNotComplete (tinyAcquiringAdaptor.clock + 2) = false →
        ∀ m : Nat, sendFrame hostTwoFrames (2 + (m + 1)) tinyAcquiringAdaptor = Outcome.done ()
          { tinyAcquiringAdaptor with
            clock := tinyAcquiringAdaptor.clock + 2 + 1
            frameCount := tinyAcquiringAdaptor.frameCount + 2
            trace := tinyAcquiringAdaptor.trace ++ ev ++ [Event.whileCondition false false] }) :=
  frameCount_monotone hostTwoFrames 2 tinyAcquiringAdaptor rfl rfl rfl (by decide)

/-- C15, the code at the failing input: `isSendFrame()` is true and `makeFrame`
returns `NULL`.  `sendFrame` reaches `frame->setImage` with the null handle in
its first iteration and does not return: `_driverGuard` is still locked, the
frame count is not incremented and the buffer is not freed. -/
theorem null_frame_dereferenced :
    sendFrame hostNullFrame 2 tinyAcquiringAdaptor = Outcome.crashed
      { tinyAcquiringAdaptor with
        clock := 1
        _driverGuard := true
        trace := [Event.whileCondition false false,
          Event.enter Guard.acquisitionActiveGuard,
          Event.leave Guard.acquisitionActiveGuard,
          Event.enter Guard.driverGuard,
          Event.newBuffer 2 true,
          Event.usleep 30000,
          Event.getROI,
          Event.makeFrame MONO8 2 1 true] } ∧
    (sendFrame hostNullFrame 2 tinyAcquiringAdaptor).world.frameCount
      = tinyAcquiringAdaptor.frameCount := by
  constructor <;> decide!

/-- C16: in an iteration of the loop of `sendFrame` whose allocation has
succeeded, when `isSendFrame()` is false none of `makeFrame`, `setImage`,
`setTime`, `receiveFrame` is called; when it is true `makeFrame` is called once
with the frame type and the width and height of the ROI read in this
iteration, and on the frame it returns `setImage` is called once with the
buffer generated in this iteration from the current offset, the full width and
height and the origin of that ROI, then `setTime` and `receiveFrame`, once
each.  The calls of the iteration are listed in full.  If `makeFrame` returns
`NULL` the iteration ends at `frame->setImage`. -/
theorem forwarding_iff_isSendFrame (env : Env) (fuel : Nat) (l : Locals) (w : World)
    (hl : l.driverSection = { guard := Guard.driverGuard, state := false })
    (hd : w._driverGuard = false) (hf : w._acquisitionActiveGuard = false)
    (hnc : env.isAcquisitionNotComplete w.clock = true)
    (hact : w._acquisitionActive = true)
    (hnew : env.newSucceeds w.clock = true) :
    (env.isSendFrame w.clock = false →
      sendFrameLoop env (fuel + 1) l w = sendFrameLoop env fuel
        { l with offset := wrapInt (l.offset + IMAGE_DATA_OFFSET) }
        { w with clock := w.clock + 1
                 frameCount := w.frameCount + 1
                 trace := w.trace ++ [Event.whileCondition false false,
                   Event.enter Guard.acquisitionActiveGuard,
                   Event.leave Guard.acquisitionActiveGuard,
                   Event.enter Guard.driverGuard,
                   Event.newBuffer (bufferSize l.imageWidth l.imageHeight l.imageBands) true,
                   Event.usleep (IMAGE_FRAME_PAUSE_TIME * 1000),
                   Event.incrementFrameCount,
                   Event.deleteBuffer,
                   Event.leave Guard.driverGuard] }) ∧
    (env.isSendFrame w.clock = true → env.makeFrameNull w.clock = false →
      sendFrameLoop env (fuel + 1) l w = sendFrameLoop env fuel
        { l with offset := wrapInt (l.offset + IMAGE_DATA_OFFSET) }
        { w with clock := w.clock + 1
                 frameCount := w.frameCount + 1
                 trace := w.trace ++ [Event.whileCondition false false,
                   Event.enter Guard.acquisitionActiveGuard,
                   Event.leave Guard.acquisitionActiveGuard,
                   Event.enter Guard.driverGuard,
                   Event.newBuffer (bufferSize l.imageWidth l.imageHeight l.imageBands) true,
                   Event.usleep (IMAGE_FRAME_PAUSE_TIME * 1000),
                   Event.getROI,
                   Event.makeFrame (getFrameType w) (env.getROI w.clock).width
                     (env.getROI w.clock).height false,
                   Event.setImage
                     (generateFrame l.imageWidth l.imageHeight l.imageBands l.offset).imBuffer
                     l.imageWidth l.imageHeight (env.getROI w.clock).originX
                     (env.getROI w.clock).originY,
                   Event.setTime,
                   Event.receiveFrame,
                   Event.incrementFrameCount,
                   Event.deleteBuffer,
                   Event.leave Guard.driverGuard] }) ∧
    (env.isSendFrame w.clock = true → env.makeFrameNull w.clock = true →
      sendFrameLoop env (fuel + 1) l w = Outcome.crashed
        { w with clock := w.clock + 1
                 _driverGuard := true
                 trace := w.trace ++ [Event.whileCondition false false,
                   Event.enter Guard.acquisitionActiveGuard,
                   Event.leave Guard.acquisitionActiveGuard,
                   Event.enter Guard.driverGuard,
                   Event.newBuffer (bufferSize l.imageWidth l.imageHeight l.imageBands) true,
                   Event.usleep (IMAGE_FRAME_PAUSE_TIME * 1000),
                   Event.getROI,
                   Event.makeFrame (getFrameType w) (env.getROI w.clock).width
                     (env.getROI w.clock).height true] }) ∧
    (initialLocals w).imageWidth = getMaxWidth w ∧
    (initialLocals w).imageHeight = getMaxHeight w :=
  ⟨fun hsend => sendFrameLoop_skip env fuel l w hl hd hf hnc hact hnew hsend,
    fun hsend hnull => sendFrameLoop_send env fuel l w hl hd hf hnc hact hnew hsend hnull,
    fun hsend hnull => sendFrameLoop_nullFrame env fuel l w hl hd hf hnc hact hnew hsend hnull,
    rfl, rfl⟩

/-- Witness for C16: the theorem applied to the first iteration of `sendFrame`
on the acquiring 2 x 1 adaptor, whose frame is sent. -/
theorem forwarding_iff_isSendFrame_witness :
    sendFrameLoop hostTwoFrames (1 + 1) (initialLocals tinyAcquiringAdaptor) tinyAcquiringAdaptor
      = sendFrameLoop hostTwoFrames 1
        { initialLocals tinyAcquiringAdaptor with
          offset := wrapInt ((initialLocals tinyAcquiringAdaptor).offset + IMAGE_DATA_OFFSET) }
        { tinyAcquiringAdaptor with
          clock := tinyAcquiringAdaptor.clock + 1
          frameCount := tinyAcquiringAdaptor.frameCount + 1
          trace := tinyAcquiringAdaptor.trace ++ [Event.whileCondition false false,
            Event.enter Guard.acquisitionActiveGuard,
            Event.leave Guard.acquisitionActiveGuard,
            Event.enter Guard.driverGuard,
            Event.newBuffer (bufferSize (initialLocals tinyAcquiringAdaptor).imageWidth
              (initialLocals tinyAcquiringAdaptor).imageHeight
              (initialLocals tinyAcquiringAdaptor).imageBands) true,
            Event.usleep (IMAGE_FRAME_PAUSE_TIME * 1000),
            Event.getROI,
            Event.makeFrame (getFrameType tinyAcquiringAdaptor)
              (hostTwoFrames.getROI tinyAcquiringAdaptor.clock).width
              (hostTwoFrames.getROI tinyAcquiringAdaptor.clock).height false,
            Event.setImage
              (generateFrame (initialLocals tinyAcquiringAdaptor).imageWidth
                (initialLocals tinyAcquiringAdaptor).imageHeight
                (initialLocals tinyAcquiringAdaptor).imageBands
                (initialLocals tinyAcquiringAdaptor).offset).imBuffer
              (initialLocals tinyAcquiringAdaptor).imageWidth
              (initialLocals tinyAcquiringAdaptor).imageHeight
              (hostTwoFrames.getROI tinyAcquiringAdaptor.clock).originX
              (hostTwoFrames.getROI tinyAcquiringAdaptor.clock).originY,
            Event.setTime,
            Event.receiveFrame,
            Event.incrementFrameCount,
            Event.deleteBuffer,
            Event.leave Guard.driverGuard] } :=
  (forwarding_iff_isSendFrame hostTwoFrames 1 (initialLocals tinyAcquiringAdaptor) tinyAcquiringAdaptor
    rfl rfl rfl rfl rfl rfl).2.1 rfl rfl


/-! ## The writers of the flag -/

theorem keepsFlag_sendThread (env : Env) (fuel n : Nat) : KeepsFlag (sendThread env fuel n) := by
  induction n with
  | zero => intro w; rfl
  | succ n ih =>
    unfold sendThread
    refine keepsFlag_bind _ _ keepsFlag_isAcquisitionActive (fun c => ?_)
    split
    · exact keepsFlag_bind _ _ (keepsFlag_sendFrame env fuel) (fun _ => ih)
    · exact keepsFlag_pure _

theorem keepsFlag_openDevice : KeepsFlag openDevice := by
  intro w
  unfold openDevice
  split <;> rfl

theorem keepsFlag_closeDevice : KeepsFlag closeDevice := by
  intro w
  unfold closeDevice
  split <;> rfl

/-- After `setAcquisitionActive state`, however it ends, the flag is the one
before the call or `state`. -/
theorem setAcquisitionActive_flag (state : Bool) (w : World) :
    (setAcquisitionActive state w).world._acquisitionActive = w._acquisitionActive ∨
    (setAcquisitionActive state w).world._acquisitionActive = state := by
  cases hf : w._acquisitionActiveGuard with
  | true =>
    rw [setAcquisitionActive_blocked state w hf]
    exact Or.inl rfl
  | false =>
    rw [setAcquisitionActive_apply state w hf]
    exact Or.inr rfl

theorem keepsFlag_pthread_create (env : Env) : KeepsFlag (pthread_create env) := by
  intro w
  rw [pthread_create_apply]
  split <;> rfl

theorem keepsFlag_pthread_join : KeepsFlag pthread_join :=
  fun _ => rfl

/-- After `startCapture`, however it ends, the flag is the one before the call
or true, when the notification of the listeners does not write it. -/
theorem startCapture_flag (env : Env) (notifyAllListeners : M Unit)
    (hn : KeepsFlag notifyAllListeners) (w : World) :
    (startCapture env notifyAllListeners w).world._acquisitionActive = w._acquisitionActive ∨
    (startCapture env notifyAllListeners w).world._acquisitionActive = true := by
  unfold startCapture
  split
  · exact Or.inl rfl
  · rw [M_bind_apply]
    unfold M.bind
    simp only [emit]
    rw [M_bind_apply]
    unfold M.bind
    have h1 := hn { w with trace := w.trace ++ [Event.notifyAllListeners] }
    cases hnw : notifyAllListeners { w with trace := w.trace ++ [Event.notifyAllListeners] } with
    | done a w1 =>
      rw [hnw] at h1
      simp only [Outcome.world] at h1
      simp only []
      rw [M_bind_apply]
      unfold M.bind
      have h2 := setAcquisitionActive_flag true w1
      cases hs : setAcquisitionActive true w1 with
      | done a w2 =>
        rw [hs] at h2
        simp only [Outcome.world] at h2
        simp only []
        have h3 : ∀ v, ((do
            let errcode ← pthread_create env
            pure (decide (errcode = 0)) : M Bool) v).world._acquisitionActive
              = v._acquisitionActive :=
          keepsFlag_bind _ _ (keepsFlag_pthread_create env) (fun _ => keepsFlag_pure _)
        rw [h3 w2]
        rcases h2 with h2 | h2
        · exact Or.inl (h2.trans h1)
        · exact Or.inr h2
      | blocked w2 =>
        rw [hs] at h2
        simp only [Outcome.world] at h2 ⊢
        rcases h2 with h2 | h2
        · exact Or.inl (h2.trans h1)
        · exact Or.inr h2
      | crashed w2 =>
        rw [hs] at h2
        simp only [Outcome.world] at h2 ⊢
        rcases h2 with h2 | h2
        · exact Or.inl (h2.trans h1)
        · exact Or.inr h2
      | fuelOut w2 =>
        rw [hs] at h2
        simp only [Outcome.world] at h2 ⊢
        rcases h2 with h2 | h2
        · exact Or.inl (h2.trans h1)
        · exact Or.inr h2
    | blocked w1 => rw [hnw] at h1; exact Or.inl h1
    | crashed w1 => rw [hnw] at h1; exact Or.inl h1
    | fuelOut w1 => rw [hnw] at h1; exact Or.inl h1

/-- After `stopCapture`, however it ends, the flag is the one before the call
or false. -/
theorem stopCapture_flag (w : World) :
    (stopCapture w).world._acquisitionActive = w._acquisitionActive ∨
    (stopCapture w).world._acquisitionActive = false := by
  unfold stopCapture
  split
  · exact Or.inl rfl
  · rw [M_bind_apply]
    unfold M.bind
    have h2 := setAcquisitionActive_flag false w
    cases hs : setAcquisitionActive false w with
    | done a w2 =>
      rw [hs] at h2
      simp only [Outcome.world] at h2
      simp only []
      have h3 : ∀ v, ((do
          pthread_join
          let driverSection ← createAutoCriticalSection Guard.driverGuard true
          let driverSection ← driverSection.leave
          driverSection.destroy
          pure true : M Bool) v).world._acquisitionActive = v._acquisitionActive := by
        refine keepsFlag_bind _ _ keepsFlag_pthread_join (fun _ => ?_)
        refine keepsFlag_bind _ _ (keepsFlag_create _ _) (fun _ => ?_)
        refine keepsFlag_bind _ _ (keepsFlag_autoLeave _) (fun _ => ?_)
        exact keepsFlag_bind _ _ (keepsFlag_destroy _) (fun _ => keepsFlag_pure _)
      rw [h3 w2]
      exact h2
    | blocked w2 => rw [hs] at h2; exact h2
    | crashed w2 => rw [hs] at h2; exact h2
    | fuelOut w2 => rw [hs] at h2; exact h2

/-- C17: the flag is false after construction; `openDevice`, `closeDevice`,
`sendFrame` and `sendThread` never change it, however they end, and the getters
of format and size are functions of the state; after `startCapture` (with a
notification of the listeners that does not write the flag) it is unchanged or
true, and true when the device is open, the notification returns and
`_acquisitionActiveGuard` is unlocked; after `stopCapture` it is unchanged or
false, and false when the device is acquiring and the critical sections are
unlocked; `setAcquisitionActive(b)` followed by `isAcquisitionActive()` returns
`b`. -/
theorem flag_writers :
    (∀ (formatInfo : Option DemoDeviceFormat) (numDeviceProps : Nat),
      (newDemoAdaptor formatInfo numDeviceProps)._acquisitionActive = false) ∧
    KeepsFlag openDevice ∧ KeepsFlag closeDevice ∧
    (∀ (env : Env) (fuel : Nat), KeepsFlag (sendFrame env fuel)) ∧
    (∀ (env : Env) (fuel n : Nat), KeepsFlag (sendThread env fuel n)) ∧
    (∀ (env : Env) (notifyAllListeners : M Unit) (w : World), KeepsFlag notifyAllListeners →
      ((startCapture env notifyAllListeners w).world._acquisitionActive = w._acquisitionActive ∨
        (startCapture env notifyAllListeners w).world._acquisitionActive = true)) ∧
    (∀ (env : Env) (notifyAllListeners : M Unit) (w w1 : World), w.isOpen = true →
      notifyAllListeners { w with trace := w.trace ++ [Event.notifyAllListeners] }
        = Outcome.done () w1 →
      w1._acquisitionActiveGuard = false →
      (startCapture env notifyAllListeners w).world._acquisitionActive = true) ∧
    (∀ w : World, (stopCapture w).world._acquisitionActive = w._acquisitionActive ∨
      (stopCapture w).world._acquisitionActive = false) ∧
    (∀ w : World, w.isAcquiring = true → w._driverGuard = false →
      w._acquisitionActiveGuard = false →
      (stopCapture w).world._acquisitionActive = false) ∧
    (∀ (b : Bool) (w : World), w._acquisitionActiveGuard = false →
      M.bind (setAcquisitionActive b) (fun _ => isAcquisitionActive) w = Outcome.done b
        { w with _acquisitionActive := b
                 trace := w.trace ++ [Event.enter Guard.acquisitionActiveGuard,
                   Event.leave Guard.acquisitionActiveGuard,
                   Event.enter Guard.acquisitionActiveGuard,
                   Event.leave Guard.acquisitionActiveGuard] }) := by
  refine ⟨fun _ _ => rfl, keepsFlag_openDevice, keepsFlag_closeDevice, keepsFlag_sendFrame,
    keepsFlag_sendThread, fun env n w hn => startCapture_flag env n hn w,
    fun env n w w1 hopen hnot hf => ?_, stopCapture_flag, fun w hacq hd hf => ?_,
    fun b w hf => ?_⟩
  · rw [startCapture_open env n w w1 hopen hnot hf]
    split <;> rfl
  · rw [stopCapture_acquiring w hacq hd hf]
    rfl
  · unfold M.bind
    rw [setAcquisitionActive_apply b w hf]
    simp [isAcquisitionActive, M_bind_apply, M.bind, M_pure_apply,
      IAutoCriticalSection.destroy, createAutoCriticalSection,
      ICriticalSection.enter, ICriticalSection.leave, World.locked, World.setLocked, hf]


/-- Witness for C17: `startCapture` on the open adaptor sets the flag,
`stopCapture` on the acquiring adaptor clears it, and the flag written by
`setAcquisitionActive(true)` is read back. -/
theorem flag_writers_witness :
    (startCapture hostTwoFrames (pure ()) openAdaptor).world._acquisitionActive = true ∧
    (stopCapture acquiringAdaptor).world._acquisitionActive = false ∧
    M.bind (setAcquisitionActive true) (fun _ => isAcquisitionActive) constructedAdaptor
      = Outcome.done true
        { constructedAdaptor with
          _acquisitionActive := true
          trace := constructedAdaptor.trace ++ [Event.enter Guard.acquisitionActiveGuard,
            Event.leave Guard.acquisitionActiveGuard,
            Event.enter Guard.acquisitionActiveGuard,
            Event.leave Guard.acquisitionActiveGuard] } :=
  ⟨flag_writers.2.2.2.2.2.2.1 hostTwoFrames (pure ()) openAdaptor _ rfl rfl rfl,
    flag_writers.2.2.2.2.2.2.2.2.1 acquiringAdaptor rfl rfl rfl,
    flag_writers.2.2.2.2.2.2.2.2.2 true constructedAdaptor rfl⟩

/-! ## The listeners: lemmas -/

/-- The assignments at the start of `DemoPropListener::notify` change the
listeners only; what follows is the test of `isOpen()`. -/
theorem propListener_notify_store (self : Nat) (propertyInfo : IPropInfo) (value : NewValue)
    (w : World)
    (ht : propertyInfo.getPropertyStorageType = DATATYPE.DOUBLE ∨
      propertyInfo.getPropertyStorageType = DATATYPE.INT ∨
      propertyInfo.getPropertyStorageType = DATATYPE.STRING) :
    ∃ listeners : List DemoPropListener, ∀ restart : M Bool,
      DemoPropListener.notify restart self propertyInfo (some value) w =
        (if w.isOpen = true then DemoPropListener.applyValue restart self else pure ())
          { w with propListeners := listeners } := by
  obtain ⟨name, type⟩ := propertyInfo
  simp only at ht
  rcases ht with h | h | h
  · subst h
    exact ⟨_, fun restart => rfl⟩
  · subst h
    exact ⟨_, fun restart => rfl⟩
  · subst h
    exact ⟨_, fun restart => rfl⟩

/-- Method `applyValue` of a property listener on a device that is not
acquiring: nothing happens. -/
theorem propListener_applyValue_idle (restart : M Bool) (self : Nat) (w : World)
    (hacq : w.isAcquiring = false) :
    DemoPropListener.applyValue restart self w = Outcome.done () w := by
  simp [DemoPropListener.applyValue, M_bind_apply, M.bind, M_pure_apply, hacq]

/-- Method `applyValue` of a property listener on an acquiring device:
`stop()`, then `restart()`. -/
theorem propListener_applyValue_acquiring (restart : M Bool) (self : Nat) (w : World)
    (hacq : w.isAcquiring = true)
    (hd : w._driverGuard = false) (hf : w._acquisitionActiveGuard = false) :
    DemoPropListener.applyValue restart self w =
      M.bind restart (fun _ => pure ())
        { w with isAcquiring := false
                 _acquisitionActive := false
                 threads := match w._sendThread with
                   | some t => w.threads.erase t
                   | none => w.threads
                 trace := w.trace ++ [Event.stop,
                   Event.enter Guard.acquisitionActiveGuard,
                   Event.leave Guard.acquisitionActiveGuard,
                   Event.pthread_join w._sendThread,
                   Event.enter Guard.driverGuard,
                   Event.leave Guard.driverGuard,
                   Event.restart] } := by
  simp [DemoPropListener.applyValue, emit, stop, stopCapture, hacq, setAcquisitionActive,
    pthread_join, M_bind_apply, M.bind, M_pure_apply,
    IAutoCriticalSection.destroy, IAutoCriticalSection.leave, createAutoCriticalSection,
    ICriticalSection.enter, ICriticalSection.leave, World.locked, World.setLocked, hf, hd]


/-- The assignment at the start of `DemoSourceListener::notify` changes
`_source` only; what follows is the test of `isOpen()`. -/
theorem sourceListener_notify_store (restart : M Bool) (value : NewValue) (w : World) :
    DemoSourceListener.notify restart (some value) w =
      (if w.isOpen = true then DemoSourceListener.applyValue restart else pure ())
        { w with sourceListener := { w.sourceListener with _source := some value.asInt } } :=
  rfl

/-- Method `applyValue` of the source listener on a device that is not
acquiring: nothing happens. -/
theorem sourceListener_applyValue_idle (restart : M Bool) (w : World)
    (hacq : w.isAcquiring = false) :
    DemoSourceListener.applyValue restart w = Outcome.done () w := by
  simp [DemoSourceListener.applyValue, M_bind_apply, M.bind, M_pure_apply, hacq]

/-- Method `applyValue` of the source listener on an acquiring device:
`stop()`, then `restart()`. -/
theorem sourceListener_applyValue_acquiring (restart : M Bool) (w : World)
    (hacq : w.isAcquiring = true)
    (hd : w._driverGuard = false) (hf : w._acquisitionActiveGuard = false) :
    DemoSourceListener.applyValue restart w =
      M.bind restart (fun _ => pure ())
        { w with isAcquiring := false
                 _acquisitionActive := false
                 threads := match w._sendThread with
                   | some t => w.threads.erase t
                   | none => w.threads
                 trace := w.trace ++ [Event.stop,
                   Event.enter Guard.acquisitionActiveGuard,
                   Event.leave Guard.acquisitionActiveGuard,
                   Event.pthread_join w._sendThread,
                   Event.enter Guard.driverGuard,
                   Event.leave Guard.driverGuard,
                   Event.restart] } := by
  simp [DemoSourceListener.applyValue, emit, stop, stopCapture, hacq, setAcquisitionActive,
    pthread_join, M_bind_apply, M.bind, M_pure_apply,
    IAutoCriticalSection.destroy, IAutoCriticalSection.leave, createAutoCriticalSection,
    ICriticalSection.enter, ICriticalSection.leave, World.locked, World.setLocked, hf, hd]

/-- Both listeners do the same in `applyValue`. -/
theorem applyValue_same (restart : M Bool) (self : Nat) (w : World) :
    DemoPropListener.applyValue restart self w = DemoSourceListener.applyValue restart w := by
  cases hacq : w.isAcquiring with
  | false =>
    rw [propListener_applyValue_idle restart self w hacq,
      sourceListener_applyValue_idle restart w hacq]
  | true =>
    simp only [DemoPropListener.applyValue, DemoSourceListener.applyValue, M_bind_apply, M.bind,
      hacq, emit, if_true]

/-- A notification of a property listener on a device that is not acquiring
stores the value and makes no call. -/
theorem propListener_notify_idle (self : Nat) (propertyInfo : IPropInfo)
    (newValue : Option NewValue) (w : World)
    (ht : newValue = none ∨ propertyInfo.getPropertyStorageType = DATATYPE.DOUBLE ∨
      propertyInfo.getPropertyStorageType = DATATYPE.INT ∨
      propertyInfo.getPropertyStorageType = DATATYPE.STRING)
    (hidle : w.isOpen = false ∨ w.isAcquiring = false) :
    ∃ listeners : List DemoPropListener, ∀ restart : M Bool,
      DemoPropListener.notify restart self propertyInfo newValue w =
        Outcome.done () { w with propListeners := listeners } := by
  cases newValue with
  | none => exact ⟨w.propListeners, fun restart => rfl⟩
  | some value =>
    have ht' : propertyInfo.getPropertyStorageType = DATATYPE.DOUBLE ∨
        propertyInfo.getPropertyStorageType = DATATYPE.INT ∨
        propertyInfo.getPropertyStorageType = DATATYPE.STRING := by
      rcases ht with h | h
      · cases h
      · exact h
    obtain ⟨listeners, h⟩ := propListener_notify_store self propertyInfo value w ht'
    refine ⟨listeners, fun restart => ?_⟩
    rw [h restart]
    cases hopen : w.isOpen with
    | false => simp [M_pure_apply]
    | true =>
      have hacq : w.isAcquiring = false := by
        rcases hidle with h1 | h1
        · rw [hopen] at h1
          cases h1
        · exact h1
      simp only [if_true]
      exact propListener_applyValue_idle restart self _ hacq

/-- The notification of all listeners on a device that is not acquiring stores
the values and makes no call, whatever the number of listeners. -/
theorem notifyListenersFrom_idle (properties : List (IPropInfo × Option NewValue)) :
    ∀ (i : Nat) (w : World),
      (∀ property ∈ properties, property.2 = none ∨
        property.1.getPropertyStorageType = DATATYPE.DOUBLE ∨
        property.1.getPropertyStorageType = DATATYPE.INT ∨
        property.1.getPropertyStorageType = DATATYPE.STRING) →
      w.isAcquiring = false →
      ∃ listeners : List DemoPropListener, ∀ restart : M Bool,
        notifyListenersFrom restart properties i w =
          Outcome.done () { w with propListeners := listeners } := by
  induction properties with
  | nil =>
    intro i w _ _
    exact ⟨w.propListeners, fun restart => rfl⟩
  | cons property rest ih =>
    intro i w ht hacq
    obtain ⟨ls1, h1⟩ := propListener_notify_idle i property.1 property.2 w
      (ht property (List.mem_cons_self _ _)) (Or.inr hacq)
    obtain ⟨ls2, h2⟩ := ih (i + 1) { w with propListeners := ls1 }
      (fun p hp => ht p (List.mem_cons_of_mem _ hp)) hacq
    refine ⟨ls2, fun restart => ?_⟩
    unfold notifyListenersFrom
    rw [M_bind_done _ (h1 restart), h2 restart]

/-- What `restart()` does on an open device that is not acquiring: the
listeners store their values, the flag is set and the thread is created; the
device is acquiring again if and only if `pthread_create` succeeds.  One level
of nested notifications is enough. -/
theorem restart_idle (env : Env) (w : World)
    (ht : ∀ property ∈ env.properties, property.2 = none ∨
      property.1.getPropertyStorageType = DATATYPE.DOUBLE ∨
      property.1.getPropertyStorageType = DATATYPE.INT ∨
      property.1.getPropertyStorageType = DATATYPE.STRING)
    (hopen : w.isOpen = true) (hacq : w.isAcquiring = false)
    (hf : w._acquisitionActiveGuard = false) :
    ∃ listeners : List DemoPropListener, ∀ depth : Nat,
      restart env (notifyAllListeners env (depth + 1)) w =
        if env.pthread_create w.created = 0 then
          Outcome.done true
            { w with isAcquiring := true
                     _acquisitionActive := true
                     _sendThread := some w.created
                     threads := w.created :: w.threads
                     created := w.created + 1
                     propListeners := listeners
                     trace := w.trace ++ [Event.notifyAllListeners,
                       Event.enter Guard.acquisitionActiveGuard,
                       Event.leave Guard.acquisitionActiveGuard,
                       Event.pthread_create (env.pthread_create w.created)] }
        else
          Outcome.done false
            { w with _acquisitionActive := true
                     _sendThread := env.failedHandle w.created
                     created := w.created + 1
                     propListeners := listeners
                     trace := w.trace ++ [Event.notifyAllListeners,
                       Event.enter Guard.acquisitionActiveGuard,
                       Event.leave Guard.acquisitionActiveGuard,
                       Event.pthread_create (env.pthread_create w.created)] } := by
  obtain ⟨listeners, h⟩ := notifyListenersFrom_idle env.properties 0
    { w with trace := w.trace ++ [Event.notifyAllListeners] } ht hacq
  refine ⟨listeners, fun depth => ?_⟩
  have hn : notifyAllListeners env (depth + 1)
      { w with trace := w.trace ++ [Event.notifyAllListeners] }
      = Outcome.done () { w with trace := w.trace ++ [Event.notifyAllListeners]
                                 propListeners := listeners } :=
    h (restart env (notifyAllListeners env depth))
  have hs := startCapture_open env (notifyAllListeners env (depth + 1)) w _ hopen hn hf
  unfold restart
  rw [M_bind_apply]
  unfold M.bind
  rw [hs]
  by_cases he : env.pthread_create w.created = 0
  · simp [he, M_bind_apply, M.bind, M_pure_apply]
  · simp [he, M_bind_apply, M.bind, M_pure_apply]


/-- What a property-change notification does on an acquiring device: one
`stop()`, one `restart()`, inside which the listeners are notified once more
and only store their values. -/
theorem propertyChanged_acquiring (env : Env) (self : Nat) (propertyInfo : IPropInfo)
    (value : NewValue) (w : World)
    (hinfo : propertyInfo.getPropertyStorageType = DATATYPE.DOUBLE ∨
      propertyInfo.getPropertyStorageType = DATATYPE.INT ∨
      propertyInfo.getPropertyStorageType = DATATYPE.STRING)
    (ht : ∀ property ∈ env.properties, property.2 = none ∨
      property.1.getPropertyStorageType = DATATYPE.DOUBLE ∨
      property.1.getPropertyStorageType = DATATYPE.INT ∨
      property.1.getPropertyStorageType = DATATYPE.STRING)
    (hopen : w.isOpen = true) (hacq : w.isAcquiring = true)
    (hd : w._driverGuard = false) (hf : w._acquisitionActiveGuard = false) :
    ∃ listeners : List DemoPropListener, ∀ depth : Nat,
      propertyChanged env (depth + 1) self propertyInfo (some value) w =
        Outcome.done ()
          { w with isAcquiring := decide (env.pthread_create w.created = 0)
                   _acquisitionActive := true
                   _sendThread :=
                     if env.pthread_create w.created = 0 then some w.created
                     else env.failedHandle w.created
                   threads :=
                     if env.pthread_create w.created = 0 then
                       w.created :: (match w._sendThread with
                         | some t => w.threads.erase t
                         | none => w.threads)
                     else
                       (match w._sendThread with
                         | some t => w.threads.erase t
                         | none => w.threads)
                   created := w.created + 1
                   propListeners := listeners
                   trace := w.trace ++ [Event.stop,
                     Event.enter Guard.acquisitionActiveGuard,
                     Event.leave Guard.acquisitionActiveGuard,
                     Event.pthread_join w._sendThread,
                     Event.enter Guard.driverGuard,
                     Event.leave Guard.driverGuard,
                     Event.restart,
                     Event.notifyAllListeners,
                     Event.enter Guard.acquisitionActiveGuard,
                     Event.leave Guard.acquisitionActiveGuard,
                     Event.pthread_create (env.pthread_create w.created)] } := by
  obtain ⟨ls1, h1⟩ := propListener_notify_store self propertyInfo value w hinfo
  obtain ⟨ls2, h2⟩ := restart_idle env
    { w with isAcquiring := false
             _acquisitionActive := false
             threads := match w._sendThread with
               | some t => w.threads.erase t
               | none => w.threads
             propListeners := ls1
             trace := w.trace ++ [Event.stop,
               Event.enter Guard.acquisitionActiveGuard,
               Event.leave Guard.acquisitionActiveGuard,
               Event.pthread_join w._sendThread,
               Event.enter Guard.driverGuard,
               Event.leave Guard.driverGuard,
               Event.restart] } ht hopen rfl hf
  refine ⟨ls2, fun depth => ?_⟩
  unfold propertyChanged
  rw [h1, if_pos hopen,
    propListener_applyValue_acquiring _ self { w with propListeners := ls1 } hacq hd hf]
  unfold M.bind
  rw [h2 depth]
  by_cases he : env.pthread_create w.created = 0
  · simp [he, M_pure_apply]
  · simp [he, M_pure_apply]

/-- The assignments at the start of `DemoPropListener::notify`, with the
listener they leave: the property information and the one value member that
belongs to the storage type are written. -/
theorem propListener_notify_stored (restart : M Bool) (self : Nat) (propertyInfo : IPropInfo)
    (value : NewValue) (w : World) (listener stored : DemoPropListener)
    (hl : w.propListeners[self]? = some listener)
    (hstored :
      (propertyInfo.getPropertyStorageType = DATATYPE.DOUBLE ∧
        stored = { listener with _propInfo := some propertyInfo
                                 _lastDoubleValue := some value.asDouble }) ∨
      (propertyInfo.getPropertyStorageType = DATATYPE.INT ∧
        stored = { listener with _propInfo := some propertyInfo
                                 _lastIntValue := some value.asInt64 }) ∨
      (propertyInfo.getPropertyStorageType = DATATYPE.STRING ∧
        stored = { listener with _propInfo := some propertyInfo
                                 _lastStrValue := value.asString })) :
    DemoPropListener.notify restart self propertyInfo (some value) w =
      (if w.isOpen = true then DemoPropListener.applyValue restart self else pure ())
        { w with propListeners := w.propListeners.set self stored } := by
  obtain ⟨name, type⟩ := propertyInfo
  have hlt : self < w.propListeners.length := by
    rcases Nat.lt_or_ge self w.propListeners.length with h | h
    · exact h
    · rw [List.getElem?_eq_none h] at hl
      cases hl
  rcases hstored with ⟨ht, hs⟩ | ⟨ht, hs⟩ | ⟨ht, hs⟩
  · simp only at ht
    subst ht
    subst hs
    simp [DemoPropListener.notify, assignPropListener, M_bind_apply, M.bind, hl,
      List.getElem?_set, hlt]
  · simp only at ht
    subst ht
    subst hs
    simp [DemoPropListener.notify, assignPropListener, M_bind_apply, M.bind, hl,
      List.getElem?_set, hlt]
  · simp only at ht
    subst ht
    subst hs
    simp [DemoPropListener.notify, assignPropListener, M_bind_apply, M.bind, hl,
      List.getElem?_set, hlt]

/-- C18: a notification with a null value does nothing, for both listeners.
With a value, on a device that is not open or not acquiring, the listener
stores the value and makes no call: the state on return is the state before
the call with the value stored (for `DemoPropListener` the property
information and the value member of the storage type, for
`DemoSourceListener` the member `_source`) and the trace is unchanged.  With a
value on a device that is open and acquiring (critical sections unlocked) the
listener stores the value in the same way, calls `stop()`, then calls
`restart()`, each once: what remains after the calls recorded up to
`Event.restart` is the one call of `restart`.  Both listeners run the same
`applyValue`. -/
theorem listener_reconfigures (self : Nat) (propertyInfo : IPropInfo) (value : NewValue)
    (w : World) (listener stored : DemoPropListener)
    (hl : w.propListeners[self]? = some listener)
    (hstored :
      (propertyInfo.getPropertyStorageType = DATATYPE.DOUBLE ∧
        stored = { listener with _propInfo := some propertyInfo
                                 _lastDoubleValue := some value.asDouble }) ∨
      (propertyInfo.getPropertyStorageType = DATATYPE.INT ∧
        stored = { listener with _propInfo := some propertyInfo
                                 _lastIntValue := some value.asInt64 }) ∨
      (propertyInfo.getPropertyStorageType = DATATYPE.STRING ∧
        stored = { listener with _propInfo := some propertyInfo
                                 _lastStrValue := value.asString })) :
    (∀ restart : M Bool,
      DemoPropListener.notify restart self propertyInfo none w = Outcome.done () w ∧
      DemoSourceListener.notify restart none w = Outcome.done () w) ∧
    ((w.isOpen = false ∨ w.isAcquiring = false) →
      (∀ restart : M Bool,
        DemoPropListener.notify restart self propertyInfo (some value) w =
          Outcome.done () { w with propListeners := w.propListeners.set self stored }) ∧
      (∀ restart : M Bool, DemoSourceListener.notify restart (some value) w =
        Outcome.done ()
          { w with sourceListener := { w.sourceListener with _source := some value.asInt } })) ∧
    (w.isOpen = true → w.isAcquiring = true → w._driverGuard = false →
      w._acquisitionActiveGuard = false →
      (∀ restart : M Bool,
        DemoPropListener.notify restart self propertyInfo (some value) w =
          M.bind restart (fun _ => pure ())
            { w with isAcquiring := false
                     _acquisitionActive := false
                     threads := match w._sendThread with
                       | some t => w.threads.erase t
                       | none => w.threads
                     propListeners := w.propListeners.set self stored
                     trace := w.trace ++ [Event.stop,
                       Event.enter Guard.acquisitionActiveGuard,
                       Event.leave Guard.acquisitionActiveGuard,
                       Event.pthread_join w._sendThread,
                       Event.enter Guard.driverGuard,
                       Event.leave Guard.driverGuard,
                       Event.restart] }) ∧
      (∀ restart : M Bool, DemoSourceListener.notify restart (some value) w =
        M.bind restart (fun _ => pure ())
          { w with isAcquiring := false
                   _acquisitionActive := false
                   threads := match w._sendThread with
                     | some t => w.threads.erase t
                     | none => w.threads
                   sourceListener := { w.sourceListener with _source := some value.asInt }
                   trace := w.trace ++ [Event.stop,
                     Event.enter Guard.acquisitionActiveGuard,
                     Event.leave Guard.acquisitionActiveGuard,
                     Event.pthread_join w._sendThread,
                     Event.enter Guard.driverGuard,
                     Event.leave Guard.driverGuard,
                     Event.restart] })) ∧
    (∀ (restart : M Bool) (v : World),
      DemoPropListener.applyValue restart self v = DemoSourceListener.applyValue restart v) := by
  refine ⟨fun restart => ⟨rfl, rfl⟩, fun hidle => ⟨fun restart => ?_, fun restart => ?_⟩,
    fun hopen hacq hd hf => ⟨fun restart => ?_, fun restart => ?_⟩,
    fun restart v => applyValue_same restart self v⟩
  · rw [propListener_notify_stored restart self propertyInfo value w listener stored hl hstored]
    cases hopen : w.isOpen with
    | false => simp [M_pure_apply]
    | true =>
      have hacq : w.isAcquiring = false := by
        rcases hidle with h1 | h1
        · rw [hopen] at h1
          cases h1
        · exact h1
      simp only [if_true]
      exact propListener_applyValue_idle restart self _ hacq
  · rw [sourceListener_notify_store]
    cases hopen : w.isOpen with
    | false => simp [M_pure_apply]
    | true =>
      have hacq : w.isAcquiring = false := by
        rcases hidle with h1 | h1
        · rw [hopen] at h1
          cases h1
        · exact h1
      simp only [if_true]
      exact sourceListener_applyValue_idle restart _ hacq
  · rw [propListener_notify_stored restart self propertyInfo value w listener stored hl hstored,
      if_pos hopen,
      propListener_applyValue_acquiring restart self
        { w with propListeners := w.propListeners.set self stored } hacq hd hf]
  · rw [sourceListener_notify_store, if_pos hopen,
      sourceListener_applyValue_acquiring restart
        { w with sourceListener := { w.sourceListener with _source := some value.asInt } }
        hacq hd hf]

/-- Witness for C18: the theorem applied to the listener of `Saturation` on
the adaptor right after construction with three listeners, which is not open:
the new value 60 is stored in `_lastIntValue` of listener 1, `_source` of the
source listener is set, and nothing else happens. -/
theorem listener_reconfigures_witness :
    (∀ restart : M Bool,
      DemoPropListener.notify restart 1 saturationInfo (some newSaturation)
          (newDemoAdaptor (some rs170Format) 3) =
        Outcome.done ()
          { newDemoAdaptor (some rs170Format) 3 with
            propListeners := ((newDemoAdaptor (some rs170Format) 3).propListeners.set 1
              { _propInfo := some saturationInfo, _lastIntValue := some 60,
                _lastDoubleValue := none, _lastStrValue := "" }) }) ∧
    (∀ restart : M Bool, DemoSourceListener.notify restart (some newSaturation)
        (newDemoAdaptor (some rs170Format) 3) =
      Outcome.done ()
        { newDemoAdaptor (some rs170Format) 3 with
          sourceListener :=
            { (newDemoAdaptor (some rs170Format) 3).sourceListener with
              _source := some newSaturation.asInt } }) :=
  (listener_reconfigures 1 saturationInfo newSaturation (newDemoAdaptor (some rs170Format) 3)
    { _propInfo := none, _lastIntValue := none, _lastDoubleValue := none, _lastStrValue := "" }
    { _propInfo := some saturationInfo, _lastIntValue := some 60, _lastDoubleValue := none,
      _lastStrValue := "" }
    rfl (Or.inr (Or.inl ⟨rfl, rfl⟩))).2.1 (Or.inl rfl)

/-- C19, counterexample: the device is open and acquiring and the value of
`Saturation` changes, but `pthread_create` fails with `EAGAIN` during the
restart.  The notification returns and `isAcquiring()` is false. -/
theorem restart_transparency_counterexample :
    acquiringAdaptorWithListeners.isOpen = true ∧
    acquiringAdaptorWithListeners.isAcquiring = true ∧
    propertyChanged hostRestartFails 1 1 saturationInfo (some newSaturation)
        acquiringAdaptorWithListeners
      = Outcome.done ()
        (propertyChanged hostRestartFails 1 1 saturationInfo (some newSaturation)
          acquiringAdaptorWithListeners).world ∧
    (propertyChanged hostRestartFails 1 1 saturationInfo (some newSaturation)
      acquiringAdaptorWithListeners).world.isAcquiring = false := by
  refine ⟨rfl, rfl, ?_, ?_⟩ <;> decide!

/-- C19 as amended: if the device is open and acquiring (critical sections
unlocked) when the listener of a property is notified of a new value, the
notification returns, and `isAcquiring()` is true again on return if and only
if the `pthread_create` of the restart succeeds. -/
theorem restart_transparency (env : Env) (depth : Nat) (self : Nat) (propertyInfo : IPropInfo)
    (value : NewValue) (w : World)
    (hinfo : propertyInfo.getPropertyStorageType = DATATYPE.DOUBLE ∨
      propertyInfo.getPropertyStorageType = DATATYPE.INT ∨
      propertyInfo.getPropertyStorageType = DATATYPE.STRING)
    (ht : ∀ property ∈ env.properties, property.2 = none ∨
      property.1.getPropertyStorageType = DATATYPE.DOUBLE ∨
      property.1.getPropertyStorageType = DATATYPE.INT ∨
      property.1.getPropertyStorageType = DATATYPE.STRING)
    (hopen : w.isOpen = true) (hacq : w.isAcquiring = true)
    (hd : w._driverGuard = false) (hf : w._acquisitionActiveGuard = false) :
    ∃ w' : World,
      propertyChanged env (depth + 1) self propertyInfo (some value) w = Outcome.done () w' ∧
      (w'.isAcquiring = true ↔ env.pthread_create w.created = 0) ∧
      w'.isOpen = true := by
  obtain ⟨listeners, h⟩ :=
    propertyChanged_acquiring env self propertyInfo value w hinfo ht hopen hacq hd hf
  refine ⟨_, h depth, ?_, hopen⟩
  simp

/-- Witness for C19 as amended: the theorem applied to the change of
`Saturation` on the acquiring adaptor with three listeners, on a host in which
threads can be created. -/
theorem restart_transparency_witness :
    ∃ w' : World,
      propertyChanged hostWithProperties (0 + 1) 1 saturationInfo (some newSaturation)
        acquiringAdaptorWithListeners = Outcome.done () w' ∧
      (w'.isAcquiring = true ↔
        hostWithProperties.pthread_create acquiringAdaptorWithListeners.created = 0) ∧
      w'.isOpen = true :=
  restart_transparency hostWithProperties 0 1 saturationInfo newSaturation
    acquiringAdaptorWithListeners (Or.inr (Or.inl rfl)) (by decide) rfl rfl rfl rfl

/-- C20: a property-change notification on an acquiring device (open, critical
sections unlocked) returns, for any number of properties and listeners.  One
level of nested notifications is enough and a larger bound gives the same
result.  The calls made are, in this order: `stop()` with what `stopCapture`
does, `restart()`, the notification of all listeners by `startCapture`, then
the write of the flag and `pthread_create`; the nested notifications add no
call, so `stop()` and `restart()` are called once each.  A notification of all
listeners on a device that is not acquiring only stores values. -/
theorem notification_terminates (env : Env) (self : Nat) (propertyInfo : IPropInfo)
    (value : NewValue) (w : World)
    (hinfo : propertyInfo.getPropertyStorageType = DATATYPE.DOUBLE ∨
      propertyInfo.getPropertyStorageType = DATATYPE.INT ∨
      propertyInfo.getPropertyStorageType = DATATYPE.STRING)
    (ht : ∀ property ∈ env.properties, property.2 = none ∨
      property.1.getPropertyStorageType = DATATYPE.DOUBLE ∨
      property.1.getPropertyStorageType = DATATYPE.INT ∨
      property.1.getPropertyStorageType = DATATYPE.STRING)
    (hopen : w.isOpen = true) (hacq : w.isAcquiring = true)
    (hd : w._driverGuard = false) (hf : w._acquisitionActiveGuard = false) :
    (∃ w' : World,
      (∀ depth : Nat,
        propertyChanged env (depth + 1) self propertyInfo (some value) w = Outcome.done () w') ∧
      w'.trace = w.trace ++ [Event.stop,
        Event.enter Guard.acquisitionActiveGuard,
        Event.leave Guard.acquisitionActiveGuard,
        Event.pthread_join w._sendThread,
        Event.enter Guard.driverGuard,
        Event.leave Guard.driverGuard,
        Event.restart,
        Event.notifyAllListeners,
        Event.enter Guard.acquisitionActiveGuard,
        Event.leave Guard.acquisitionActiveGuard,
        Event.pthread_create (env.pthread_create w.created)]) ∧
    (∀ v : World, v.isAcquiring = false →
      ∃ listeners : List DemoPropListener, ∀ restart : M Bool,
        notifyListenersFrom restart env.properties 0 v =
          Outcome.done () { v with propListeners := listeners }) := by
  obtain ⟨listeners, h⟩ :=
    propertyChanged_acquiring env self propertyInfo value w hinfo ht hopen hacq hd hf
  exact ⟨⟨_, h, rfl⟩, fun v hv => notifyListenersFrom_idle env.properties 0 v ht hv⟩

/-- Witness for C20: the theorem applied to the change of `Saturation` on the
acquiring adaptor with three listeners. -/
theorem notification_terminates_witness :
    ∃ w' : World,
      (∀ depth : Nat,
        propertyChanged hostWithProperties (depth + 1) 1 saturationInfo (some newSaturation)
          acquiringAdaptorWithListeners = Outcome.done () w') ∧
      w'.trace = acquiringAdaptorWithListeners.trace ++ [Event.stop,
        Event.enter Guard.acquisitionActiveGuard,
        Event.leave Guard.acquisitionActiveGuard,
        Event.pthread_join acquiringAdaptorWithListeners._sendThread,
        Event.enter Guard.driverGuard,
        Event.leave Guard.driverGuard,
        Event.restart,
        Event.notifyAllListeners,
        Event.enter Guard.acquisitionActiveGuard,
        Event.leave Guard.acquisitionActiveGuard,
        Event.pthread_create
          (hostWithProperties.pthread_create acquiringAdaptorWithListeners.created)] :=
  (notification_terminates hostWithProperties 1 saturationInfo newSaturation
    acquiringAdaptorWithListeners (Or.inr (Or.inl rfl)) (by decide) rfl rfl rfl rfl).1


/-! ## Formats and frame types -/

theorem format_bands (formatInfo : Option DemoDeviceFormat) (w : World)
    (hw : w.formatInfo = formatInfo)
    (hfmt : formatInfo = none ∨ formatInfo = some rgbFormat ∨ formatInfo = some svideoFormat ∨
      formatInfo = some rs170Format ∨ formatInfo = some ccirFormat) :
    getNumberOfBands w = (bandField (getFrameType w) : Int) ∧
    bufferSize (getMaxWidth w) (getMaxHeight w) (getNumberOfBands w)
      = (getMaxWidth w).toNat * (getMaxHeight w).toNat * bandField (getFrameType w) := by
  unfold getNumberOfBands getFrameType getMaxWidth getMaxHeight
  rw [hw]
  rcases hfmt with h | h | h | h | h <;> subst h <;> constructor <;> decide

/-- C30: for each of the four formats that `getAvailHW` registers and for the
fallback used when there is no format object, the number of bands returned by
`getNumberOfBands` is the band field `(frameType >> 16) & 0xFF` of the value
returned by `getFrameType`, and the buffer allocated in `sendFrame` has
`width * height * bandField` bytes.  The formats are 640 x 480 x 3, 160 x 120
x 3 (both `RGB24_PACKED`), 640 x 480 x 1 and 768 x 576 x 1 (both `MONO8`); the
fallback is 640 x 480 x 3 with `RGB24_PACKED`. -/
theorem bands_agree_with_frameType (w : World)
    (hfmt : w.formatInfo = none ∨ ∃ formatInfo ∈ getAvailHW, w.formatInfo = some formatInfo) :
    getNumberOfBands w = (bandField (getFrameType w) : Int) ∧
    bufferSize (getMaxWidth w) (getMaxHeight w) (getNumberOfBands w)
      = (getMaxWidth w).toNat * (getMaxHeight w).toNat * bandField (getFrameType w) ∧
    getAvailHW.map (fun formatInfo => (formatInfo._formatWidth, formatInfo._formatHeight,
        formatInfo._formatNumBands, formatInfo._formatFrameType))
      = [(640, 480, 3, RGB24_PACKED), (160, 120, 3, RGB24_PACKED), (640, 480, 1, MONO8),
          (768, 576, 1, MONO8)] ∧
    (w.formatInfo = none →
      getMaxWidth w = 640 ∧ getMaxHeight w = 480 ∧ getNumberOfBands w = 3 ∧
        getFrameType w = RGB24_PACKED) ∧
    bandField RGB24_PACKED = 3 ∧ bandField MONO8 = 1 := by
  have h : w.formatInfo = none ∨ w.formatInfo = some rgbFormat ∨
      w.formatInfo = some svideoFormat ∨ w.formatInfo = some rs170Format ∨
      w.formatInfo = some ccirFormat := by
    rcases hfmt with h | ⟨f, hf, h⟩
    · exact Or.inl h
    · simp only [getAvailHW, List.mem_cons, List.mem_singleton, List.not_mem_nil, or_false] at hf
      rcases hf with hf | hf | hf | hf <;> subst hf
      · exact Or.inr (Or.inl h)
      · exact Or.inr (Or.inr (Or.inl h))
      · exact Or.inr (Or.inr (Or.inr (Or.inl h)))
      · exact Or.inr (Or.inr (Or.inr (Or.inr h)))
  obtain ⟨h1, h2⟩ := format_bands w.formatInfo w rfl h
  refine ⟨h1, h2, by decide, fun hn => ?_, by decide, by decide⟩
  unfold getNumberOfBands getFrameType getMaxWidth getMaxHeight
  rw [hn]
  exact ⟨rfl, rfl, rfl, rfl⟩

/-- Witness for C30: the theorem applied to the acquiring adaptor of the
format `RS170`. -/
theorem bands_agree_with_frameType_witness :
    getNumberOfBands acquiringAdaptor = (bandField (getFrameType acquiringAdaptor) : Int) ∧
    bufferSize (getMaxWidth acquiringAdaptor) (getMaxHeight acquiringAdaptor)
        (getNumberOfBands acquiringAdaptor)
      = (getMaxWidth acquiringAdaptor).toNat * (getMaxHeight acquiringAdaptor).toNat *
          bandField (getFrameType acquiringAdaptor) :=
  ⟨(bands_agree_with_frameType acquiringAdaptor
      (Or.inr ⟨rs170Format, by decide, rfl⟩)).1,
    (bands_agree_with_frameType acquiringAdaptor
      (Or.inr ⟨rs170Format, by decide, rfl⟩)).2.1⟩

/-! ## The capture thread after the acquisition is complete -/

/-- One round of the loop of `sendThread` in which the acquisition is complete
and the flag is true: `sendFrame` returns after one evaluation of its
condition. -/
theorem sendThread_round_complete (env : Env) (fuel n : Nat) (w : World)
    (hf : w._acquisitionActiveGuard = false) (hact : w._acquisitionActive = true)
    (hnc : env.isAcquisitionNotComplete w.clock = false) :
    sendThread env (fuel + 1) (n + 1) w = sendThread env (fuel + 1) n
      { w with clock := w.clock + 1
               trace := w.trace ++ [Event.enter Guard.acquisitionActiveGuard,
                 Event.leave Guard.acquisitionActiveGuard,
                 Event.whileCondition false w._driverGuard] } := by
  have h := sendFrameLoop_complete env fuel
    (initialLocals { w with trace := w.trace ++ [Event.enter Guard.acquisitionActiveGuard,
      Event.leave Guard.acquisitionActiveGuard] })
    { w with trace := w.trace ++ [Event.enter Guard.acquisitionActiveGuard,
      Event.leave Guard.acquisitionActiveGuard] } rfl hnc
  rw [sendThread_active env (fuel + 1) n w hf hact]
  unfold M.bind
  rw [sendFrame_eq_loop, h]
  simp

/-- The rounds of the loop of `sendThread` after the acquisition is complete,
while the flag stays true. -/
theorem sendThread_spins (env : Env) (fuel : Nat)
    (hnc : ∀ k, env.isAcquisitionNotComplete k = false) (n : Nat) :
    ∀ w : World, w._acquisitionActiveGuard = false → w._acquisitionActive = true →
      sendThread env (fuel + 1) n w = Outcome.fuelOut
        { w with clock := w.clock + n
                 trace := w.trace ++ (List.replicate n
                   [Event.enter Guard.acquisitionActiveGuard,
                     Event.leave Guard.acquisitionActiveGuard,
                     Event.whileCondition false w._driverGuard]).flatten } := by
  induction n with
  | zero =>
    intro w _ _
    simp [sendThread]
  | succ n ih =>
    intro w hf hact
    rw [sendThread_round_complete env fuel n w hf hact (hnc _),
      ih { w with clock := w.clock + 1
                  trace := w.trace ++ [Event.enter Guard.acquisitionActiveGuard,
                    Event.leave Guard.acquisitionActiveGuard,
                    Event.whileCondition false w._driverGuard] } hf hact]
    simp [List.replicate_succ, Nat.add_assoc, Nat.add_comm 1 n]

/-- C29: in a state in which the flag is true and `isAcquisitionNotComplete()`
is false, `sendFrame` returns after one evaluation of its condition and
changes nothing of the adaptor (only the bookkeeping of the model, `clock` and
`trace`, moves on); `sendThread` then calls it again: as long as
`isAcquisitionNotComplete()` stays false and the flag stays true the thread
does not return, for any number of rounds, and it returns at the first round
at which the flag is false. -/
theorem thread_outlives_acquisition (env : Env) (fuel : Nat) (w : World)
    (hf : w._acquisitionActiveGuard = false) (hact : w._acquisitionActive = true)
    (hnc : ∀ k, env.isAcquisitionNotComplete k = false) :
    sendFrame env (fuel + 1) w = Outcome.done ()
      { w with clock := w.clock + 1
               trace := w.trace ++ [Event.whileCondition false w._driverGuard] } ∧
    (∀ n : Nat, sendThread env (fuel + 1) n w = Outcome.fuelOut
      { w with clock := w.clock + n
               trace := w.trace ++ (List.replicate n
                 [Event.enter Guard.acquisitionActiveGuard,
                   Event.leave Guard.acquisitionActiveGuard,
                   Event.whileCondition false w._driverGuard]).flatten }) ∧
    (∀ (n : Nat) (v : World), v._acquisitionActiveGuard = false →
      v._acquisitionActive = false →
      sendThread env (fuel + 1) (n + 1) v = Outcome.done ()
        { v with trace := v.trace ++ [Event.enter Guard.acquisitionActiveGuard,
                   Event.leave Guard.acquisitionActiveGuard] }) := by
  refine ⟨?_, fun n => sendThread_spins env fuel hnc n w hf hact,
    fun n v hv hv' => sendThread_inactive env (fuel + 1) n v hv hv'⟩
  rw [sendFrame_eq_loop]
  exact sendFrameLoop_complete env fuel _ w rfl (hnc _)

/-- Witness for C29: the theorem applied to the acquiring `RS170` adaptor on a
host in which the acquisition is complete. -/
theorem thread_outlives_acquisition_witness :
    sendFrame hostComplete (0 + 1) acquiringAdaptor = Outcome.done ()
      { acquiringAdaptor with
        clock := acquiringAdaptor.clock + 1
        trace := acquiringAdaptor.trace ++
          [Event.whileCondition false acquiringAdaptor._driverGuard] } ∧
    sendThread hostComplete (0 + 1) 5 acquiringAdaptor = Outcome.fuelOut
      { acquiringAdaptor with
        clock := acquiringAdaptor.clock + 5
        trace := acquiringAdaptor.trace ++ (List.replicate 5
          [Event.enter Guard.acquisitionActiveGuard,
            Event.leave Guard.acquisitionActiveGuard,
            Event.whileCondition false acquiringAdaptor._driverGuard]).flatten } :=
  ⟨(thread_outlives_acquisition hostComplete 0 acquiringAdaptor rfl rfl (fun _ => rfl)).1,
    (thread_outlives_acquisition hostComplete 0 acquiringAdaptor rfl rfl (fun _ => rfl)).2.1 5⟩


/-! ## The frame generator: byte values and period -/

/-- The cells of a single-band frame. -/
theorem generateFrame_single_filled (W H : Nat) (offset : Int)
    (hsz : (W : Int) * (H : Int) * 1 < 2147483648) :
    FilledTo (singleBandByte W offset) (W * H) (generateFrame (W : Int) (H : Int) 1 offset)
      (W * H) := by
  have hsize : bufferSize (W : Int) (H : Int) 1 = W * H := by
    have := bufferSize_eq W H 1 (Or.inl rfl) hsz
    simpa using this
  have hfill := fillSingleBand_filled (W : Int) (H : Int) offset
    (bufferSize (W : Int) (H : Int) 1) (freshBuffer (W : Int) (H : Int) 1)
    (by rw [hsize]; simp) (filledTo_freshBuffer _ _ _ _)
  have hgen : generateFrame (W : Int) (H : Int) 1 offset
      = fillSingleBand (W : Int) (H : Int) offset (freshBuffer (W : Int) (H : Int) 1) := by
    simp [generateFrame]
  simp only [Int.toNat_ofNat, hsize] at hfill
  rw [hgen]
  exact hfill

/-- The cells of a three-band frame. -/
theorem generateFrame_multi_filled (W H : Nat) (offset : Int)
    (hsz : (W : Int) * (H : Int) * 3 < 2147483648) :
    FilledTo (multiBandByte W offset) (3 * (W * H)) (generateFrame (W : Int) (H : Int) 3 offset)
      (3 * (W * H)) := by
  have hsize : bufferSize (W : Int) (H : Int) 3 = 3 * (W * H) := by
    have h := bufferSize_eq W H 3 (Or.inr rfl) hsz
    have e : (3 : Int).toNat = 3 := rfl
    rw [h, e]
  have hfill := fillMultiBand_filled (W : Int) (H : Int) offset
    (bufferSize (W : Int) (H : Int) 3) (freshBuffer (W : Int) (H : Int) 3)
    (by rw [hsize]; simp) (filledTo_freshBuffer _ _ _ _)
  have hgen : generateFrame (W : Int) (H : Int) 3 offset
      = fillMultiBand (W : Int) (H : Int) offset (freshBuffer (W : Int) (H : Int) 3) := by
    simp [generateFrame]
  simp only [Int.toNat_ofNat, hsize] at hfill
  rw [hgen]
  exact hfill

/-- Two completely filled buffers of the same size with the same bytes are
equal. -/
theorem genState_eq_of_filled (f g : Nat → Nat) (n : Nat) (s t : GenState)
    (hs : FilledTo f n s n) (ht : FilledTo g n t n) (hfg : ∀ i, i < n → f i = g i) :
    s = t := by
  obtain ⟨s1, s2, s3, s4⟩ := hs
  obtain ⟨t1, t2, t3, t4⟩ := ht
  have hbuf : s.imBuffer = t.imBuffer := by
    apply List.ext_getElem?
    intro i
    by_cases hi : i < n
    · rw [s4 i hi, t4 i hi, hfg i hi]
    · rw [List.getElem?_eq_none (by omega), List.getElem?_eq_none (by omega)]
  cases s
  cases t
  simp only at s1 s2 t1 t2 hbuf
  subst s1 s2 hbuf
  simp [t1, t2]

/-- The stored byte as the specification describes it. -/
theorem toUChar_cRem_eq_specByte (t : Int) : toUChar (cRem t 255) = specByte t := by
  unfold specByte
  by_cases h : 0 ≤ t
  · rw [if_pos h, (toUChar_cRem_of_nonneg t h).1]
  · rw [if_neg h, toUChar_cRem_of_neg t (by omega)]
    by_cases h0 : (-t) % 255 = 0
    · rw [if_pos h0, h0]
      rfl
    · rw [if_neg h0]
      congr 1
      omega

/-- Moving a term that is not positive down by 255 keeps the stored byte. -/
theorem toUChar_cRem_shift (t : Int) (ht : t ≤ 0) :
    toUChar (cRem (t - 255) 255) = toUChar (cRem t 255) := by
  rw [toUChar_cRem_eq_specByte, toUChar_cRem_eq_specByte]
  unfold specByte
  have e : (-(t - 255)) % 255 = (-t) % 255 := by omega
  rw [if_neg (by omega : ¬ 0 ≤ t - 255), e]
  by_cases h0 : t = 0
  · subst h0
    decide
  · rw [if_neg (by omega : ¬ 0 ≤ t)]


/-- C28: in a single-band frame with offset >= 0 every byte is in 0..254.  In
a three-band frame the three bytes of the pixel at row `y` and column `x` are
the bytes the specification describes for the terms `x - offset`, `y - offset`
and `x + y - offset`: the C remainder narrowed to `unsigned char` is
`t mod 255` for `t >= 0`, and for `t < 0` it is 0 when `(-t) mod 255 = 0` and
`256 - ((-t) mod 255)` otherwise; `x = 0`, offset 2 stores 254 and `t = -1`
stores 255.  (Inside the range in which the `int` expressions do not wrap.) -/
theorem byte_values (imageWidth imageHeight offset : Int) (x y : Nat)
    (hw : 0 < imageWidth) (hh : 0 < imageHeight) (ho : 0 ≤ offset)
    (hoff : imageWidth + offset ≤ 2147483648)
    (hsz : imageWidth * imageHeight * 3 < 2147483648)
    (hx : (x : Int) < imageWidth) (hy : (y : Int) < imageHeight) :
    (∃ b : Nat, (generateFrame imageWidth imageHeight 1 offset).imBuffer[y * imageWidth.toNat + x]?
        = some (some b) ∧ b ≤ 254) ∧
    ((generateFrame imageWidth imageHeight 3 offset).imBuffer[3 * (y * imageWidth.toNat + x)]?
        = some (some (specByte ((x : Int) - offset))) ∧
      (generateFrame imageWidth imageHeight 3 offset).imBuffer[3 * (y * imageWidth.toNat + x) + 1]?
        = some (some (specByte ((y : Int) - offset))) ∧
      (generateFrame imageWidth imageHeight 3 offset).imBuffer[3 * (y * imageWidth.toNat + x) + 2]?
        = some (some (specByte ((x : Int) + (y : Int) - offset)))) ∧
    (∀ t : Int, toUChar (cRem t 255) = specByte t) ∧
    specByte ((0 : Int) - 2) = 254 ∧ specByte (-1) = 255 ∧
    (generateFrame 1 1 3 2).bytes = [254, 254, 254] := by
  obtain ⟨W, rfl⟩ := Int.eq_ofNat_of_zero_le hw.le
  obtain ⟨H, rfl⟩ := Int.eq_ofNat_of_zero_le hh.le
  have hx' : x < W := by exact_mod_cast hx
  have hy' : y < H := by exact_mod_cast hy
  have hidx : y * W + x < W * H := pixel_index_lt W H x y hx' hy'
  have hP : (0 : Int) ≤ (W : Int) * (H : Int) := Int.mul_nonneg (by omega) (by omega)
  have hsz1 : (W : Int) * (H : Int) * 1 < 2147483648 := by omega
  have i0 : 3 * (y * W + x) < 3 * (W * H) := by omega
  have i1 : 3 * (y * W + x) + 1 < 3 * (W * H) := by omega
  have i2 : 3 * (y * W + x) + 2 < 3 * (W * H) := by omega
  have r1 : -2147483648 ≤ (x : Int) + offset := by omega
  have r2 : (x : Int) + offset < 2147483648 := by omega
  have r3 : 0 ≤ (x : Int) + offset := by omega
  have hs := (generateFrame_single_filled W H offset hsz1).2.2.2
  have hm := (generateFrame_multi_filled W H offset hsz).2.2.2
  obtain ⟨hb0, hb1, hb2⟩ := multiBandByte_pixel W x y offset hx'
  have hoff' : offset < 2147483648 := by omega
  obtain ⟨hw0, hw1, hw2⟩ := multiBand_wrap_free W H x y offset ho hoff' hsz hx' hy'
  have hmod : (y * W + x) % W = x := by
    rw [Nat.mul_comm, Nat.mul_add_mod, Nat.mod_eq_of_lt hx']
  simp only [Int.toNat_ofNat]
  refine ⟨⟨_, hs _ hidx, ?_⟩, ⟨?_, ?_, ?_⟩, toUChar_cRem_eq_specByte, by decide, by decide,
    by decide⟩
  · simp only [singleBandByte, hmod]
    rw [wrapInt_of_range _ r1 r2]
    exact Nat.le_of_lt_succ (toUChar_cRem_of_nonneg ((x : Int) + offset) r3).2
  · rw [hm (3 * (y * W + x)) i0, hb0, hw0, toUChar_cRem_eq_specByte]
  · rw [hm (3 * (y * W + x) + 1) i1, hb1, hw1, toUChar_cRem_eq_specByte]
  · rw [hm (3 * (y * W + x) + 2) i2, hb2, hw2, toUChar_cRem_eq_specByte]

/-- Witness for C28: the theorem applied at width 2, height 1, offset 2 and the
pixel (x, y) = (1, 0). -/
theorem byte_values_witness :
    (∃ b : Nat, (generateFrame 2 1 1 2).imBuffer[0 * (2 : Int).toNat + 1]? = some (some b) ∧
      b ≤ 254) ∧
    ((generateFrame 2 1 3 2).imBuffer[3 * (0 * (2 : Int).toNat + 1)]?
        = some (some (specByte (((1 : Nat) : Int) - 2))) ∧
      (generateFrame 2 1 3 2).imBuffer[3 * (0 * (2 : Int).toNat + 1) + 1]?
        = some (some (specByte (((0 : Nat) : Int) - 2))) ∧
      (generateFrame 2 1 3 2).imBuffer[3 * (0 * (2 : Int).toNat + 1) + 2]?
        = some (some (specByte (((1 : Nat) : Int) + ((0 : Nat) : Int) - 2)))) :=
  ⟨(byte_values 2 1 2 1 0 (by decide) (by decide) (by decide) (by decide) (by decide)
      (by decide) (by decide)).1,
    (byte_values 2 1 2 1 0 (by decide) (by decide) (by decide) (by decide) (by decide)
      (by decide) (by decide)).2.1⟩

/-- C27, counterexample: width 2, height 1, three bands, offset 0.  The frame
for offset 0 is 0,0,0, 1,0,1 and the frame for offset 255 is 0,0,0, 2,0,2: the
term `x - offset` of the second pixel is 1 in the first frame and -254 in the
second, which the C remainder and the narrowing turn into 2. -/
theorem frame_period_counterexample :
    (generateFrame 2 1 3 0).bytes = [0, 0, 0, 1, 0, 1] ∧
    (generateFrame 2 1 3 (0 + 255)).bytes = [0, 0, 0, 2, 0, 2] ∧
    generateFrame 2 1 3 (0 + 255) ≠ generateFrame 2 1 3 0 := by
  decide

/-- The bytes of a single-band frame repeat with period 255 in the offset. -/
theorem singleBandByte_period (W : Nat) (offset : Int) (i : Nat) (hW : 0 < W) (ho : 0 ≤ offset)
    (hoff : (W : Int) + (offset + 255) ≤ 2147483648) :
    singleBandByte W (offset + 255) i = singleBandByte W offset i := by
  have hlt : i % W < W := Nat.mod_lt _ hW
  unfold singleBandByte
  rw [wrapInt_of_range _ (by omega) (by omega), wrapInt_of_range _ (by omega) (by omega),
    (toUChar_cRem_of_nonneg _ (by omega)).1, (toUChar_cRem_of_nonneg _ (by omega)).1]
  congr 1
  omega

/-- The bytes of a three-band frame all of whose terms are not positive repeat
with period 255 in the offset. -/
theorem multiBandByte_period (W H : Nat) (offset : Int) (i : Nat) (hi : i < 3 * (W * H))
    (hsz : (W : Int) * (H : Int) * 3 < 2147483648)
    (hoff : offset + 255 < 2147483648)
    (hlarge : (W : Int) + (H : Int) - 2 ≤ offset) :
    multiBandByte W (offset + 255) i = multiBandByte W offset i := by
  have hW : 0 < W := by
    rcases Nat.eq_zero_or_pos W with h | h
    · subst h
      simp at hi
    · exact h
  have hH : 0 < H := by
    rcases Nat.eq_zero_or_pos H with h | h
    · subst h
      simp at hi
    · exact h
  have hx : i / 3 % W < W := Nat.mod_lt _ hW
  have hy : i / 3 / W < H := by
    rw [Nat.div_lt_iff_lt_mul hW]
    have : i / 3 < W * H := by omega
    rw [Nat.mul_comm] at this
    exact this
  unfold multiBandByte
  generalize i / 3 % W = x at hx ⊢
  generalize i / 3 / W = y at hy ⊢
  have ho : 0 ≤ offset := by omega
  have ho2 : offset < 2147483648 := by omega
  have ho3 : 0 ≤ offset + 255 := by omega
  have t1 : (x : Int) - offset ≤ 0 := by omega
  have t2 : (y : Int) - offset ≤ 0 := by omega
  have t3 : (x : Int) + (y : Int) - offset ≤ 0 := by omega
  obtain ⟨a1, a2, a3⟩ := multiBand_wrap_free W H x y offset ho ho2 hsz hx hy
  obtain ⟨b1, b2, b3⟩ := multiBand_wrap_free W H x y (offset + 255) ho3 hoff hsz hx hy
  have e1 : (x : Int) - (offset + 255) = ((x : Int) - offset) - 255 := by ring
  have e2 : (y : Int) - (offset + 255) = ((y : Int) - offset) - 255 := by ring
  have e3 : (x : Int) + (y : Int) - (offset + 255) = ((x : Int) + (y : Int) - offset) - 255 := by
    ring
  rw [a1, a2, a3, b1, b2, b3, e1, e2, e3, toUChar_cRem_shift _ t1, toUChar_cRem_shift _ t2,
    toUChar_cRem_shift _ t3]


/-- A pixel whose term `x + y - offset` is 1 tells the three-band frames for
`offset` and `offset + 255` apart: its third byte is 1 in the first and 2 in
the second. -/
theorem multiBand_differs (W H x y : Nat) (offset : Int) (ho : 0 ≤ offset)
    (hoff : offset + 255 < 2147483648) (hsz : (W : Int) * (H : Int) * 3 < 2147483648)
    (hx : x < W) (hy : y < H) (hsum : (x : Int) + (y : Int) - offset = 1) :
    generateFrame (W : Int) (H : Int) 3 (offset + 255) ≠ generateFrame (W : Int) (H : Int) 3 offset := by
  have hsum2 : (x : Int) + (y : Int) - (offset + 255) = -254 := by omega
  have ho2 : offset < 2147483648 := by omega
  have ho3 : 0 ≤ offset + 255 := by omega
  have hidx : y * W + x < W * H := pixel_index_lt W H x y hx hy
  have i2 : 3 * (y * W + x) + 2 < 3 * (W * H) := by omega
  have h1 := (generateFrame_multi_filled W H offset hsz).2.2.2 _ i2
  have h2 := (generateFrame_multi_filled W H (offset + 255) hsz).2.2.2 _ i2
  rw [(multiBandByte_pixel W x y offset hx).2.2,
    (multiBand_wrap_free W H x y offset ho ho2 hsz hx hy).2.2, hsum] at h1
  rw [(multiBandByte_pixel W x y (offset + 255) hx).2.2,
    (multiBand_wrap_free W H x y (offset + 255) ho3 hoff hsz hx hy).2.2, hsum2] at h2
  intro heq
  rw [heq, h1] at h2
  revert h2
  decide

/-- C27 as amended: for every width > 0, height > 0 and offset >= 0 (inside
the range in which the `int` expressions do not wrap) the single-band frame
generated for `offset + 255` is equal to the one generated for `offset`.  The
three-band frames for `offset + 255` and `offset` are equal if and only if
`offset >= width + height - 2`, that is if no term `x - offset`, `y - offset`,
`x + y - offset` of the frame is positive. -/
theorem frame_period (imageWidth imageHeight offset : Int)
    (hw : 0 < imageWidth) (hh : 0 < imageHeight) (ho : 0 ≤ offset)
    (hoff : imageWidth + (offset + 255) ≤ 2147483648)
    (hsz : imageWidth * imageHeight * 3 < 2147483648) :
    generateFrame imageWidth imageHeight 1 (offset + 255)
      = generateFrame imageWidth imageHeight 1 offset ∧
    (generateFrame imageWidth imageHeight 3 (offset + 255)
        = generateFrame imageWidth imageHeight 3 offset ↔
      imageWidth + imageHeight - 2 ≤ offset) := by
  obtain ⟨W, rfl⟩ := Int.eq_ofNat_of_zero_le hw.le
  obtain ⟨H, rfl⟩ := Int.eq_ofNat_of_zero_le hh.le
  obtain ⟨o, rfl⟩ := Int.eq_ofNat_of_zero_le ho
  have hW : 0 < W := by omega
  have hH : 0 < H := by omega
  have hP : (0 : Int) ≤ (W : Int) * (H : Int) := Int.mul_nonneg (by omega) (by omega)
  have hsz1 : (W : Int) * (H : Int) * 1 < 2147483648 := by omega
  have hoff2 : (o : Int) + 255 < 2147483648 := by omega
  refine ⟨?_, ?_, ?_⟩
  · exact genState_eq_of_filled _ _ _ _ _
      (generateFrame_single_filled W H ((o : Int) + 255) hsz1)
      (generateFrame_single_filled W H (o : Int) hsz1)
      (fun i _ => singleBandByte_period W (o : Int) i hW ho hoff)
  · intro heq
    by_contra hlt
    have hlt' : o + 3 ≤ W + H := by omega
    by_cases hc : o + 2 ≤ W
    · exact multiBand_differs W H (o + 1) 0 (o : Int) ho hoff2 hsz (by omega) hH
        (by push_cast; omega) heq
    · exact multiBand_differs W H (W - 1) (o + 2 - W) (o : Int) ho hoff2 hsz (by omega)
        (by omega) (by omega) heq
  · intro hlarge
    exact genState_eq_of_filled _ _ _ _ _
      (generateFrame_multi_filled W H ((o : Int) + 255) hsz)
      (generateFrame_multi_filled W H (o : Int) hsz)
      (fun i hi => multiBandByte_period W H (o : Int) i hi hsz hoff2 hlarge)

/-- Witness for C27 as amended: the theorem applied at width 2, height 1 and
offset 1, for which `offset >= width + height - 2`. -/
theorem frame_period_witness :
    generateFrame 2 1 1 (1 + 255) = generateFrame 2 1 1 1 ∧
    (generateFrame 2 1 3 (1 + 255) = generateFrame 2 1 3 1 ↔ (2 : Int) + 1 - 2 ≤ 1) :=
  frame_period 2 1 1 (by decide) (by decide) (by decide) (by decide) (by decide)


/-! ## The custom get function: lemmas -/

/-- The first `k` characters of a text copied into a fresh block that has room
for them. -/
theorem strncpy_fresh (src : List Nat) (n k : Nat) (hk : k ≤ src.length) (hn : src.length < n) :
    strncpy (imaqmalloc n) src k
      = { cells := (src.take k).map some ++ List.replicate (n - k) none, overrun := false } := by
  induction k with
  | zero => simp [strncpy, imaqmalloc]
  | succ k ih =>
    have ih' := ih (by omega)
    unfold strncpy at ih' ⊢
    rw [List.range_succ, List.foldl_append, ih']
    simp only [List.foldl_cons, List.foldl_nil, CharBuffer.write]
    have hlen : ((src.take k).map some).length = k := by
      simp [List.length_take]
      omega
    congr 1
    · apply List.ext_getElem?
      intro i
      simp only [List.getElem?_set, List.getElem?_append, List.length_append, List.length_map,
        List.length_take, List.length_replicate, List.getElem?_map, List.getElem?_take,
        List.getElem?_replicate]
      have hmin : min k src.length = k := by omega
      have hmin2 : min (k + 1) src.length = k + 1 := by omega
      rw [hmin, hmin2]
      by_cases h1 : k = i
      · subst h1
        have hg : src.getD k 0 = src[k] := by
          simp [List.getD, List.getElem?_eq_getElem (show k < src.length by omega)]
        simp [hg, List.getElem?_eq_getElem (show k < src.length by omega)]
        omega
      · by_cases h2 : i < k
        · simp [h1, h2, show i < k + 1 by omega]
        · simp only [h1, h2, show ¬ i < k + 1 by omega, if_false]
          by_cases h3 : i < n
          · rw [if_pos (by omega), if_pos (by omega)]
          · rw [if_neg (by omega), if_neg (by omega)]
    · simp [hlen]
      omega

/-- The copy made by `getValue` for a text that is not empty: the characters
but the last, a NUL in place of the last, and one cell that is never written. -/
theorem copy_then_terminate (init : List Nat) (c : Nat)
    (hlen : (init ++ [c]).length < 18446744073709551616) :
    (strncpy (imaqmalloc (strlen (init ++ [c]) + 1)) (init ++ [c]) (strlen (init ++ [c]))).write
        (toSizeT ((strlen (init ++ [c]) : Int) - 1)) 0
      = { cells := init.map some ++ [some 0, none], overrun := false } := by
  have hidx : toSizeT ((strlen (init ++ [c]) : Int) - 1) = init.length := by
    unfold toSizeT strlen
    simp only [List.length_append, List.length_singleton] at hlen ⊢
    omega
  unfold strlen at hidx ⊢
  rw [hidx, strncpy_fresh (init ++ [c]) ((init ++ [c]).length + 1) (init ++ [c]).length
    (le_refl _) (by omega)]
  have htake : List.take (init ++ [c]).length (init ++ [c]) = init ++ [c] := List.take_length _
  rw [htake]
  unfold CharBuffer.write
  have hset : (List.map some (init ++ [c]) ++ List.replicate ((init ++ [c]).length + 1 - (init ++ [c]).length) none).set
      init.length (some 0) = List.map some init ++ [some 0, none] := by
    have e : (init ++ [c]).length + 1 - (init ++ [c]).length = 1 := by omega
    rw [e, List.map_append, List.append_assoc,
      List.set_append_right _ _ (by simp)]
    simp
  have hl : (List.map some (init ++ [c]) ++ List.replicate ((init ++ [c]).length + 1 - (init ++ [c]).length) none).length
      = init.length + 2 := by
    simp
  simp only [hset, hl, Bool.false_or, CharBuffer.mk.injEq, true_and, decide_eq_false_iff_not,
    not_le]
  omega

theorem cString_terminated (text : List Nat) (rest : List (Option Nat))
    (hnz : ∀ c ∈ text, c ≠ 0) :
    cString (text.map some ++ some 0 :: rest) = some text := by
  induction text with
  | nil => rfl
  | cons c text ih =>
    have hc : c ≠ 0 := hnz c (List.mem_cons_self _ _)
    obtain ⟨d, rfl⟩ := Nat.exists_eq_succ_of_ne_zero hc
    have ih' := ih (fun c' hc' => hnz c' (List.mem_cons_of_mem _ hc'))
    show (cString (List.map some text ++ some 0 :: rest)).map (fun t => (d + 1) :: t) = _
    rw [ih']
    rfl

/-- C22: for a `STRING` property and a text `t` from `ctime` that is not empty
(its characters are not NUL and their number fits `size_t`), `getValue`
returns a block from `imaqmalloc` of `strlen(t) + 1` bytes; every store is
inside the block; the block holds the characters of `t` but the last, then a
NUL where the last character was, so the string it holds is `t` without its
last character (the cell after the NUL is not written).  When `ctime` returns
`NULL` the block has one byte, NUL.  For an `INT` property the value stored is
the current time converted to `int64_t`. -/
theorem timestamp_value (lib : CLibrary) (propertyInfo : IPropInfo) :
    (propertyInfo.getPropertyStorageType = DATATYPE.STRING →
      ∀ t : List Nat, lib.ctime = some t → t ≠ [] → strlen t < 18446744073709551616 →
        ∃ buffer : CharBuffer,
          DemoTimestampGetFcn.getValue lib propertyInfo = some (StoredValue.returnStr buffer) ∧
          buffer.cells = t.dropLast.map some ++ [some 0, none] ∧
          buffer.cells.length = strlen t + 1 ∧
          buffer.overrun = false ∧
          ((∀ c ∈ t, c ≠ 0) → cString buffer.cells = some t.dropLast)) ∧
    (propertyInfo.getPropertyStorageType = DATATYPE.STRING → lib.ctime = none →
      DemoTimestampGetFcn.getValue lib propertyInfo
        = some (StoredValue.returnStr { cells := [some 0], overrun := false }) ∧
      cString [some 0] = some []) ∧
    (propertyInfo.getPropertyStorageType = DATATYPE.INT →
      DemoTimestampGetFcn.getValue lib propertyInfo = some (StoredValue.int64 (toInt64 lib.time)) ∧
      (-9223372036854775808 ≤ lib.time → lib.time < 9223372036854775808 →
        toInt64 lib.time = lib.time)) := by
  obtain ⟨name, type⟩ := propertyInfo
  refine ⟨fun ht t hc hne hlen => ?_, fun ht hc => ?_, fun ht => ?_⟩
  · simp only at ht
    subst ht
    have hsplit : t = t.dropLast ++ [t.getLast hne] := (List.dropLast_append_getLast hne).symm
    have hcopy := copy_then_terminate t.dropLast (t.getLast hne) (by rw [← hsplit]; exact hlen)
    rw [← hsplit] at hcopy
    refine ⟨{ cells := t.dropLast.map some ++ [some 0, none], overrun := false }, ?_, rfl, ?_,
      rfl, fun hnz => ?_⟩
    · simp only [DemoTimestampGetFcn.getValue, hc]
      rw [hcopy]
    · have hl : t.length = t.dropLast.length + 1 := by
        rw [List.length_dropLast]
        have : 0 < t.length := List.length_pos.2 hne
        omega
      simp only [List.length_append, List.length_map, List.length_cons, List.length_nil, strlen]
      omega
    · exact cString_terminated t.dropLast [none]
        (fun c hcm => hnz c (List.mem_of_mem_dropLast hcm))
  · simp only at ht
    subst ht
    refine ⟨?_, rfl⟩
    simp only [DemoTimestampGetFcn.getValue, hc]
    rfl
  · simp only at ht
    subst ht
    refine ⟨rfl, fun h1 h2 => ?_⟩
    unfold toInt64
    omega

/-- Witness for C22: the theorem applied to `TimestampString` at time 0, whose
text is "Thu Jan  1 00:00:00 1970" followed by a newline. -/
theorem timestamp_value_witness :
    ∃ buffer : CharBuffer,
      DemoTimestampGetFcn.getValue epochLibrary timestampStringInfo
        = some (StoredValue.returnStr buffer) ∧
      buffer.cells = epochText.dropLast.map some ++ [some 0, none] ∧
      buffer.cells.length = strlen epochText + 1 ∧
      buffer.overrun = false ∧
      ((∀ c ∈ epochText, c ≠ 0) → cString buffer.cells = some epochText.dropLast) :=
  (timestamp_value epochLibrary timestampStringInfo).1 rfl epochText rfl (by decide) (by decide)


/-! ## Decoding of a new value by its storage type -/

/-- C21: for a new value that is not null, `DemoPropListener::notify` stores
the property information and writes exactly one of the three value members of
the listener, chosen by the storage type: `_lastDoubleValue` for `DOUBLE`,
`_lastIntValue` for `INT`, `_lastStrValue` for `STRING`; the other two keep
their values, and the listener goes on to the test of `isOpen()`.  For
`OTHER`, `DOUBLE_ARRAY`, `INT_ARRAY` and `COMMAND` the `default` label is
reached, `assert(false && ...)`, and `notify` does not return.
`DemoTimestampGetFcn::getValue` reaches its `assert(false && ...)` for every
storage type other than `INT` and `STRING`, and returns a value for these
two. -/
theorem decoding_by_storage_type (restart : M Bool) (self : Nat) (propertyInfo : IPropInfo)
    (value : NewValue) (w : World) (listener : DemoPropListener) (lib : CLibrary)
    (hl : w.propListeners[self]? = some listener) :
    (propertyInfo.getPropertyStorageType = DATATYPE.DOUBLE →
      DemoPropListener.notify restart self propertyInfo (some value) w =
        (if w.isOpen = true then DemoPropListener.applyValue restart self else pure ())
          { w with propListeners := (w.propListeners.set self
              { listener with _propInfo := some propertyInfo
                              _lastDoubleValue := some value.asDouble }) }) ∧
    (propertyInfo.getPropertyStorageType = DATATYPE.INT →
      DemoPropListener.notify restart self propertyInfo (some value) w =
        (if w.isOpen = true then DemoPropListener.applyValue restart self else pure ())
          { w with propListeners := (w.propListeners.set self
              { listener with _propInfo := some propertyInfo
                              _lastIntValue := some value.asInt64 }) }) ∧
    (propertyInfo.getPropertyStorageType = DATATYPE.STRING →
      DemoPropListener.notify restart self propertyInfo (some value) w =
        (if w.isOpen = true then DemoPropListener.applyValue restart self else pure ())
          { w with propListeners := (w.propListeners.set self
              { listener with _propInfo := some propertyInfo
                              _lastStrValue := value.asString }) }) ∧
    (propertyInfo.getPropertyStorageType = DATATYPE.OTHER ∨
        propertyInfo.getPropertyStorageType = DATATYPE.DOUBLE_ARRAY ∨
        propertyInfo.getPropertyStorageType = DATATYPE.INT_ARRAY ∨
        propertyInfo.getPropertyStorageType = DATATYPE.COMMAND →
      DemoPropListener.notify restart self propertyInfo (some value) w =
        Outcome.crashed
          { w with propListeners := (w.propListeners.set self
              { listener with _propInfo := some propertyInfo }) }) ∧
    (∀ v : World, v.isOpen = false ∨ v.isAcquiring = false →
      (if v.isOpen = true then DemoPropListener.applyValue restart self else pure ()) v
        = Outcome.done () v) ∧
    (propertyInfo.getPropertyStorageType ≠ DATATYPE.INT →
      propertyInfo.getPropertyStorageType ≠ DATATYPE.STRING →
      DemoTimestampGetFcn.getValue lib propertyInfo = none) ∧
    (propertyInfo.getPropertyStorageType = DATATYPE.INT ∨
        propertyInfo.getPropertyStorageType = DATATYPE.STRING →
      (DemoTimestampGetFcn.getValue lib propertyInfo).isSome = true) := by
  obtain ⟨name, type⟩ := propertyInfo
  have hlt : self < w.propListeners.length := by
    rcases Nat.lt_or_ge self w.propListeners.length with h | h
    · exact h
    · rw [List.getElem?_eq_none h] at hl
      cases hl
  refine ⟨fun ht => ?_, fun ht => ?_, fun ht => ?_, fun ht => ?_, fun v hv => ?_,
    fun h1 h2 => ?_, fun ht => ?_⟩
  · simp only at ht
    subst ht
    simp [DemoPropListener.notify, assignPropListener, M_bind_apply, M.bind, hl,
      List.getElem?_set, hlt]
  · simp only at ht
    subst ht
    simp [DemoPropListener.notify, assignPropListener, M_bind_apply, M.bind, hl,
      List.getElem?_set, hlt]
  · simp only at ht
    subst ht
    simp [DemoPropListener.notify, assignPropListener, M_bind_apply, M.bind, hl,
      List.getElem?_set, hlt]
  · simp only at ht
    rcases ht with ht | ht | ht | ht <;> subst ht <;>
      simp [DemoPropListener.notify, assignPropListener, M_bind_apply, M.bind, hl]
  · cases hopen : v.isOpen with
    | false => simp [M_pure_apply]
    | true =>
      have hacq : v.isAcquiring = false := by
        rcases hv with h | h
        · rw [hopen] at h
          cases h
        · exact h
      simp only [if_true]
      exact propListener_applyValue_idle restart self v hacq
  · simp only at h1 h2
    cases type <;> first | rfl | exact absurd rfl h1 | exact absurd rfl h2
  · simp only at ht
    rcases ht with ht | ht <;> subst ht
    · rfl
    · simp only [DemoTimestampGetFcn.getValue]
      cases lib.ctime <;> rfl

/-- Witness for C21: the theorem applied to the listener of `Hue` (double) on
the adaptor right after construction with three listeners: only
`_lastDoubleValue` and the property information are written. -/
theorem decoding_by_storage_type_witness :
    DemoPropListener.notify (pure true) 0 hueInfo (some newSaturation)
        (newDemoAdaptor (some rs170Format) 3) =
      (if (newDemoAdaptor (some rs170Format) 3).isOpen = true then
          DemoPropListener.applyValue (pure true) 0 else pure ())
        { newDemoAdaptor (some rs170Format) 3 with
          propListeners := ((newDemoAdaptor (some rs170Format) 3).propListeners.set 0
            { ({ _propInfo := none, _lastIntValue := none, _lastDoubleValue := none,
                 _lastStrValue := "" } : DemoPropListener) with
              _propInfo := some hueInfo
              _lastDoubleValue := some newSaturation.asDouble }) } :=
  (decoding_by_storage_type (pure true) 0 hueInfo newSaturation
    (newDemoAdaptor (some rs170Format) 3)
    { _propInfo := none, _lastIntValue := none, _lastDoubleValue := none, _lastStrValue := "" }
    epochLibrary rfl).1 rfl


/-! ## The loop of `sendFrame`: order of the calls -/

/-- A completed iteration, with its calls given by `iterationEvents`. -/
theorem sendFrameLoop_step (env : Env) (fuel : Nat) (l : Locals) (w : World)
    (hl : l.driverSection = { guard := Guard.driverGuard, state := false })
    (hd : w._driverGuard = false) (hf : w._acquisitionActiveGuard = false)
    (hnc : env.isAcquisitionNotComplete w.clock = true)
    (hact : w._acquisitionActive = true)
    (hnew : env.newSucceeds w.clock = true)
    (hok : env.isSendFrame w.clock = true → env.makeFrameNull w.clock = false) :
    sendFrameLoop env (fuel + 1) l w = sendFrameLoop env fuel
      { l with offset := wrapInt (l.offset + IMAGE_DATA_OFFSET) }
      { w with clock := w.clock + 1
               frameCount := w.frameCount + 1
               trace := w.trace ++ iterationEvents env l w } := by
  cases hsend : env.isSendFrame w.clock with
  | false =>
    rw [sendFrameLoop_skip env fuel l w hl hd hf hnc hact hnew hsend]
    simp [iterationEvents, hsend]
  | true =>
    rw [sendFrameLoop_send env fuel l w hl hd hf hnc hact hnew hsend (hok hsend)]
    simp [iterationEvents, hsend]

theorem localsAfter_driverSection (N : Nat) :
    ∀ l : Locals, (localsAfter N l).driverSection = l.driverSection := by
  induction N with
  | zero => intro l; rfl
  | succ N ih =>
    intro l
    show (localsAfter N _).driverSection = _
    rw [ih]

/-- The first `N` iterations of the loop of `sendFrame` when each of them is
completed, with the local variables and the calls made. -/
theorem sendFrameLoop_run (env : Env) (N : Nat) :
    ∀ (l : Locals) (w : World),
      l.driverSection = { guard := Guard.driverGuard, state := false } →
      w._driverGuard = false → w._acquisitionActiveGuard = false →
      w._acquisitionActive = true →
      (∀ k, k < N → env.isAcquisitionNotComplete (w.clock + k) = true ∧
        env.newSucceeds (w.clock + k) = true ∧
        (env.isSendFrame (w.clock + k) = true → env.makeFrameNull (w.clock + k) = false)) →
      ∀ m : Nat, sendFrameLoop env (N + m) l w = sendFrameLoop env m (localsAfter N l)
        { w with clock := w.clock + N
                 frameCount := w.frameCount + N
                 trace := w.trace ++ eventsOfIterations env N l w } := by
  induction N with
  | zero =>
    intro l w _ _ _ _ _ m
    simp [localsAfter, eventsOfIterations]
  | succ N ih =>
    intro l w hl hd hf hact hk m
    obtain ⟨hnc, hnew, hok⟩ := hk 0 (Nat.succ_pos N)
    simp only [Nat.add_zero] at hnc hnew hok
    have hrest : ∀ k, k < N → env.isAcquisitionNotComplete (w.clock + 1 + k) = true ∧
        env.newSucceeds (w.clock + 1 + k) = true ∧
        (env.isSendFrame (w.clock + 1 + k) = true →
          env.makeFrameNull (w.clock + 1 + k) = false) := by
      intro k hlt
      have h := hk (k + 1) (by omega)
      have e : w.clock + (k + 1) = w.clock + 1 + k := by omega
      rw [e] at h
      exact h
    have hfuel : N + 1 + m = (N + m) + 1 := by omega
    have h1 := ih { l with offset := wrapInt (l.offset + IMAGE_DATA_OFFSET) }
      { w with clock := w.clock + 1
               frameCount := w.frameCount + 1
               trace := w.trace ++ iterationEvents env l w } hl hd hf hact hrest m
    rw [hfuel, sendFrameLoop_step env (N + m) l w hl hd hf hnc hact hnew hok, h1]
    simp only [localsAfter, eventsOfIterations, List.append_assoc, Nat.add_assoc,
      Nat.add_comm 1 N]

theorem replayEvents_append {σ : Type} (step : σ → Event → Option σ) (a b : List Event) :
    ∀ s : σ, replayEvents step s (a ++ b)
      = (replayEvents step s a).bind (fun s' => replayEvents step s' b) := by
  induction a with
  | nil => intro s; rfl
  | cons e a ih =>
    intro s
    simp only [List.cons_append, replayEvents]
    cases step s e with
    | none => rfl
    | some s' => exact ih s'

/-- The calls of one completed iteration are made in the order of
`orderStep`. -/
theorem iterationEvents_order (env : Env) (l : Locals) (w : World) :
    replayEvents orderStep 0 (iterationEvents env l w) = some 0 := by
  cases hsend : env.isSendFrame w.clock <;>
    simp [iterationEvents, hsend, replayEvents, orderStep, IMAGE_FRAME_PAUSE_TIME]

theorem iterationEvents_counts (env : Env) (l : Locals) (w : World) :
    (iterationEvents env l w).count (Event.enter Guard.driverGuard) = 1 ∧
    (iterationEvents env l w).count (Event.leave Guard.driverGuard) = 1 := by
  cases hsend : env.isSendFrame w.clock <;>
    simp [iterationEvents, hsend, List.count_cons]

theorem eventsOfIterations_order (env : Env) (N : Nat) :
    ∀ (l : Locals) (w : World),
      replayEvents orderStep 0 (eventsOfIterations env N l w) = some 0 ∧
      (eventsOfIterations env N l w).count (Event.enter Guard.driverGuard) = N ∧
      (eventsOfIterations env N l w).count (Event.leave Guard.driverGuard) = N := by
  induction N with
  | zero => intro l w; exact ⟨rfl, rfl, rfl⟩
  | succ N ih =>
    intro l w
    obtain ⟨h1, h2, h3⟩ := ih { l with offset := wrapInt (l.offset + IMAGE_DATA_OFFSET) }
      { w with clock := w.clock + 1
               frameCount := w.frameCount + 1
               trace := w.trace ++ iterationEvents env l w }
    obtain ⟨c1, c2⟩ := iterationEvents_counts env l w
    refine ⟨?_, ?_, ?_⟩
    · show replayEvents orderStep 0 (iterationEvents env l w ++ _) = some 0
      rw [replayEvents_append, iterationEvents_order]
      exact h1
    · show (iterationEvents env l w ++ _).count _ = N + 1
      rw [List.count_append, c1, h2]
      omega
    · show (iterationEvents env l w ++ _).count _ = N + 1
      rw [List.count_append, c2, h3]
      omega

/-- C24: the calls of every completed iteration of the loop of `sendFrame`
are made in this order: enter `_driverGuard`, allocate and generate the frame
buffer, pause for 30 ms, the optional forwarding (`getROI`, `makeFrame`,
`setImage`, `setTime`, `receiveFrame`), `incrementFrameCount`, free the buffer,
leave `_driverGuard`; the offset is advanced between the generation and the
pause (it is the offset of the next iteration).  The calls of the first `N`
completed iterations are accepted by the automaton `orderStep`, which allows
each call only in its place and the evaluation of the loop condition only
while `_driverGuard` is not held; there are `N` enters and `N` leaves of
`_driverGuard`. -/
theorem iteration_order (env : Env) (N : Nat) (w : World)
    (hd : w._driverGuard = false) (hf : w._acquisitionActiveGuard = false)
    (hact : w._acquisitionActive = true)
    (hk : ∀ k, k < N → env.isAcquisitionNotComplete (w.clock + k) = true ∧
      env.newSucceeds (w.clock + k) = true ∧
      (env.isSendFrame (w.clock + k) = true → env.makeFrameNull (w.clock + k) = false)) :
    (∀ m : Nat, sendFrame env (N + m) w = sendFrameLoop env m (localsAfter N (initialLocals w))
      { w with clock := w.clock + N
               frameCount := w.frameCount + N
               trace := w.trace ++ eventsOfIterations env N (initialLocals w) w }) ∧
    replayEvents orderStep 0 (eventsOfIterations env N (initialLocals w) w) = some 0 ∧
    (eventsOfIterations env N (initialLocals w) w).count (Event.enter Guard.driverGuard) = N ∧
    (eventsOfIterations env N (initialLocals w) w).count (Event.leave Guard.driverGuard) = N ∧
    (∀ (l : Locals) (v : World),
      (env.isSendFrame v.clock = false →
        iterationEvents env l v = [Event.whileCondition false false,
          Event.enter Guard.acquisitionActiveGuard,
          Event.leave Guard.acquisitionActiveGuard,
          Event.enter Guard.driverGuard,
          Event.newBuffer (bufferSize l.imageWidth l.imageHeight l.imageBands) true,
          Event.usleep 30000,
          Event.incrementFrameCount,
          Event.deleteBuffer,
          Event.leave Guard.driverGuard]) ∧
      (env.isSendFrame v.clock = true →
        iterationEvents env l v = [Event.whileCondition false false,
          Event.enter Guard.acquisitionActiveGuard,
          Event.leave Guard.acquisitionActiveGuard,
          Event.enter Guard.driverGuard,
          Event.newBuffer (bufferSize l.imageWidth l.imageHeight l.imageBands) true,
          Event.usleep 30000,
          Event.getROI,
          Event.makeFrame (getFrameType v) (env.getROI v.clock).width
            (env.getROI v.clock).height false,
          Event.setImage (generateFrame l.imageWidth l.imageHeight l.imageBands l.offset).imBuffer
            l.imageWidth l.imageHeight (env.getROI v.clock).originX (env.getROI v.clock).originY,
          Event.setTime,
          Event.receiveFrame,
          Event.incrementFrameCount,
          Event.deleteBuffer,
          Event.leave Guard.driverGuard])) := by
  obtain ⟨h1, h2, h3⟩ := eventsOfIterations_order env N (initialLocals w) w
  refine ⟨fun m => ?_, h1, h2, h3, fun l v => ⟨fun hs => ?_, fun hs => ?_⟩⟩
  · rw [sendFrame_eq_loop]
    exact sendFrameLoop_run env N (initialLocals w) w rfl hd hf hact hk m
  · simp [iterationEvents, hs, IMAGE_FRAME_PAUSE_TIME]
  · simp [iterationEvents, hs, IMAGE_FRAME_PAUSE_TIME]

/-- Witness for C24: the theorem applied to the two iterations of the
acquiring 2 x 1 adaptor on the host that asks for two frames. -/
theorem iteration_order_witness :
    (sendFrame hostTwoFrames (2 + 1) tinyAcquiringAdaptor
      = sendFrameLoop hostTwoFrames 1 (localsAfter 2 (initialLocals tinyAcquiringAdaptor))
        { tinyAcquiringAdaptor with
          clock := tinyAcquiringAdaptor.clock + 2
          frameCount := tinyAcquiringAdaptor.frameCount + 2
          trace := tinyAcquiringAdaptor.trace ++
            eventsOfIterations hostTwoFrames 2 (initialLocals tinyAcquiringAdaptor)
              tinyAcquiringAdaptor }) ∧
    replayEvents orderStep 0
      (eventsOfIterations hostTwoFrames 2 (initialLocals tinyAcquiringAdaptor)
        tinyAcquiringAdaptor) = some 0 :=
  ⟨(iteration_order hostTwoFrames 2 tinyAcquiringAdaptor rfl rfl rfl (by decide)).1 1,
    (iteration_order hostTwoFrames 2 tinyAcquiringAdaptor rfl rfl rfl (by decide)).2.1⟩


/-! ## The offset schedule -/

/-- After `N` advances the offset has grown by `2 * N`, as long as it stays
inside the range of `int`. -/
theorem localsAfter_offset (N : Nat) :
    ∀ l : Locals, -2147483648 ≤ l.offset → l.offset + 2 * (N : Int) < 2147483648 →
      localsAfter N l = { l with offset := l.offset + 2 * (N : Int) } := by
  induction N with
  | zero =>
    intro l _ _
    simp [localsAfter]
  | succ N ih =>
    intro l h1 h2
    have hw : wrapInt (l.offset + IMAGE_DATA_OFFSET) = l.offset + 2 := by
      unfold IMAGE_DATA_OFFSET
      exact wrapInt_of_range _ (by omega) (by push_cast at h2; omega)
    show localsAfter N { l with offset := wrapInt (l.offset + IMAGE_DATA_OFFSET) } = _
    rw [hw, ih _ (by simp only; omega) (by simp only; push_cast at h2; omega)]
    simp only [Locals.mk.injEq, true_and, and_true]
    push_cast
    ring

/-- The frame of the `k`-th iteration, when it is sent, is the one generated
for the offset advanced `k` times. -/
theorem setImage_mem_eventsOfIterations (env : Env) (N : Nat) :
    ∀ (l : Locals) (w : World) (k : Nat), k < N → env.isSendFrame (w.clock + k) = true →
      -2147483648 ≤ l.offset → l.offset + 2 * (k : Int) < 2147483648 →
      Event.setImage
          (generateFrame l.imageWidth l.imageHeight l.imageBands (l.offset + 2 * (k : Int))).imBuffer
          l.imageWidth l.imageHeight (env.getROI (w.clock + k)).originX
          (env.getROI (w.clock + k)).originY
        ∈ eventsOfIterations env N l w := by
  induction N with
  | zero =>
    intro l w k hk
    omega
  | succ N ih =>
    intro l w k hk hsend h1 h2
    show _ ∈ iterationEvents env l w ++ _
    rw [List.mem_append]
    cases k with
    | zero =>
      left
      simp only [Nat.add_zero] at hsend
      simp [iterationEvents, hsend]
    | succ k =>
      right
      have hw : wrapInt (l.offset + IMAGE_DATA_OFFSET) = l.offset + 2 := by
        unfold IMAGE_DATA_OFFSET
        exact wrapInt_of_range _ (by omega) (by push_cast at h2; omega)
      have e : w.clock + (k + 1) = w.clock + 1 + k := by omega
      have e2 : l.offset + 2 * ((k + 1 : Nat) : Int) = l.offset + 2 + 2 * (k : Int) := by
        push_cast
        ring
      rw [e] at hsend ⊢
      rw [e2] at h2 ⊢
      have h := ih { l with offset := wrapInt (l.offset + IMAGE_DATA_OFFSET) }
        { w with clock := w.clock + 1
                 frameCount := w.frameCount + 1
                 trace := w.trace ++ iterationEvents env l w } k (by omega) hsend
        (by simp only [hw]; omega) (by simp only [hw]; exact h2)
      simp only [hw] at h ⊢
      exact h

/-- C26: every invocation of `sendFrame` starts with offset 0.  When its first
`N` iterations are completed (with `2 * N` inside the range of `int`) the
offset is `2 * N`: iteration number `k` (counted from 0) starts with offset
`2 * k` and generates the frame `generateFrame width height bands (2 * k)`,
which is the buffer handed to `setImage` when that frame is sent.  The frame is
a function of width, height, band count and `k` alone. -/
theorem offset_schedule (env : Env) (N : Nat) (w : World)
    (hd : w._driverGuard = false) (hf : w._acquisitionActiveGuard = false)
    (hact : w._acquisitionActive = true)
    (hk : ∀ k, k < N → env.isAcquisitionNotComplete (w.clock + k) = true ∧
      env.newSucceeds (w.clock + k) = true ∧
      (env.isSendFrame (w.clock + k) = true → env.makeFrameNull (w.clock + k) = false))
    (hN : 2 * (N : Int) < 2147483648) :
    (∀ v : World, (initialLocals v).offset = 0) ∧
    (∀ (fuel : Nat) (v : World),
      sendFrame env fuel v = sendFrameLoop env fuel (initialLocals v) v) ∧
    (∀ m : Nat, sendFrame env (N + m) w = sendFrameLoop env m
      { initialLocals w with offset := 2 * (N : Int) }
      { w with clock := w.clock + N
               frameCount := w.frameCount + N
               trace := w.trace ++ eventsOfIterations env N (initialLocals w) w }) ∧
    (∀ k : Nat, k < N → env.isSendFrame (w.clock + k) = true →
      Event.setImage
          (generateFrame (getMaxWidth w) (getMaxHeight w) (getNumberOfBands w)
            (2 * (k : Int))).imBuffer
          (getMaxWidth w) (getMaxHeight w) (env.getROI (w.clock + k)).originX
          (env.getROI (w.clock + k)).originY
        ∈ eventsOfIterations env N (initialLocals w) w) ∧
    (∀ (l : Locals) (v : World), env.isSendFrame v.clock = true →
      Event.setImage (generateFrame l.imageWidth l.imageHeight l.imageBands l.offset).imBuffer
          l.imageWidth l.imageHeight (env.getROI v.clock).originX (env.getROI v.clock).originY
        ∈ iterationEvents env l v) := by
  refine ⟨fun v => rfl, sendFrame_eq_loop env, fun m => ?_, fun k hkN hsend => ?_,
    fun l v hs => ?_⟩
  · have h := localsAfter_offset N (initialLocals w)
      (show (-2147483648 : Int) ≤ 0 by decide) (by
      show (0 : Int) + 2 * (N : Int) < 2147483648
      omega)
    have e : (initialLocals w).offset + 2 * (N : Int) = 2 * (N : Int) := by
      show (0 : Int) + 2 * (N : Int) = 2 * (N : Int)
      omega
    rw [e] at h
    rw [sendFrame_eq_loop, sendFrameLoop_run env N (initialLocals w) w rfl hd hf hact hk m, h]
  · have h := setImage_mem_eventsOfIterations env N (initialLocals w) w k hkN hsend
      (show (-2147483648 : Int) ≤ 0 by decide) (by
        show (0 : Int) + 2 * (k : Int) < 2147483648
        omega)
    have e : (initialLocals w).offset + 2 * (k : Int) = 2 * (k : Int) := by
      show (0 : Int) + 2 * (k : Int) = 2 * (k : Int)
      omega
    rw [e] at h
    exact h
  · simp [iterationEvents, hs]

/-- Witness for C26: the theorem applied to the two iterations of the
acquiring 2 x 1 adaptor on the host that asks for two frames. -/
theorem offset_schedule_witness :
    sendFrame hostTwoFrames (2 + 1) tinyAcquiringAdaptor = sendFrameLoop hostTwoFrames 1
      { initialLocals tinyAcquiringAdaptor with offset := 2 * ((2 : Nat) : Int) }
      { tinyAcquiringAdaptor with
        clock := tinyAcquiringAdaptor.clock + 2
        frameCount := tinyAcquiringAdaptor.frameCount + 2
        trace := tinyAcquiringAdaptor.trace ++
          eventsOfIterations hostTwoFrames 2 (initialLocals tinyAcquiringAdaptor)
            tinyAcquiringAdaptor } :=
  (offset_schedule hostTwoFrames 2 tinyAcquiringAdaptor rfl rfl rfl (by decide)
    (by decide)).2.2.1 1


/-! ## The two critical sections are not nested -/

theorem isAcquisitionActive_apply (w : World) (hf : w._acquisitionActiveGuard = false) :
    isAcquisitionActive w = Outcome.done w._acquisitionActive
      { w with trace := w.trace ++ [Event.enter Guard.acquisitionActiveGuard,
                 Event.leave Guard.acquisitionActiveGuard] } := by
  simp [isAcquisitionActive, M_bind_apply, M.bind, M_pure_apply,
    IAutoCriticalSection.destroy, createAutoCriticalSection,
    ICriticalSection.enter, ICriticalSection.leave, World.locked, World.setLocked, hf]

theorem iterationEvents_nest (env : Env) (l : Locals) (w : World) :
    replayEvents nestStep (false, false) (iterationEvents env l w) = some (false, false) := by
  cases hsend : env.isSendFrame w.clock <;>
    simp [iterationEvents, hsend, replayEvents, nestStep]

/-- The calls of the loop of `sendFrame`, however it ends, never enter or
leave `_acquisitionActiveGuard` while `_driverGuard` is held, and never enter
`_driverGuard` while `_acquisitionActiveGuard` is held. -/
theorem sendFrameLoop_nest (env : Env) (fuel : Nat) :
    ∀ (l : Locals) (w : World),
      l.driverSection = { guard := Guard.driverGuard, state := false } →
      w._driverGuard = false → w._acquisitionActiveGuard = false →
      ∃ (ev : List Event) (held : Bool × Bool),
        (sendFrameLoop env fuel l w).world.trace = w.trace ++ ev ∧
        replayEvents nestStep (false, false) ev = some held := by
  induction fuel with
  | zero =>
    intro l w _ _ _
    exact ⟨[], (false, false), by simp [sendFrameLoop, Outcome.world], rfl⟩
  | succ fuel ih =>
    intro l w hl hd hf
    have hls : l.driverSection.state = false := by rw [hl]
    cases hnc : env.isAcquisitionNotComplete w.clock with
    | false =>
      rw [sendFrameLoop_complete env fuel l w hls hnc]
      exact ⟨_, (false, false), rfl, by simp [replayEvents, nestStep]⟩
    | true =>
      cases hact : w._acquisitionActive with
      | false =>
        rw [sendFrameLoop_inactive env fuel l w hls hf hnc hact]
        exact ⟨_, (false, false), rfl, by simp [replayEvents, nestStep]⟩
      | true =>
        cases hnew : env.newSucceeds w.clock with
        | false =>
          rw [sendFrameLoop_badAlloc env fuel l w hl hd hf hnc hact hnew]
          exact ⟨_, (false, false), rfl, by simp [replayEvents, nestStep]⟩
        | true =>
          cases hnull : (env.isSendFrame w.clock && env.makeFrameNull w.clock) with
          | true =>
            simp only [Bool.and_eq_true] at hnull
            rw [sendFrameLoop_nullFrame env fuel l w hl hd hf hnc hact hnew hnull.1 hnull.2]
            exact ⟨_, (true, false), rfl, by simp [replayEvents, nestStep]⟩
          | false =>
            rw [sendFrameLoop_step env fuel l w hl hd hf hnc hact hnew
              (by intro h1; rw [h1] at hnull; simpa using hnull)]
            obtain ⟨ev, held, h1, h2⟩ := ih
              { l with offset := wrapInt (l.offset + IMAGE_DATA_OFFSET) }
              { w with clock := w.clock + 1
                       frameCount := w.frameCount + 1
                       trace := w.trace ++ iterationEvents env l w } hl hd hf
            refine ⟨iterationEvents env l w ++ ev, held, ?_, ?_⟩
            · rw [h1, List.append_assoc]
            · rw [replayEvents_append, iterationEvents_nest]
              exact h2

/-- C25: started with both critical sections unlocked, `sendFrame`,
`stopCapture`, `startCapture` (after the notification of the listeners),
`isAcquisitionActive` and `setAcquisitionActive` make calls that `nestStep`
accepts: `_acquisitionActiveGuard` is entered and left only while
`_driverGuard` is not held, `_driverGuard` is entered only while
`_acquisitionActiveGuard` is not held, and `pthread_join` is called while
neither is held.  For `sendFrame` this holds however the call ends. -/
theorem guards_never_nested (env : Env) (fuel : Nat) (w : World)
    (hd : w._driverGuard = false) (hf : w._acquisitionActiveGuard = false) :
    (∃ (ev : List Event) (held : Bool × Bool),
      (sendFrame env fuel w).world.trace = w.trace ++ ev ∧
      replayEvents nestStep (false, false) ev = some held) ∧
    (∃ ev : List Event,
      (stopCapture w).world.trace = w.trace ++ ev ∧
      replayEvents nestStep (false, false) ev = some (false, false) ∧
      (w.isAcquiring = true → ev = [Event.enter Guard.acquisitionActiveGuard,
        Event.leave Guard.acquisitionActiveGuard,
        Event.pthread_join w._sendThread,
        Event.enter Guard.driverGuard,
        Event.leave Guard.driverGuard])) ∧
    (∀ (notifyAllListeners : M Unit) (w1 : World), w.isOpen = true →
      notifyAllListeners { w with trace := w.trace ++ [Event.notifyAllListeners] }
        = Outcome.done () w1 →
      w1._acquisitionActiveGuard = false →
      ∃ ev : List Event,
        (startCapture env notifyAllListeners w).world.trace = w1.trace ++ ev ∧
        replayEvents nestStep (false, false) ev = some (false, false)) ∧
    (∃ ev : List Event,
      (isAcquisitionActive w).world.trace = w.trace ++ ev ∧
      replayEvents nestStep (false, false) ev = some (false, false)) ∧
    (∀ state : Bool, ∃ ev : List Event,
      (setAcquisitionActive state w).world.trace = w.trace ++ ev ∧
      replayEvents nestStep (false, false) ev = some (false, false)) := by
  refine ⟨?_, ?_, fun notif w1 hopen hnot hf1 => ?_, ?_, fun state => ?_⟩
  · rw [sendFrame_eq_loop]
    exact sendFrameLoop_nest env fuel (initialLocals w) w rfl hd hf
  · cases hacq : w.isAcquiring with
    | false =>
      refine ⟨[], ?_, rfl, fun h => (by cases h)⟩
      simp [stopCapture, hacq, Outcome.world]
    | true =>
      rw [stopCapture_acquiring w hacq hd hf]
      exact ⟨_, rfl, by simp [replayEvents, nestStep], fun _ => rfl⟩
  · rw [startCapture_open env notif w w1 hopen hnot hf1]
    by_cases he : env.pthread_create w1.created = 0
    · rw [if_pos he]
      exact ⟨_, rfl, by simp [replayEvents, nestStep]⟩
    · rw [if_neg he]
      exact ⟨_, rfl, by simp [replayEvents, nestStep]⟩
  · rw [isAcquisitionActive_apply w hf]
    exact ⟨_, rfl, by simp [replayEvents, nestStep]⟩
  · rw [setAcquisitionActive_apply state w hf]
    exact ⟨_, rfl, by simp [replayEvents, nestStep]⟩

/-- Witness for C25: the theorem applied to `stopCapture` on the acquiring
`RS170` adaptor. -/
theorem guards_never_nested_witness :
    ∃ ev : List Event,
      (stopCapture acquiringAdaptor).world.trace = acquiringAdaptor.trace ++ ev ∧
      replayEvents nestStep (false, false) ev = some (false, false) ∧
      (acquiringAdaptor.isAcquiring = true → ev = [Event.enter Guard.acquisitionActiveGuard,
        Event.leave Guard.acquisitionActiveGuard,
        Event.pthread_join acquiringAdaptor._sendThread,
        Event.enter Guard.driverGuard,
        Event.leave Guard.driverGuard]) :=
  (guards_never_nested hostTwoFrames 0 acquiringAdaptor rfl rfl).2.1

/-! ## After `stop()` -/

/-- What `stop()` does on an acquiring device whose critical sections are
unlocked. -/
theorem stop_acquiring (w : World) (hacq : w.isAcquiring = true)
    (hd : w._driverGuard = false) (hf : w._acquisitionActiveGuard = false) :
    stop w = Outcome.done true
      { w with isAcquiring := false
               _acquisitionActive := false
               threads := match w._sendThread with
                 | some t => w.threads.erase t
                 | none => w.threads
               trace := w.trace ++ [Event.enter Guard.acquisitionActiveGuard,
                 Event.leave Guard.acquisitionActiveGuard,
                 Event.pthread_join w._sendThread,
                 Event.enter Guard.driverGuard,
                 Event.leave Guard.driverGuard] } := by
  unfold stop
  rw [M_bind_done _ (stopCapture_acquiring w hacq hd hf)]
  simp [M_bind_apply, M.bind, M_pure_apply]

/-- The body of the loop of `sendFrame` when the allocation fails, started
before or right after `driverSection->enter()`. -/
theorem sendFrameBody_badAlloc (env : Env) (k : Nat) (l : Locals) (v : World)
    (hl : l.driverSection = { guard := Guard.driverGuard, state := v._driverGuard })
    (hnew : env.newSucceeds k = false) :
    sendFrameBody env k l v = Outcome.done
      (BodyExit.returned { l with driverSection := { guard := Guard.driverGuard, state := true } })
      { v with _driverGuard := true
               trace := v.trace ++
                 ((if v._driverGuard = true then [] else [Event.enter Guard.driverGuard]) ++
                 [Event.newBuffer (bufferSize l.imageWidth l.imageHeight l.imageBands) false,
                   Event.adaptorError "imaq:demo:badFrameAlloc"
                     "Unable to allocate memory for frame."]) } := by
  cases hdg : v._driverGuard <;> rw [hdg] at hl <;>
  simp [M_bind_apply, M.bind, M_pure_apply, sendFrameBody, emit, IAutoCriticalSection.enter,
    ICriticalSection.enter, World.locked, World.setLocked, hl, hdg, hnew]

/-- The body of the loop of `sendFrame` when the frame is not sent, started
before or right after `driverSection->enter()`. -/
theorem sendFrameBody_skip (env : Env) (k : Nat) (l : Locals) (v : World)
    (hl : l.driverSection = { guard := Guard.driverGuard, state := v._driverGuard })
    (hnew : env.newSucceeds k = true) (hsend : env.isSendFrame k = false) :
    sendFrameBody env k l v = Outcome.done
      (BodyExit.endOfBody
        { l with driverSection := { guard := Guard.driverGuard, state := false }
                 offset := wrapInt (l.offset + IMAGE_DATA_OFFSET) })
      { v with _driverGuard := false
               frameCount := v.frameCount + 1
               trace := v.trace ++
                 ((if v._driverGuard = true then [] else [Event.enter Guard.driverGuard]) ++
                 [Event.newBuffer (bufferSize l.imageWidth l.imageHeight l.imageBands) true,
                   Event.usleep (IMAGE_FRAME_PAUSE_TIME * 1000),
                   Event.incrementFrameCount,
                   Event.deleteBuffer,
                   Event.leave Guard.driverGuard]) } := by
  cases hdg : v._driverGuard <;> rw [hdg] at hl <;>
  simp [M_bind_apply, M.bind, M_pure_apply, sendFrameBody, emit, IAutoCriticalSection.enter,
    IAutoCriticalSection.leave, ICriticalSection.enter, ICriticalSection.leave, World.locked,
    World.setLocked, incrementFrameCount, hl, hdg, hnew, hsend]

/-- The body of the loop of `sendFrame` when the frame is sent, started before
or right after `driverSection->enter()`. -/
theorem sendFrameBody_send (env : Env) (k : Nat) (l : Locals) (v : World)
    (hl : l.driverSection = { guard := Guard.driverGuard, state := v._driverGuard })
    (hnew : env.newSucceeds k = true) (hsend : env.isSendFrame k = true)
    (hnull : env.makeFrameNull k = false) :
    sendFrameBody env k l v = Outcome.done
      (BodyExit.endOfBody
        { l with driverSection := { guard := Guard.driverGuard, state := false }
                 offset := wrapInt (l.offset + IMAGE_DATA_OFFSET) })
      { v with _driverGuard := false
               frameCount := v.frameCount + 1
               trace := v.trace ++
                 ((if v._driverGuard = true then [] else [Event.enter Guard.driverGuard]) ++
                 [Event.newBuffer (bufferSize l.imageWidth l.imageHeight l.imageBands) true,
                   Event.usleep (IMAGE_FRAME_PAUSE_TIME * 1000),
                   Event.getROI,
                   Event.makeFrame (getFrameType v) (env.getROI k).width (env.getROI k).height
                     false,
                   Event.setImage
                     (generateFrame l.imageWidth l.imageHeight l.imageBands l.offset).imBuffer
                     l.imageWidth l.imageHeight (env.getROI k).originX (env.getROI k).originY,
                   Event.setTime,
                   Event.receiveFrame,
                   Event.incrementFrameCount,
                   Event.deleteBuffer,
                   Event.leave Guard.driverGuard]) } := by
  cases hdg : v._driverGuard <;> rw [hdg] at hl <;>
  simp [M_bind_apply, M.bind, M_pure_apply, sendFrameBody, emit, IAutoCriticalSection.enter,
    IAutoCriticalSection.leave, ICriticalSection.enter, ICriticalSection.leave, World.locked,
    World.setLocked, incrementFrameCount, forwardFrame, getFrameType, hl, hdg, hnew, hsend,
    hnull]


/-- The loop of `sendFrame` at its condition while the flag is false: it ends
at this evaluation, without an iteration. -/
theorem sendFrameLoop_flagFalse (env : Env) (fuel : Nat) (l : Locals) (v : World)
    (hls : l.driverSection.state = false)
    (hf : v._acquisitionActiveGuard = false) (hflag : v._acquisitionActive = false) :
    ∃ ev : List Event,
      sendFrameLoop env (fuel + 1) l v = Outcome.done ()
        { v with clock := v.clock + 1, trace := v.trace ++ ev } ∧
      ev.count (Event.enter Guard.driverGuard) = 0 ∧
      ev.count Event.incrementFrameCount = 0 := by
  cases hnc : env.isAcquisitionNotComplete v.clock with
  | false =>
    exact ⟨_, sendFrameLoop_complete env fuel l v hls hnc, by simp, by simp⟩
  | true =>
    exact ⟨_, sendFrameLoop_inactive env fuel l v hls hf hnc hflag, by simp, by simp⟩

/-- Once the flag is false the capture thread returns from `sendThread`,
wherever it is: an iteration that is in progress is completed (or left after a
failed allocation) and `_driverGuard` is left, no further iteration is begun,
and nothing but `_driverGuard`, the frame count and the bookkeeping of the
model changes. -/
theorem resume_returns (env : Env) (fuel n : Nat) (point : CapturePoint) (v : World)
    (hf : v._acquisitionActiveGuard = false) (hflag : v._acquisitionActive = false)
    (hpoint : point.consistent v)
    (hframe : ∀ k l, point = CapturePoint.body k l →
      env.isSendFrame k = true → env.makeFrameNull k = false) :
    ∃ (ev : List Event) (c f : Nat),
      resume env (fuel + 1) (n + 1) point v = Outcome.done ()
        { v with _driverGuard := false
                 clock := v.clock + c
                 frameCount := v.frameCount + f
                 trace := v.trace ++ ev } ∧
      f ≤ 1 ∧
      ev.count Event.incrementFrameCount = f ∧
      ev.count (Event.enter Guard.driverGuard) ≤ 1 ∧
      (v._driverGuard = true → ev.count (Event.enter Guard.driverGuard) = 0) ∧
      ((∀ k l, point ≠ CapturePoint.body k l) →
        f = 0 ∧ ev.count (Event.enter Guard.driverGuard) = 0) := by
  cases point with
  | threadTest =>
    have hd : v._driverGuard = false := hpoint
    refine ⟨[Event.enter Guard.acquisitionActiveGuard,
      Event.leave Guard.acquisitionActiveGuard], 0, 0, ?_, le_of_lt Nat.one_pos, ?_, ?_, ?_, ?_⟩
    · show sendThread env (fuel + 1) (n + 1) v = _
      rw [sendThread_inactive env (fuel + 1) n v hf hflag]
      simp [hd]
    · simp
    · simp
    · intro h
      rw [hd] at h
      cases h
    · intro _
      simp
  | loopTest l =>
    obtain ⟨hl, hd⟩ : l.driverSection = { guard := Guard.driverGuard, state := false } ∧
      v._driverGuard = false := hpoint
    obtain ⟨ev, h1, h2, h3⟩ := sendFrameLoop_flagFalse env fuel l v (by rw [hl]) hf hflag
    refine ⟨ev ++ [Event.enter Guard.acquisitionActiveGuard,
      Event.leave Guard.acquisitionActiveGuard], 1, 0, ?_, le_of_lt Nat.one_pos, ?_, ?_, ?_, ?_⟩
    · show (sendFrameLoop env (fuel + 1) l >>= fun _ => sendThread env (fuel + 1) (n + 1)) v = _
      rw [M_bind_done _ h1,
        sendThread_inactive env (fuel + 1) n
          { v with clock := v.clock + 1, trace := v.trace ++ ev } hf hflag]
      simp [hd]
    · rw [List.count_append, h3]
      simp
    · rw [List.count_append, h2]
      simp
    · intro h
      rw [hd] at h
      cases h
    · intro _
      rw [List.count_append, h2]
      simp
  | body k l =>
    have hl : l.driverSection = { guard := Guard.driverGuard, state := v._driverGuard } := hpoint
    cases hnew : env.newSucceeds k with
    | false =>
      refine ⟨(if v._driverGuard = true then [] else [Event.enter Guard.driverGuard]) ++
        [Event.newBuffer (bufferSize l.imageWidth l.imageHeight l.imageBands) false,
          Event.adaptorError "imaq:demo:badFrameAlloc" "Unable to allocate memory for frame.",
          Event.leave Guard.driverGuard,
          Event.enter Guard.acquisitionActiveGuard,
          Event.leave Guard.acquisitionActiveGuard], 0, 0, ?_, le_of_lt Nat.one_pos, ?_, ?_, ?_,
        ?_⟩
      · simp only [resume]
        rw [M_bind_done _ (sendFrameBody_badAlloc env k l v hl hnew)]
        simp [M_bind_apply, M.bind, IAutoCriticalSection.destroy, ICriticalSection.leave,
          World.setLocked, sendThread, isAcquisitionActive, createAutoCriticalSection,
          ICriticalSection.enter, World.locked, M_pure_apply, hf, hflag]
      · cases v._driverGuard <;> simp [List.count_cons]
      · cases v._driverGuard <;> simp [List.count_cons]
      · intro h
        simp [h, List.count_cons]
      · intro h
        exact absurd rfl (h k l)
    | true =>
      have hbody : ∃ evb : List Event,
          sendFrameBody env k l v = Outcome.done
            (BodyExit.endOfBody
              { l with driverSection := { guard := Guard.driverGuard, state := false }
                       offset := wrapInt (l.offset + IMAGE_DATA_OFFSET) })
            { v with _driverGuard := false
                     frameCount := v.frameCount + 1
                     trace := v.trace ++
                       ((if v._driverGuard = true then [] else [Event.enter Guard.driverGuard]) ++
                         evb) } ∧
          evb.count Event.incrementFrameCount = 1 ∧
          evb.count (Event.enter Guard.driverGuard) = 0 := by
        cases hsend : env.isSendFrame k with
        | false =>
          exact ⟨_, sendFrameBody_skip env k l v hl hnew hsend, by simp [List.count_cons],
            by simp [List.count_cons]⟩
        | true =>
          exact ⟨_, sendFrameBody_send env k l v hl hnew hsend (hframe k l rfl hsend),
            by simp [List.count_cons], by simp [List.count_cons]⟩
      obtain ⟨evb, hb, cb1, cb2⟩ := hbody
      obtain ⟨evl, h1, h2, h3⟩ := sendFrameLoop_flagFalse env fuel
        { l with driverSection := { guard := Guard.driverGuard, state := false }
                 offset := wrapInt (l.offset + IMAGE_DATA_OFFSET) }
        { v with _driverGuard := false
                 frameCount := v.frameCount + 1
                 trace := v.trace ++
                   ((if v._driverGuard = true then [] else [Event.enter Guard.driverGuard]) ++
                     evb) } rfl hf hflag
      refine ⟨(if v._driverGuard = true then [] else [Event.enter Guard.driverGuard]) ++ evb ++
        evl ++ [Event.enter Guard.acquisitionActiveGuard,
          Event.leave Guard.acquisitionActiveGuard], 1, 1, ?_, le_refl 1, ?_, ?_, ?_, ?_⟩
      · simp only [resume]
        rw [M_bind_done _ hb]
        dsimp only
        rw [M_bind_done _ h1]
        show sendThread env (fuel + 1) (n + 1)
          { v with _driverGuard := false
                   clock := v.clock + 1
                   frameCount := v.frameCount + 1
                   trace := v.trace ++
                     ((if v._driverGuard = true then [] else [Event.enter Guard.driverGuard]) ++
                       evb) ++ evl } = _
        rw [sendThread_inactive env (fuel + 1) n
          { v with _driverGuard := false
                   clock := v.clock + 1
                   frameCount := v.frameCount + 1
                   trace := v.trace ++
                     ((if v._driverGuard = true then [] else [Event.enter Guard.driverGuard]) ++
                       evb) ++ evl } hf hflag]
        simp
      · simp only [List.count_append, cb1, h3]
        cases v._driverGuard <;> simp [List.count_cons]
      · simp only [List.count_append, cb2, h2]
        cases v._driverGuard <;> simp [List.count_cons]
      · intro h
        simp only [List.count_append, cb2, h2]
        simp [h, List.count_cons]
      · intro h
        exact absurd rfl (h k l)


theorem consistent_of_driverGuard (point : CapturePoint) (w v : World)
    (h : v._driverGuard = w._driverGuard) (hpoint : point.consistent w) :
    point.consistent v := by
  cases point with
  | threadTest =>
    show v._driverGuard = false
    rw [h]
    exact hpoint
  | loopTest l =>
    show _ ∧ v._driverGuard = false
    rw [h]
    exact hpoint
  | body k l =>
    show l.driverSection = { guard := Guard.driverGuard, state := v._driverGuard }
    rw [h]
    exact hpoint

/-- With a capture thread that does nothing between the write of the flag and
the join, `stopCaptureJoining` is `stopCapture`. -/
theorem stopCaptureJoining_pure : stopCaptureJoining (pure ()) = stopCapture := by
  funext w
  unfold stopCaptureJoining stopCapture
  by_cases h : w.isAcquiring = true
  · simp only [h, Bool.not_true, Bool.false_eq_true, if_false]
    rfl
  · simp [h]

/-- C23, counterexample: the device has been started twice, so that the
capture threads 0 and 1 exist and `_sendThread` holds the handle of thread 1.
Thread 1 is at the test of the flag in `sendThread`; thread 0 has found the
condition of the loop of `sendFrame` true and has not yet entered
`_driverGuard`.  `stop()` joins thread 1 and returns true with thread 0 still
existing; thread 0 then enters `_driverGuard`, generates a frame and hands it
to the engine: an iteration is executed after `stop()` has returned. -/
theorem no_iteration_after_stop_counterexample :
    startedTwiceAdaptor.isAcquiring = true ∧
    startedTwiceAdaptor.threads = [1, 0] ∧
    startedTwiceAdaptor._sendThread = some 1 ∧
    stopJoining (resume hostTwoFrames 1 1 CapturePoint.threadTest) startedTwiceAdaptor
      = Outcome.done true
        (stopJoining (resume hostTwoFrames 1 1 CapturePoint.threadTest) startedTwiceAdaptor).world ∧
    (stopJoining (resume hostTwoFrames 1 1 CapturePoint.threadTest)
      startedTwiceAdaptor).world.threads = [0] ∧
    (stopJoining (resume hostTwoFrames 1 1 CapturePoint.threadTest)
      startedTwiceAdaptor).world.frameCount = 0 ∧
    resume hostTwoFrames 1 1 (CapturePoint.body 0 (initialLocals startedTwiceAdaptor))
        (stopJoining (resume hostTwoFrames 1 1 CapturePoint.threadTest) startedTwiceAdaptor).world
      = Outcome.done ()
        { (stopJoining (resume hostTwoFrames 1 1 CapturePoint.threadTest)
            startedTwiceAdaptor).world with
          clock := 1
          frameCount := 1
          trace := (stopJoining (resume hostTwoFrames 1 1 CapturePoint.threadTest)
              startedTwiceAdaptor).world.trace ++
            [Event.enter Guard.driverGuard,
              Event.newBuffer 2 true,
              Event.usleep 30000,
              Event.getROI,
              Event.makeFrame MONO8 2 1 false,
              Event.setImage [some 0, some 1] 2 1 0 0,
              Event.setTime,
              Event.receiveFrame,
              Event.incrementFrameCount,
              Event.deleteBuffer,
              Event.leave Guard.driverGuard,
              Event.whileCondition false false,
              Event.enter Guard.acquisitionActiveGuard,
              Event.leave Guard.acquisitionActiveGuard,
              Event.enter Guard.acquisitionActiveGuard,
              Event.leave Guard.acquisitionActiveGuard] } := by
  refine ⟨?_, ?_, ?_, ?_, ?_, ?_, ?_⟩ <;> decide!

/-- C23 as amended (non-Windows build): the device is acquiring, the thread in
`_sendThread` is its only capture thread, that thread is at any of the points
of `CapturePoint` (so `_driverGuard` may be held by an iteration in progress)
and `makeFrame` does not return `NULL` in that iteration.  Then `stop()`
returns true.  Before it returns, the capture thread has completed the
iteration in progress, if there was one, has begun no other, has left
`_driverGuard` and has returned from `sendThread`; the frame count has grown by
at most one.  On return no capture thread exists, `_driverGuard` is unlocked,
the flag is false and the device is not acquiring.  In every state in which
the flag is false the capture code runs no iteration. -/
theorem no_iteration_after_stop (env : Env) (fuel n : Nat) (point : CapturePoint) (w : World)
    (t : Nat)
    (hacq : w.isAcquiring = true) (hf : w._acquisitionActiveGuard = false)
    (hpoint : point.consistent w)
    (hframe : ∀ k l, point = CapturePoint.body k l →
      env.isSendFrame k = true → env.makeFrameNull k = false)
    (hthread : w._sendThread = some t) (honly : w.threads = [t]) :
    (∃ (ev : List Event) (c f : Nat),
      stopJoining (resume env (fuel + 1) (n + 1) point) w = Outcome.done true
        { w with isAcquiring := false
                 _acquisitionActive := false
                 _driverGuard := false
                 threads := []
                 clock := w.clock + c
                 frameCount := w.frameCount + f
                 trace := w.trace ++ [Event.enter Guard.acquisitionActiveGuard,
                   Event.leave Guard.acquisitionActiveGuard] ++ ev ++
                   [Event.pthread_join (some t),
                     Event.enter Guard.driverGuard,
                     Event.leave Guard.driverGuard] } ∧
      f ≤ 1 ∧
      ev.count Event.incrementFrameCount = f ∧
      ev.count (Event.enter Guard.driverGuard) ≤ 1 ∧
      (w._driverGuard = true → ev.count (Event.enter Guard.driverGuard) = 0) ∧
      ((∀ k l, point ≠ CapturePoint.body k l) →
        f = 0 ∧ ev.count (Event.enter Guard.driverGuard) = 0)) ∧
    (∀ (env' : Env) (fuel' n' : Nat) (v : World), v._acquisitionActiveGuard = false →
      v._acquisitionActive = false →
      sendThread env' fuel' (n' + 1) v = Outcome.done ()
        { v with trace := v.trace ++ [Event.enter Guard.acquisitionActiveGuard,
                   Event.leave Guard.acquisitionActiveGuard] }) ∧
    (∀ (env' : Env) (fuel' : Nat) (v : World), v._acquisitionActiveGuard = false →
      v._acquisitionActive = false →
      ∃ ev : List Event,
        sendFrame env' (fuel' + 1) v = Outcome.done ()
          { v with clock := v.clock + 1, trace := v.trace ++ ev } ∧
        ev.count (Event.enter Guard.driverGuard) = 0 ∧
        ev.count Event.incrementFrameCount = 0) := by
  refine ⟨?_, fun env' fuel' n' v hv hv' => sendThread_inactive env' fuel' n' v hv hv',
    fun env' fuel' v hv hv' => ?_⟩
  · obtain ⟨ev, c, f, hr, h1, h2, h3, h4, h5⟩ := resume_returns env fuel n point
      { w with _acquisitionActive := false
               trace := w.trace ++ [Event.enter Guard.acquisitionActiveGuard,
                 Event.leave Guard.acquisitionActiveGuard] } hf rfl
      (consistent_of_driverGuard point w _ rfl hpoint) hframe
    refine ⟨ev, c, f, ?_, h1, h2, h3, h4, h5⟩
    have hs : stopCaptureJoining (resume env (fuel + 1) (n + 1) point) w = Outcome.done true
        { w with _acquisitionActive := false
                 _driverGuard := false
                 threads := []
                 clock := w.clock + c
                 frameCount := w.frameCount + f
                 trace := w.trace ++ [Event.enter Guard.acquisitionActiveGuard,
                   Event.leave Guard.acquisitionActiveGuard] ++ ev ++
                   [Event.pthread_join (some t),
                     Event.enter Guard.driverGuard,
                     Event.leave Guard.driverGuard] } := by
      unfold stopCaptureJoining
      simp only [hacq, Bool.not_true, Bool.false_eq_true, if_false]
      rw [M_bind_done _ (setAcquisitionActive_apply false w hf), M_bind_done _ hr]
      simp [pthread_join, M_bind_apply, M.bind, M_pure_apply,
        IAutoCriticalSection.destroy, IAutoCriticalSection.leave, createAutoCriticalSection,
        ICriticalSection.enter, ICriticalSection.leave, World.locked, World.setLocked, hthread,
        honly, hacq]
    unfold stopJoining
    rw [M_bind_done _ hs]
    simp [M_bind_apply, M.bind, M_pure_apply]
  · rw [sendFrame_eq_loop]
    exact sendFrameLoop_flagFalse env' fuel' (initialLocals v) v rfl hv hv'

/-- Witness for C23 as amended: the theorem applied to the acquiring 2 x 1
adaptor whose capture thread 0 is inside the first iteration, right after
`driverSection->enter()`, so that `_driverGuard` is held when `stop()` is
called. -/
theorem no_iteration_after_stop_witness :
    ∃ (ev : List Event) (c f : Nat),
      stopJoining
          (resume hostTwoFrames (0 + 1) (0 + 1)
            (CapturePoint.body 0
              { initialLocals tinyAcquiringAdaptor with
                driverSection := { guard := Guard.driverGuard, state := true } }))
          { tinyAcquiringAdaptor with _driverGuard := true }
        = Outcome.done true
          { ({ tinyAcquiringAdaptor with _driverGuard := true } : World) with
            isAcquiring := false
            _acquisitionActive := false
            _driverGuard := false
            threads := []
            clock := ({ tinyAcquiringAdaptor with _driverGuard := true } : World).clock + c
            frameCount := ({ tinyAcquiringAdaptor with _driverGuard := true } : World).frameCount + f
            trace := ({ tinyAcquiringAdaptor with _driverGuard := true } : World).trace ++
              [Event.enter Guard.acquisitionActiveGuard,
                Event.leave Guard.acquisitionActiveGuard] ++ ev ++
              [Event.pthread_join (some 0),
                Event.enter Guard.driverGuard,
                Event.leave Guard.driverGuard] } ∧
      f ≤ 1 ∧
      ev.count Event.incrementFrameCount = f ∧
      ev.count (Event.enter Guard.driverGuard) ≤ 1 ∧
      (({ tinyAcquiringAdaptor with _driverGuard := true } : World)._driverGuard = true →
        ev.count (Event.enter Guard.driverGuard) = 0) ∧
      ((∀ k l, CapturePoint.body 0
            { initialLocals tinyAcquiringAdaptor with
              driverSection := { guard := Guard.driverGuard, state := true } }
          ≠ CapturePoint.body k l) →
        f = 0 ∧ ev.count (Event.enter Guard.driverGuard) = 0) :=
  (no_iteration_after_stop hostTwoFrames 0 0
    (CapturePoint.body 0
      { initialLocals tinyAcquiringAdaptor with
        driverSection := { guard := Guard.driverGuard, state := true } })
    { tinyAcquiringAdaptor with _driverGuard := true } 0 rfl rfl rfl (fun _ _ _ _ => rfl) rfl
    rfl).1

end DemoAdaptor
